import Mathlib

/-!
A shallow embedding of `openssl3-lib-general-examples/examples.c`.  The program only sequences calls into
OpenSSL and the tpm2 provider, so every library call is answered by an
oracle; the embedding keeps the control flow of each C function (the early
`goto exit`, the clean-up block) and records every library call together
with its arguments and its answer in a chronological trace.
-/

namespace Examples

/-! ## Library interface -/

/-- Identity of an object handed out by the library (a non-NULL pointer). -/
abbrev Handle := Nat

/-- The raw answer of the library to one call: the `int` return code, whether a
returned (or out-parameter) pointer is non-NULL, the length stored through a
`size_t *` by a sizing call, and the bytes written to an output buffer or BIO. -/
structure Resp where
  rc : Int
  ptr : Bool
  len : Nat
  data : List Nat
deriving DecidableEq, Repr

/-- The environment: the answer to the `n`-th library call of the run. -/
abbrev Oracle := Nat → Resp

/-- What the program observes of a call: like `Resp`, with the pointer made
concrete (`none` is NULL, `some h` a freshly created object). -/
structure Outcome where
  rc : Int
  obj : Option Handle
  len : Nat
  data : List Nat
deriving DecidableEq, Repr

/-- Message digests; the program only uses `EVP_sha256()`. -/
inductive MD where
  | sha256
deriving DecidableEq, Repr

/-- `RSA_PKCS1_PADDING` of `openssl/rsa.h`. -/
def RSA_PKCS1_PADDING : Int := 1

/-- `RSA_PKCS1_PSS_PADDING` of `openssl/rsa.h`. -/
def RSA_PKCS1_PSS_PADDING : Int := 6

/-- An `OSSL_PARAM` array element as built by the constructors the program
calls: the key, the data the element points to, and the declared size. -/
inductive OSSL_PARAM where
  | uint (key : String) (val : Nat)
  | utf8_string (key : String) (buf : String) (bsize : Nat)
  | terminator
deriving DecidableEq, Repr

def OSSL_PARAM_construct_uint (key : String) (val : Nat) : OSSL_PARAM :=
  OSSL_PARAM.uint key val

def OSSL_PARAM_construct_utf8_string (key : String) (buf : String) (bsize : Nat) : OSSL_PARAM :=
  OSSL_PARAM.utf8_string key buf bsize

def OSSL_PARAM_construct_end : OSSL_PARAM :=
  OSSL_PARAM.terminator

/-- Number of bytes a string literal occupies: its characters and the
terminating NUL (the literals of this program are ASCII). -/
def literal_bytes (s : String) : Nat := s.length + 1

/-- The library calls made by `examples.c`, with the arguments that matter.
Pointer arguments the code has checked against NULL are `Handle`s, the others
`Option Handle`.  The `input` of the two PEM readers is the text the BIO holds
when the call is made. -/
inductive Call where
  | RAND_bytes (num : Nat)
  | OSSL_PROVIDER_load (name : String)
  | OSSL_PROVIDER_self_test (prov : Handle)
  | OSSL_PROVIDER_unload (prov : Handle)
  | EVP_PKEY_CTX_new_from_name (name propq : String)
  | EVP_PKEY_CTX_new_from_pkey (pkey : Option Handle) (propq : String)
  | EVP_PKEY_CTX_free (ctx : Handle)
  | EVP_PKEY_keygen_init (ctx : Handle)
  | EVP_PKEY_CTX_set_params (ctx : Handle) (params : List OSSL_PARAM)
  | EVP_PKEY_generate (ctx : Handle)
  | EVP_PKEY_print_public_fp (pkey : Option Handle)
  | EVP_PKEY_free (pkey : Handle)
  | BIO_new_file (path mode : String)
  | BIO_new_mem
  | BIO_free_all (bio : Handle)
  | BIO_free (bio : Handle)
  | PEM_write_bio_PrivateKey (bio : Handle) (pkey : Option Handle)
  | PEM_read_bio_PrivateKey (bio : Handle) (input : Option (List Nat))
  | PEM_write_bio_PUBKEY (bio : Handle) (pkey : Option Handle)
  | PEM_read_bio_PUBKEY (bio : Handle) (input : Option (List Nat))
  | EVP_PKEY_sign_init (ctx : Handle)
  | EVP_PKEY_verify_init (ctx : Handle)
  | EVP_PKEY_encrypt_init (ctx : Handle)
  | EVP_PKEY_decrypt_init (ctx : Handle)
  | EVP_PKEY_CTX_set_signature_md (ctx : Handle) (md : MD)
  | EVP_PKEY_CTX_set_rsa_padding (ctx : Handle) (pad : Int)
  | EVP_PKEY_sign (ctx : Handle) (sig : Option Handle) (siglen : Nat)
      (tbs : List Nat) (tbslen : Nat)
  | EVP_PKEY_verify (ctx : Handle) (sig : Handle) (sigbytes : List Nat) (siglen : Nat)
      (tbs : List Nat) (tbslen : Nat)
  | EVP_PKEY_encrypt (ctx : Handle) (out : Option Handle) (outlen : Nat)
      (inbytes : List Nat) (inlen : Nat)
  | EVP_PKEY_decrypt (ctx : Handle) (out : Option Handle) (outlen : Nat)
      (inbuf : Handle) (inbytes : List Nat) (inlen : Nat)
  | OPENSSL_malloc (num : Nat)
  | OPENSSL_free (p : Handle)
deriving DecidableEq, Repr

/-- The functions of `examples.c` that `main` calls. -/
inductive Fn where
  | gen_random
  | gen_rsaKey
  | gen_ecKey
  | load_rsa_key
  | load_ec_key
  | rsa_evp_pkey_sign_verify
  | ec_evp_pkey_sign_verify
  | rsa_evp_pkey_encrypt_decrypt
deriving DecidableEq, Repr

/-- One entry of the run's trace: a library call with its outcome, or `main`
entering / leaving one of the program's own functions with its result. -/
inductive Event where
  | lib (c : Call) (r : Outcome)
  | enter (f : Fn)
  | ret_int (f : Fn) (v : Int)
  | ret_ptr (f : Fn) (p : Option Handle)
deriving DecidableEq, Repr

/-- What a BIO reads from and writes to. -/
inductive Backing where
  | file (path : String)
  | mem (buf : List Nat)
deriving DecidableEq, Repr

/-- State of the world around the program: the number of library calls made so
far (which also names the object a successful creating call returns), the
trace, the file system as a map from path to contents, and the open BIOs. -/
structure World where
  next : Nat
  trace : List Event
  fs : String → Option (List Nat)
  bios : Handle → Option Backing

/-- The outcome of the `n`-th library call, given the oracle's answer: a
non-NULL pointer becomes the fresh object `n`. -/
def mkOutcome (r : Resp) (n : Nat) : Outcome :=
  { rc := r.rc, obj := if r.ptr then some n else none, len := r.len, data := r.data }

/-- Perform one library call: ask the oracle, log the call. -/
def libcall (o : Oracle) (c : Call) (w : World) : Outcome × World :=
  let out := mkOutcome (o w.next) w.next
  (out, { w with next := w.next + 1, trace := w.trace ++ [Event.lib c out] })

/-- The text a BIO currently holds. -/
def bio_contents (w : World) (bio : Handle) : Option (List Nat) :=
  match w.bios bio with
  | some (Backing.file path) => w.fs path
  | some (Backing.mem buf) => some buf
  | none => none

/-- Append bytes to whatever backs a BIO (file BIOs are modelled write-through). -/
def bio_append (w : World) (bio : Handle) (data : List Nat) : World :=
  match w.bios bio with
  | some (Backing.file path) =>
      { w with fs := Function.update w.fs path (some ((w.fs path).getD [] ++ data)) }
  | some (Backing.mem buf) =>
      { w with bios := Function.update w.bios bio (some (Backing.mem (buf ++ data))) }
  | none => w

/-- `BIO_new_file(path, mode)`: when it succeeds the BIO is backed by the file,
and mode `"w"` creates or truncates the file. -/
def BIO_new_file (o : Oracle) (path mode : String) (w : World) : Outcome × World :=
  let (r, w) := libcall o (Call.BIO_new_file path mode) w
  (r, match r.obj with
    | none => w
    | some bio =>
      let w := { w with bios := Function.update w.bios bio (some (Backing.file path)) }
      if mode = "w" then { w with fs := Function.update w.fs path (some []) }
      else w)

/-- `BIO_new(BIO_s_mem())`: when it succeeds the BIO is an empty memory buffer. -/
def BIO_new_mem (o : Oracle) (w : World) : Outcome × World :=
  let (r, w) := libcall o Call.BIO_new_mem w
  (r, match r.obj with
    | none => w
    | some bio => { w with bios := Function.update w.bios bio (some (Backing.mem [])) })

/-- `PEM_write_bio_PrivateKey(out, pkey, 0, NULL, 0, 0, NULL)`: the bytes the
library emits go to the BIO. -/
def PEM_write_bio_PrivateKey (o : Oracle) (bio : Handle) (pkey : Option Handle) (w : World) :
    Outcome × World :=
  let (r, w) := libcall o (Call.PEM_write_bio_PrivateKey bio pkey) w
  (r, bio_append w bio r.data)

/-- `PEM_write_bio_PUBKEY(bio, pkey)`. -/
def PEM_write_bio_PUBKEY (o : Oracle) (bio : Handle) (pkey : Option Handle) (w : World) :
    Outcome × World :=
  let (r, w) := libcall o (Call.PEM_write_bio_PUBKEY bio pkey) w
  (r, bio_append w bio r.data)

/-- `PEM_read_bio_PrivateKey(bio, NULL, 0, NULL)`: parses the text held by the BIO. -/
def PEM_read_bio_PrivateKey (o : Oracle) (bio : Handle) (w : World) : Outcome × World :=
  libcall o (Call.PEM_read_bio_PrivateKey bio (bio_contents w bio)) w

/-- `PEM_read_bio_PUBKEY(bio, NULL, NULL, NULL)`. -/
def PEM_read_bio_PUBKEY (o : Oracle) (bio : Handle) (w : World) : Outcome × World :=
  libcall o (Call.PEM_read_bio_PUBKEY bio (bio_contents w bio)) w

/-! ## Buffers and C library helpers -/

/-- Contents of a fresh `OPENSSL_malloc(num)` block: `num` bytes the program
does not control (taken from the oracle, padded with zeros). -/
def malloc_bytes (num : Nat) (junk : List Nat) : List Nat :=
  (junk ++ List.replicate num 0).take num

/-- Store `data` at the start of a buffer. -/
def overwrite (buf data : List Nat) : List Nat :=
  data ++ buf.drop data.length

/-- `memset(p, c, n)` on a buffer. -/
def memset (buf : List Nat) (c n : Nat) : List Nat :=
  List.replicate n c ++ buf.drop n

/-- `strncmp(s1, s2, n)`: compare at most `n` bytes as `unsigned char`, stopping
after the first difference or after a NUL.  A byte past the end of a modelled
buffer reads as 0; the program only compares buffers of at least `n` bytes. -/
def strncmp : List Nat → List Nat → Nat → Int
  | _, _, 0 => 0
  | s1, s2, n + 1 =>
    let c1 := s1.headD 0
    let c2 := s2.headD 0
    if c1 ≠ c2 then (c1 : Int) - (c2 : Int)
    else if c1 = 0 then 0
    else strncmp s1.tail s2.tail n

/-- `~b` stored back into an `unsigned char`: the operand is promoted to `int`,
complemented, and reduced modulo 2^8. -/
def not_uchar (b : Nat) : Nat :=
  ((-(b : Int) - 1) % 2 ^ 8).toNat

/-! ## `examples.c` -/

def RSA_KEY_PATH : String := "/tmp/rsa-key"

def EC_KEY_PATH : String := "/tmp/ec-key"

/-- `gen_random`. -/
def gen_random (o : Oracle) (w : World) : Int × World :=
  let (r, w) := libcall o (Call.RAND_bytes 4) w
  if r.rc ≠ 1 then (-1, w)
  else (0, w)

/-- Local variables of `gen_rsaKey` / `gen_ecKey` that the clean-up block and
the return statement read. -/
structure GenLocals where
  ret : Int := 1
  pkey : Option Handle := none
  ctx : Option Handle := none
  out : Option Handle := none

/-- The `params` array of `gen_rsaKey`. -/
def gen_rsaKey_params : List OSSL_PARAM :=
  let bits : Nat := 3072
  [OSSL_PARAM_construct_uint "bits" bits, OSSL_PARAM_construct_end]

/-- `gen_rsaKey` up to the `exit:` label. -/
def gen_rsaKey_body (o : Oracle) (w : World) : GenLocals × World :=
  let l : GenLocals := {}
  let params := gen_rsaKey_params
  let (r, w) := libcall o (Call.EVP_PKEY_CTX_new_from_name "RSA" "provider=tpm2") w
  let l := { l with ctx := r.obj }
  match r.obj with
  | none => (l, w)
  | some ctx =>
  let (r, w) := libcall o (Call.EVP_PKEY_keygen_init ctx) w
  if r.rc ≤ 0 then (l, w) else
  let (r, w) := libcall o (Call.EVP_PKEY_CTX_set_params ctx params) w
  if r.rc ≤ 0 then (l, w) else
  let (r, w) := libcall o (Call.EVP_PKEY_generate ctx) w
  let l := { l with pkey := r.obj }
  if r.rc ≤ 0 then (l, w) else
  let (_, w) := libcall o (Call.EVP_PKEY_print_public_fp l.pkey) w
  let (r, w) := BIO_new_file o RSA_KEY_PATH "w" w
  let l := { l with out := r.obj }
  match r.obj with
  | none => (l, w)
  | some out =>
  let (r, w) := PEM_write_bio_PrivateKey o out l.pkey w
  if r.rc = 0 then (l, w) else
  ({ l with ret := 0 }, w)

/-- The `exit:` block shared by `gen_rsaKey` and `gen_ecKey`. -/
def gen_exit (o : Oracle) (l : GenLocals) (w : World) : Int × World :=
  let w := match l.out with
    | some out => (libcall o (Call.BIO_free_all out) w).2
    | none => w
  let w := match l.pkey with
    | some pkey => (libcall o (Call.EVP_PKEY_free pkey) w).2
    | none => w
  (l.ret, w)

/-- `gen_rsaKey`. -/
def gen_rsaKey (o : Oracle) (w : World) : Int × World :=
  let (l, w) := gen_rsaKey_body o w
  gen_exit o l w

/-- The `params` array of `gen_ecKey`; `sizeof_ptr` is `sizeof(char *)`, the
value of `sizeof(group)` for `char *group`. -/
def gen_ecKey_params (sizeof_ptr : Nat) : List OSSL_PARAM :=
  let group : String := "P-256"
  [OSSL_PARAM_construct_utf8_string "group" group sizeof_ptr, OSSL_PARAM_construct_end]

/-- `gen_ecKey` up to the `exit:` label. -/
def gen_ecKey_body (sizeof_ptr : Nat) (o : Oracle) (w : World) : GenLocals × World :=
  let l : GenLocals := {}
  let params := gen_ecKey_params sizeof_ptr
  let (r, w) := libcall o (Call.EVP_PKEY_CTX_new_from_name "EC" "provider=tpm2") w
  let l := { l with ctx := r.obj }
  match r.obj with
  | none => (l, w)
  | some ctx =>
  let (r, w) := libcall o (Call.EVP_PKEY_keygen_init ctx) w
  if r.rc ≤ 0 then (l, w) else
  let (r, w) := libcall o (Call.EVP_PKEY_CTX_set_params ctx params) w
  if r.rc ≤ 0 then (l, w) else
  let (r, w) := libcall o (Call.EVP_PKEY_generate ctx) w
  let l := { l with pkey := r.obj }
  if r.rc ≤ 0 then (l, w) else
  let (_, w) := libcall o (Call.EVP_PKEY_print_public_fp l.pkey) w
  let (r, w) := BIO_new_file o EC_KEY_PATH "w" w
  let l := { l with out := r.obj }
  match r.obj with
  | none => (l, w)
  | some out =>
  let (r, w) := PEM_write_bio_PrivateKey o out l.pkey w
  if r.rc = 0 then (l, w) else
  ({ l with ret := 0 }, w)

/-- `gen_ecKey`. -/
def gen_ecKey (sizeof_ptr : Nat) (o : Oracle) (w : World) : Int × World :=
  let (l, w) := gen_ecKey_body sizeof_ptr o w
  gen_exit o l w

/-- `load_rsa_key`: the returned pointer is the function's result. -/
def load_rsa_key (o : Oracle) (w : World) : Option Handle × World :=
  let (r, w) := BIO_new_file o RSA_KEY_PATH "r" w
  match r.obj with
  | none => (none, w)
  | some bio =>
  let (r, w) := PEM_read_bio_PrivateKey o bio w
  let pKey := r.obj
  let w := (libcall o (Call.BIO_free_all bio) w).2
  (pKey, w)

/-- `load_ec_key`. -/
def load_ec_key (o : Oracle) (w : World) : Option Handle × World :=
  let (r, w) := BIO_new_file o EC_KEY_PATH "r" w
  match r.obj with
  | none => (none, w)
  | some bio =>
  let (r, w) := PEM_read_bio_PrivateKey o bio w
  let pKey := r.obj
  let w := (libcall o (Call.BIO_free_all bio) w).2
  (pKey, w)

/-- Local variables of the two sign/verify functions that their `exit:` block
and return statement read. -/
structure SvLocals where
  ret : Int := -1
  bio : Option Handle := none
  pPubKey : Option Handle := none
  ctx : Option Handle := none
  ctx2 : Option Handle := none
  sig : Option Handle := none

/-- The initial value of the `sha256` array: 32 zero bytes. -/
def sha256_init : List Nat := List.replicate 32 0

/-- The statement `sha256[3] = ~sha256[3]`. -/
def corrupt (sha256 : List Nat) : List Nat :=
  sha256.set 3 (not_uchar (sha256.getD 3 0))

/-- The `exit:` block shared by `ec_evp_pkey_sign_verify` and
`rsa_evp_pkey_sign_verify`. -/
def sv_exit (o : Oracle) (l : SvLocals) (w : World) : Int × World :=
  let w := match l.ctx2 with
    | some ctx2 => (libcall o (Call.EVP_PKEY_CTX_free ctx2) w).2
    | none => w
  let w := match l.pPubKey with
    | some pPubKey => (libcall o (Call.EVP_PKEY_free pPubKey) w).2
    | none => w
  let w := match l.bio with
    | some bio => (libcall o (Call.BIO_free bio) w).2
    | none => w
  let w := match l.sig with
    | some sig => (libcall o (Call.OPENSSL_free sig) w).2
    | none => w
  let w := match l.ctx with
    | some ctx => (libcall o (Call.EVP_PKEY_CTX_free ctx) w).2
    | none => w
  (l.ret, w)

/-- `ec_evp_pkey_sign_verify` up to the `exit:` label. -/
def ec_evp_pkey_sign_verify_body (o : Oracle) (pKey : Option Handle) (w : World) :
    SvLocals × World :=
  let l : SvLocals := {}
  let sha256 := sha256_init
  let sha256Len : Nat := 32
  let sigLen : Nat := 0
  let (r, w) := libcall o (Call.EVP_PKEY_CTX_new_from_pkey pKey "provider=tpm2") w
  let l := { l with ctx := r.obj }
  match r.obj with
  | none => (l, w)
  | some ctx =>
  let (r, w) := libcall o (Call.EVP_PKEY_sign_init ctx) w
  if r.rc ≤ 0 then (l, w) else
  let (r, w) := libcall o (Call.EVP_PKEY_CTX_set_signature_md ctx MD.sha256) w
  if r.rc ≤ 0 then (l, w) else
  let (r, w) := libcall o (Call.EVP_PKEY_sign ctx none sigLen sha256 sha256Len) w
  let sigLen := r.len
  if r.rc ≤ 0 then (l, w) else
  let (r, w) := libcall o (Call.OPENSSL_malloc sigLen) w
  let l := { l with sig := r.obj }
  match r.obj with
  | none => (l, w)
  | some sig =>
  let sigBuf := malloc_bytes sigLen r.data
  let (r, w) := libcall o (Call.EVP_PKEY_sign ctx (some sig) sigLen sha256 sha256Len) w
  let sigBuf := overwrite sigBuf r.data
  let sigLen := r.data.length
  if r.rc ≤ 0 then (l, w) else
  let (r, w) := BIO_new_mem o w
  let l := { l with bio := r.obj }
  match r.obj with
  | none => (l, w)
  | some bio =>
  let (r, w) := PEM_write_bio_PUBKEY o bio pKey w
  if r.rc ≤ 0 then (l, w) else
  let (r, w) := PEM_read_bio_PUBKEY o bio w
  let l := { l with pPubKey := r.obj }
  match r.obj with
  | none => (l, w)
  | some pPubKey =>
  let (r, w) := libcall o (Call.EVP_PKEY_CTX_new_from_pkey (some pPubKey) "provider=default") w
  let l := { l with ctx2 := r.obj }
  match r.obj with
  | none => (l, w)
  | some ctx2 =>
  let (r, w) := libcall o (Call.EVP_PKEY_verify_init ctx2) w
  if r.rc ≤ 0 then (l, w) else
  let (r, w) := libcall o (Call.EVP_PKEY_CTX_set_signature_md ctx2 MD.sha256) w
  if r.rc ≤ 0 then (l, w) else
  let (r, w) := libcall o
    (Call.EVP_PKEY_verify ctx2 sig (sigBuf.take sigLen) sigLen sha256 sha256Len) w
  if r.rc ≤ 0 then (l, w) else
  let sha256 := corrupt sha256
  let (r, w) := libcall o
    (Call.EVP_PKEY_verify ctx2 sig (sigBuf.take sigLen) sigLen sha256 sha256Len) w
  if r.rc = 0 then ({ l with ret := 0 }, w)
  else (l, w)

/-- `ec_evp_pkey_sign_verify`. -/
def ec_evp_pkey_sign_verify (o : Oracle) (pKey : Option Handle) (w : World) : Int × World :=
  let (l, w) := ec_evp_pkey_sign_verify_body o pKey w
  sv_exit o l w

/-- `rsa_evp_pkey_sign_verify` up to the `exit:` label. -/
def rsa_evp_pkey_sign_verify_body (o : Oracle) (pKey : Option Handle) (w : World) :
    SvLocals × World :=
  let l : SvLocals := {}
  let sha256 := sha256_init
  let sha256Len : Nat := 32
  let sigLen : Nat := 0
  let (r, w) := libcall o (Call.EVP_PKEY_CTX_new_from_pkey pKey "provider=tpm2") w
  let l := { l with ctx := r.obj }
  match r.obj with
  | none => (l, w)
  | some ctx =>
  let (r, w) := libcall o (Call.EVP_PKEY_sign_init ctx) w
  if r.rc ≤ 0 then (l, w) else
  let (r, w) := libcall o (Call.EVP_PKEY_CTX_set_signature_md ctx MD.sha256) w
  if r.rc ≤ 0 then (l, w) else
  let (r, w) := libcall o (Call.EVP_PKEY_CTX_set_rsa_padding ctx RSA_PKCS1_PSS_PADDING) w
  if r.rc ≤ 0 then (l, w) else
  let (r, w) := libcall o (Call.EVP_PKEY_CTX_set_signature_md ctx MD.sha256) w
  if r.rc ≤ 0 then (l, w) else
  let (r, w) := libcall o (Call.EVP_PKEY_sign ctx none sigLen sha256 sha256Len) w
  let sigLen := r.len
  if r.rc ≤ 0 then (l, w) else
  let (r, w) := libcall o (Call.OPENSSL_malloc sigLen) w
  let l := { l with sig := r.obj }
  match r.obj with
  | none => (l, w)
  | some sig =>
  let sigBuf := malloc_bytes sigLen r.data
  let (r, w) := libcall o (Call.EVP_PKEY_sign ctx (some sig) sigLen sha256 sha256Len) w
  let sigBuf := overwrite sigBuf r.data
  let sigLen := r.data.length
  if r.rc ≤ 0 then (l, w) else
  let (r, w) := BIO_new_mem o w
  let l := { l with bio := r.obj }
  match r.obj with
  | none => (l, w)
  | some bio =>
  let (r, w) := PEM_write_bio_PUBKEY o bio pKey w
  if r.rc ≤ 0 then (l, w) else
  let (r, w) := PEM_read_bio_PUBKEY o bio w
  let l := { l with pPubKey := r.obj }
  match r.obj with
  | none => (l, w)
  | some pPubKey =>
  let (r, w) := libcall o (Call.EVP_PKEY_CTX_new_from_pkey (some pPubKey) "provider=default") w
  let l := { l with ctx2 := r.obj }
  match r.obj with
  | none => (l, w)
  | some ctx2 =>
  let (r, w) := libcall o (Call.EVP_PKEY_verify_init ctx2) w
  if r.rc ≤ 0 then (l, w) else
  let (r, w) := libcall o (Call.EVP_PKEY_CTX_set_rsa_padding ctx2 RSA_PKCS1_PSS_PADDING) w
  if r.rc ≤ 0 then (l, w) else
  let (r, w) := libcall o (Call.EVP_PKEY_CTX_set_signature_md ctx2 MD.sha256) w
  if r.rc ≤ 0 then (l, w) else
  let (r, w) := libcall o
    (Call.EVP_PKEY_verify ctx2 sig (sigBuf.take sigLen) sigLen sha256 sha256Len) w
  if r.rc ≤ 0 then (l, w) else
  let sha256 := corrupt sha256
  let (r, w) := libcall o
    (Call.EVP_PKEY_verify ctx2 sig (sigBuf.take sigLen) sigLen sha256 sha256Len) w
  if r.rc = 0 then ({ l with ret := 0 }, w)
  else (l, w)

/-- `rsa_evp_pkey_sign_verify`. -/
def rsa_evp_pkey_sign_verify (o : Oracle) (pKey : Option Handle) (w : World) : Int × World :=
  let (l, w) := rsa_evp_pkey_sign_verify_body o pKey w
  sv_exit o l w

/-- Local variables of `rsa_evp_pkey_encrypt_decrypt` that its `exit:` block and
return statement read. -/
structure EdLocals where
  ret : Int := -1
  bio : Option Handle := none
  pPubKey : Option Handle := none
  ctx : Option Handle := none
  ctx2 : Option Handle := none
  ciphered : Option Handle := none
  deciphered : Option Handle := none

/-- The `exit:` block of `rsa_evp_pkey_encrypt_decrypt`. -/
def ed_exit (o : Oracle) (l : EdLocals) (w : World) : Int × World :=
  let w := match l.deciphered with
    | some deciphered => (libcall o (Call.OPENSSL_free deciphered) w).2
    | none => w
  let w := match l.ctx2 with
    | some ctx2 => (libcall o (Call.EVP_PKEY_CTX_free ctx2) w).2
    | none => w
  let w := match l.ciphered with
    | some ciphered => (libcall o (Call.OPENSSL_free ciphered) w).2
    | none => w
  let w := match l.ctx with
    | some ctx => (libcall o (Call.EVP_PKEY_CTX_free ctx) w).2
    | none => w
  let w := match l.pPubKey with
    | some pPubKey => (libcall o (Call.EVP_PKEY_free pPubKey) w).2
    | none => w
  let w := match l.bio with
    | some bio => (libcall o (Call.BIO_free bio) w).2
    | none => w
  (l.ret, w)

/-- `rsa_evp_pkey_encrypt_decrypt` up to the `exit:` label.  The second
`EVP_PKEY_encrypt` / `EVP_PKEY_decrypt` call stores the bytes the library
produced at the start of the output buffer and their count in the length
variable. -/
def rsa_evp_pkey_encrypt_decrypt_body (o : Oracle) (pKey : Option Handle) (w : World) :
    EdLocals × World :=
  let l : EdLocals := {}
  let clear : List Nat := [1, 2, 3]
  let cipheredLen : Nat := 0
  let decipheredLen : Nat := 0
  let clearLen : Nat := 3
  let (r, w) := BIO_new_mem o w
  let l := { l with bio := r.obj }
  match r.obj with
  | none => (l, w)
  | some bio =>
  let (r, w) := PEM_write_bio_PUBKEY o bio pKey w
  if r.rc ≤ 0 then (l, w) else
  let (r, w) := PEM_read_bio_PUBKEY o bio w
  let l := { l with pPubKey := r.obj }
  match r.obj with
  | none => (l, w)
  | some pPubKey =>
  let (r, w) := libcall o (Call.EVP_PKEY_CTX_new_from_pkey (some pPubKey) "provider=default") w
  let l := { l with ctx := r.obj }
  match r.obj with
  | none => (l, w)
  | some ctx =>
  let (r, w) := libcall o (Call.EVP_PKEY_encrypt_init ctx) w
  if r.rc ≤ 0 then (l, w) else
  let (r, w) := libcall o (Call.EVP_PKEY_CTX_set_rsa_padding ctx RSA_PKCS1_PADDING) w
  if r.rc ≤ 0 then (l, w) else
  let (r, w) := libcall o (Call.EVP_PKEY_encrypt ctx none cipheredLen clear clearLen) w
  let cipheredLen := r.len
  if r.rc ≤ 0 then (l, w) else
  let (r, w) := libcall o (Call.OPENSSL_malloc cipheredLen) w
  let l := { l with ciphered := r.obj }
  match r.obj with
  | none => (l, w)
  | some ciphered =>
  let cipheredBuf := malloc_bytes cipheredLen r.data
  let (r, w) := libcall o (Call.EVP_PKEY_encrypt ctx (some ciphered) cipheredLen clear clearLen) w
  let cipheredBuf := overwrite cipheredBuf r.data
  let cipheredLen := r.data.length
  if r.rc ≤ 0 then (l, w) else
  let (r, w) := libcall o (Call.EVP_PKEY_CTX_new_from_pkey pKey "provider=tpm2") w
  let l := { l with ctx2 := r.obj }
  match r.obj with
  | none => (l, w)
  | some ctx2 =>
  let (r, w) := libcall o (Call.EVP_PKEY_decrypt_init ctx2) w
  if r.rc ≤ 0 then (l, w) else
  let (r, w) := libcall o (Call.EVP_PKEY_CTX_set_rsa_padding ctx2 RSA_PKCS1_PADDING) w
  if r.rc ≤ 0 then (l, w) else
  let (r, w) := libcall o
    (Call.EVP_PKEY_decrypt ctx2 none decipheredLen ciphered
      (cipheredBuf.take cipheredLen) cipheredLen) w
  let decipheredLen := r.len
  if r.rc ≤ 0 then (l, w) else
  let (r, w) := libcall o (Call.OPENSSL_malloc decipheredLen) w
  let l := { l with deciphered := r.obj }
  match r.obj with
  | none => (l, w)
  | some deciphered =>
  let decipheredBuf := malloc_bytes decipheredLen r.data
  let decipheredBuf := memset decipheredBuf 0 decipheredLen
  let (r, w) := libcall o
    (Call.EVP_PKEY_decrypt ctx2 (some deciphered) decipheredLen ciphered
      (cipheredBuf.take cipheredLen) cipheredLen) w
  let decipheredBuf := overwrite decipheredBuf r.data
  let decipheredLen := r.data.length
  if r.rc ≤ 0 then (l, w) else
  if decipheredLen ≠ clearLen ∨ strncmp clear decipheredBuf decipheredLen ≠ 0 then (l, w) else
  ({ l with ret := 0 }, w)

/-- `rsa_evp_pkey_encrypt_decrypt`. -/
def rsa_evp_pkey_encrypt_decrypt (o : Oracle) (pKey : Option Handle) (w : World) :
    Int × World :=
  let (l, w) := rsa_evp_pkey_encrypt_decrypt_body o pKey w
  ed_exit o l w

/-- Log an event in the trace. -/
def World.emit (w : World) (e : Event) : World :=
  { w with trace := w.trace ++ [e] }

/-- A call from `main` to one of the program's `int` functions: the trace gets
an entry when the function is entered and one with its result when it returns. -/
def invoke (f : Fn) (body : World → Int × World) (w : World) : Int × World :=
  let (v, w) := body (w.emit (Event.enter f))
  (v, w.emit (Event.ret_int f v))

/-- A call from `main` to one of the program's pointer-returning functions. -/
def invoke_ptr (f : Fn) (body : World → Option Handle × World) (w : World) :
    Option Handle × World :=
  let (p, w) := body (w.emit (Event.enter f))
  (p, w.emit (Event.ret_ptr f p))

/-- Local variables of `main` that its `exit:` block and return statement read. -/
structure MainLocals where
  ret : Int := 1
  prov_default : Option Handle := none
  prov_tpm2 : Option Handle := none
  pRsaKey : Option Handle := none
  pEcKey : Option Handle := none

/-- `main` up to the `exit:` label. -/
def main_body (sizeof_ptr : Nat) (o : Oracle) (w : World) : MainLocals × World :=
  let l : MainLocals := {}
  let (r, w) := libcall o (Call.OSSL_PROVIDER_load "tpm2") w
  let l := { l with prov_tpm2 := r.obj }
  match r.obj with
  | none => (l, w)
  | some prov_tpm2 =>
  let (r, w) := libcall o (Call.OSSL_PROVIDER_self_test prov_tpm2) w
  if r.rc = 0 then (l, w) else
  let (r, w) := libcall o (Call.OSSL_PROVIDER_load "default") w
  let l := { l with prov_default := r.obj }
  match r.obj with
  | none => (l, w)
  | some prov_default =>
  let (r, w) := libcall o (Call.OSSL_PROVIDER_self_test prov_default) w
  if r.rc = 0 then (l, w) else
  let (v, w) := invoke Fn.gen_random (gen_random o) w
  if v ≠ 0 then (l, w) else
  let (v, w) := invoke Fn.gen_rsaKey (gen_rsaKey o) w
  if v ≠ 0 then (l, w) else
  let (v, w) := invoke Fn.gen_ecKey (gen_ecKey sizeof_ptr o) w
  if v ≠ 0 then (l, w) else
  let (p, w) := invoke_ptr Fn.load_rsa_key (load_rsa_key o) w
  let l := { l with pRsaKey := p }
  match p with
  | none => (l, w)
  | some _ =>
  let (p, w) := invoke_ptr Fn.load_ec_key (load_ec_key o) w
  let l := { l with pEcKey := p }
  match p with
  | none => (l, w)
  | some _ =>
  let (v, w) := invoke Fn.rsa_evp_pkey_sign_verify (rsa_evp_pkey_sign_verify o l.pRsaKey) w
  if v ≠ 0 then (l, w) else
  let (v, w) := invoke Fn.ec_evp_pkey_sign_verify (ec_evp_pkey_sign_verify o l.pEcKey) w
  if v ≠ 0 then (l, w) else
  let (v, w) :=
    invoke Fn.rsa_evp_pkey_encrypt_decrypt (rsa_evp_pkey_encrypt_decrypt o l.pRsaKey) w
  if v ≠ 0 then (l, w) else
  ({ l with ret := 0 }, w)

/-- The `exit:` block of `main`. -/
def main_exit (o : Oracle) (l : MainLocals) (w : World) : Int × World :=
  let w := match l.pEcKey with
    | some pEcKey => (libcall o (Call.EVP_PKEY_free pEcKey) w).2
    | none => w
  let w := match l.pRsaKey with
    | some pRsaKey => (libcall o (Call.EVP_PKEY_free pRsaKey) w).2
    | none => w
  let w := match l.prov_tpm2 with
    | some prov_tpm2 => (libcall o (Call.OSSL_PROVIDER_unload prov_tpm2) w).2
    | none => w
  let w := match l.prov_default with
    | some prov_default => (libcall o (Call.OSSL_PROVIDER_unload prov_default) w).2
    | none => w
  (l.ret, w)

/-- `main`; `sizeof_ptr` is the platform's `sizeof(char *)`. -/
def main (sizeof_ptr : Nat) (o : Oracle) (w : World) : Int × World :=
  let (l, w) := main_body sizeof_ptr o w
  main_exit o l w

/-- The events a run added to the trace, from the world before and after. -/
def new_events (w w' : World) : List Event :=
  w'.trace.drop w.trace.length

/-! ## Runs as scripts

Every function of `examples.c` is a straight line of library calls with a test
after each call; a failed test jumps to the clean-up block.  A run is therefore
described by a table of steps (the call with its outcome, and whether the code
accepts that outcome): the run performs the accepted steps up to and including
the first rejected one, and then only releases objects. -/

/-- Calls that release an object. -/
def is_release : Event → Bool
  | Event.lib (Call.EVP_PKEY_CTX_free _) _ => true
  | Event.lib (Call.EVP_PKEY_free _) _ => true
  | Event.lib (Call.BIO_free _) _ => true
  | Event.lib (Call.BIO_free_all _) _ => true
  | Event.lib (Call.OPENSSL_free _) _ => true
  | Event.lib (Call.OSSL_PROVIDER_unload _) _ => true
  | _ => false

/-- Number of leading steps whose outcome the code accepts. -/
def passed : List Bool → Nat
  | true :: l => passed l + 1
  | _ => 0

/-- Number of steps a run performs: the accepted ones and the first rejected one. -/
def performed : List Bool → Nat
  | [] => 0
  | true :: l => performed l + 1
  | false :: _ => 1

/-- The events `evs` are a run of the step table `steps`, followed by releases. -/
def RunsScript (steps : List (Event × Bool)) (evs : List Event) : Prop :=
  evs.take (performed (steps.map Prod.snd)) =
      (steps.map Prod.fst).take (performed (steps.map Prod.snd)) ∧
  ∀ e ∈ evs.drop (performed (steps.map Prod.snd)), is_release e = true

/-- Kinds of library call, used to pick out events of a run. -/
def is_ctx_free : Event → Bool
  | Event.lib (Call.EVP_PKEY_CTX_free _) _ => true
  | _ => false

def is_generate : Event → Bool
  | Event.lib (Call.EVP_PKEY_generate _) _ => true
  | _ => false

def is_file_event : Event → Bool
  | Event.lib (Call.BIO_new_file _ _) _ => true
  | Event.lib (Call.PEM_write_bio_PrivateKey _ _) _ => true
  | _ => false

def is_sign : Event → Bool
  | Event.lib (Call.EVP_PKEY_sign _ _ _ _ _) _ => true
  | _ => false

def is_verify : Event → Bool
  | Event.lib (Call.EVP_PKEY_verify _ _ _ _ _ _) _ => true
  | _ => false

def is_encrypt : Event → Bool
  | Event.lib (Call.EVP_PKEY_encrypt _ _ _ _ _) _ => true
  | _ => false

def is_decrypt : Event → Bool
  | Event.lib (Call.EVP_PKEY_decrypt _ _ _ _ _ _) _ => true
  | _ => false

/-- The steps of `gen_rsaKey` / `gen_ecKey` (algorithm, parameters and key path
differ) when the first library call of the function is call number `n`. -/
def gen_steps (alg : String) (params : List OSSL_PARAM) (path : String) (o : Oracle) (n : Nat) :
    List (Event × Bool) :=
  let R := fun k => mkOutcome (o (n + k)) (n + k)
  [ (Event.lib (Call.EVP_PKEY_CTX_new_from_name alg "provider=tpm2") (R 0), (o n).ptr),
    (Event.lib (Call.EVP_PKEY_keygen_init n) (R 1), decide (0 < (o (n + 1)).rc)),
    (Event.lib (Call.EVP_PKEY_CTX_set_params n params) (R 2), decide (0 < (o (n + 2)).rc)),
    (Event.lib (Call.EVP_PKEY_generate n) (R 3), decide (0 < (o (n + 3)).rc)),
    (Event.lib (Call.EVP_PKEY_print_public_fp (R 3).obj) (R 4), true),
    (Event.lib (Call.BIO_new_file path "w") (R 5), (o (n + 5)).ptr),
    (Event.lib (Call.PEM_write_bio_PrivateKey (n + 5) (R 3).obj) (R 6),
      decide ((o (n + 6)).rc ≠ 0)) ]

/-- The steps of `load_rsa_key` / `load_ec_key`; `stored` is the content of the
key file when the function is called. -/
def load_steps (path : String) (stored : Option (List Nat)) (o : Oracle) (n : Nat) :
    List (Event × Bool) :=
  let R := fun k => mkOutcome (o (n + k)) (n + k)
  [ (Event.lib (Call.BIO_new_file path "r") (R 0), (o n).ptr),
    (Event.lib (Call.PEM_read_bio_PrivateKey n stored) (R 1), true) ]

/-- What a run of `gen_rsaKey` / `gen_ecKey` from `w` with result `res` looks like. -/
def GenSpec (alg : String) (params : List OSSL_PARAM) (path : String) (o : Oracle) (w : World)
    (res : Int × World) : Prop :=
  res.2.trace = w.trace ++ new_events w res.2 ∧
  RunsScript (gen_steps alg params path o w.next) (new_events w res.2) ∧
  res.1 = (if passed ((gen_steps alg params path o w.next).map Prod.snd) = 7 then 0 else 1) ∧
  res.2.fs = (if passed ((gen_steps alg params path o w.next).map Prod.snd) < 6 then w.fs
    else Function.update w.fs path (some (o (w.next + 6)).data)) ∧
  ∀ e ∈ new_events w res.2, is_ctx_free e = false

/-- What a run of `load_rsa_key` / `load_ec_key` from `w` with result `res` looks like. -/
def LoadSpec (path : String) (o : Oracle) (w : World) (res : Option Handle × World) : Prop :=
  res.2.trace = w.trace ++ new_events w res.2 ∧
  RunsScript (load_steps path (w.fs path) o w.next) (new_events w res.2) ∧
  res.1 = (if (o w.next).ptr = true then (mkOutcome (o (w.next + 1)) (w.next + 1)).obj else none) ∧
  res.2.fs = w.fs

/-- The steps of `rsa_evp_pkey_sign_verify` when its first library call is call
number `n`: the contexts, buffer and keys are the objects `n`, `n + 6`, ... that
the creating calls return on success. -/
def rsa_sv_steps (o : Oracle) (pKey : Option Handle) (n : Nat) : List (Event × Bool) :=
  let R := fun k => mkOutcome (o (n + k)) (n + k)
  [ (Event.lib (Call.EVP_PKEY_CTX_new_from_pkey pKey "provider=tpm2") (R 0), (o n).ptr),
    (Event.lib (Call.EVP_PKEY_sign_init n) (R 1), decide (0 < (o (n + 1)).rc)),
    (Event.lib (Call.EVP_PKEY_CTX_set_signature_md n MD.sha256) (R 2),
      decide (0 < (o (n + 2)).rc)),
    (Event.lib (Call.EVP_PKEY_CTX_set_rsa_padding n RSA_PKCS1_PSS_PADDING) (R 3),
      decide (0 < (o (n + 3)).rc)),
    (Event.lib (Call.EVP_PKEY_CTX_set_signature_md n MD.sha256) (R 4),
      decide (0 < (o (n + 4)).rc)),
    (Event.lib (Call.EVP_PKEY_sign n none 0 sha256_init 32) (R 5), decide (0 < (o (n + 5)).rc)),
    (Event.lib (Call.OPENSSL_malloc (o (n + 5)).len) (R 6), (o (n + 6)).ptr),
    (Event.lib (Call.EVP_PKEY_sign n (some (n + 6)) (o (n + 5)).len sha256_init 32) (R 7),
      decide (0 < (o (n + 7)).rc)),
    (Event.lib Call.BIO_new_mem (R 8), (o (n + 8)).ptr),
    (Event.lib (Call.PEM_write_bio_PUBKEY (n + 8) pKey) (R 9), decide (0 < (o (n + 9)).rc)),
    (Event.lib (Call.PEM_read_bio_PUBKEY (n + 8) (some (o (n + 9)).data)) (R 10),
      (o (n + 10)).ptr),
    (Event.lib (Call.EVP_PKEY_CTX_new_from_pkey (some (n + 10)) "provider=default") (R 11),
      (o (n + 11)).ptr),
    (Event.lib (Call.EVP_PKEY_verify_init (n + 11)) (R 12), decide (0 < (o (n + 12)).rc)),
    (Event.lib (Call.EVP_PKEY_CTX_set_rsa_padding (n + 11) RSA_PKCS1_PSS_PADDING) (R 13),
      decide (0 < (o (n + 13)).rc)),
    (Event.lib (Call.EVP_PKEY_CTX_set_signature_md (n + 11) MD.sha256) (R 14),
      decide (0 < (o (n + 14)).rc)),
    (Event.lib (Call.EVP_PKEY_verify (n + 11) (n + 6) (o (n + 7)).data (o (n + 7)).data.length
        sha256_init 32) (R 15), decide (0 < (o (n + 15)).rc)),
    (Event.lib (Call.EVP_PKEY_verify (n + 11) (n + 6) (o (n + 7)).data (o (n + 7)).data.length
        (corrupt sha256_init) 32) (R 16), decide ((o (n + 16)).rc = 0)) ]

/-- The steps of `ec_evp_pkey_sign_verify` when its first library call is call
number `n`. -/
def ec_sv_steps (o : Oracle) (pKey : Option Handle) (n : Nat) : List (Event × Bool) :=
  let R := fun k => mkOutcome (o (n + k)) (n + k)
  [ (Event.lib (Call.EVP_PKEY_CTX_new_from_pkey pKey "provider=tpm2") (R 0), (o n).ptr),
    (Event.lib (Call.EVP_PKEY_sign_init n) (R 1), decide (0 < (o (n + 1)).rc)),
    (Event.lib (Call.EVP_PKEY_CTX_set_signature_md n MD.sha256) (R 2),
      decide (0 < (o (n + 2)).rc)),
    (Event.lib (Call.EVP_PKEY_sign n none 0 sha256_init 32) (R 3), decide (0 < (o (n + 3)).rc)),
    (Event.lib (Call.OPENSSL_malloc (o (n + 3)).len) (R 4), (o (n + 4)).ptr),
    (Event.lib (Call.EVP_PKEY_sign n (some (n + 4)) (o (n + 3)).len sha256_init 32) (R 5),
      decide (0 < (o (n + 5)).rc)),
    (Event.lib Call.BIO_new_mem (R 6), (o (n + 6)).ptr),
    (Event.lib (Call.PEM_write_bio_PUBKEY (n + 6) pKey) (R 7), decide (0 < (o (n + 7)).rc)),
    (Event.lib (Call.PEM_read_bio_PUBKEY (n + 6) (some (o (n + 7)).data)) (R 8),
      (o (n + 8)).ptr),
    (Event.lib (Call.EVP_PKEY_CTX_new_from_pkey (some (n + 8)) "provider=default") (R 9),
      (o (n + 9)).ptr),
    (Event.lib (Call.EVP_PKEY_verify_init (n + 9)) (R 10), decide (0 < (o (n + 10)).rc)),
    (Event.lib (Call.EVP_PKEY_CTX_set_signature_md (n + 9) MD.sha256) (R 11),
      decide (0 < (o (n + 11)).rc)),
    (Event.lib (Call.EVP_PKEY_verify (n + 9) (n + 4) (o (n + 5)).data (o (n + 5)).data.length
        sha256_init 32) (R 12), decide (0 < (o (n + 12)).rc)),
    (Event.lib (Call.EVP_PKEY_verify (n + 9) (n + 4) (o (n + 5)).data (o (n + 5)).data.length
        (corrupt sha256_init) 32) (R 13), decide ((o (n + 13)).rc = 0)) ]

/-- What a run of a sign/verify or encrypt/decrypt function from `w` with result
`res` looks like, for the step table `steps` of the function. -/
def SvSpec (steps : List (Event × Bool)) (w : World) (res : Int × World) : Prop :=
  res.2.trace = w.trace ++ new_events w res.2 ∧
  RunsScript steps (new_events w res.2) ∧
  res.1 = (if passed (steps.map Prod.snd) = steps.length then 0 else -1)

/-- The deciphered buffer of `rsa_evp_pkey_encrypt_decrypt` after the second
`EVP_PKEY_decrypt` call, when the first library call of the function is call
number `n`: allocated, zeroed by `memset`, then written by the library. -/
def ed_deciphered (o : Oracle) (n : Nat) : List Nat :=
  overwrite (memset (malloc_bytes (o (n + 12)).len (o (n + 13)).data) 0 (o (n + 12)).len)
    (o (n + 14)).data

/-- The steps of `rsa_evp_pkey_encrypt_decrypt` when its first library call is
call number `n`.  The last step is accepted when the call succeeds and the
comparison with the cleartext that follows it finds no difference. -/
def ed_steps (o : Oracle) (pKey : Option Handle) (n : Nat) : List (Event × Bool) :=
  let R := fun k => mkOutcome (o (n + k)) (n + k)
  [ (Event.lib Call.BIO_new_mem (R 0), (o n).ptr),
    (Event.lib (Call.PEM_write_bio_PUBKEY n pKey) (R 1), decide (0 < (o (n + 1)).rc)),
    (Event.lib (Call.PEM_read_bio_PUBKEY n (some (o (n + 1)).data)) (R 2), (o (n + 2)).ptr),
    (Event.lib (Call.EVP_PKEY_CTX_new_from_pkey (some (n + 2)) "provider=default") (R 3),
      (o (n + 3)).ptr),
    (Event.lib (Call.EVP_PKEY_encrypt_init (n + 3)) (R 4), decide (0 < (o (n + 4)).rc)),
    (Event.lib (Call.EVP_PKEY_CTX_set_rsa_padding (n + 3) RSA_PKCS1_PADDING) (R 5),
      decide (0 < (o (n + 5)).rc)),
    (Event.lib (Call.EVP_PKEY_encrypt (n + 3) none 0 [1, 2, 3] 3) (R 6),
      decide (0 < (o (n + 6)).rc)),
    (Event.lib (Call.OPENSSL_malloc (o (n + 6)).len) (R 7), (o (n + 7)).ptr),
    (Event.lib (Call.EVP_PKEY_encrypt (n + 3) (some (n + 7)) (o (n + 6)).len [1, 2, 3] 3) (R 8),
      decide (0 < (o (n + 8)).rc)),
    (Event.lib (Call.EVP_PKEY_CTX_new_from_pkey pKey "provider=tpm2") (R 9), (o (n + 9)).ptr),
    (Event.lib (Call.EVP_PKEY_decrypt_init (n + 9)) (R 10), decide (0 < (o (n + 10)).rc)),
    (Event.lib (Call.EVP_PKEY_CTX_set_rsa_padding (n + 9) RSA_PKCS1_PADDING) (R 11),
      decide (0 < (o (n + 11)).rc)),
    (Event.lib (Call.EVP_PKEY_decrypt (n + 9) none 0 (n + 7) (o (n + 8)).data
        (o (n + 8)).data.length) (R 12), decide (0 < (o (n + 12)).rc)),
    (Event.lib (Call.OPENSSL_malloc (o (n + 12)).len) (R 13), (o (n + 13)).ptr),
    (Event.lib (Call.EVP_PKEY_decrypt (n + 9) (some (n + 13)) (o (n + 12)).len (n + 7)
        (o (n + 8)).data (o (n + 8)).data.length) (R 14),
      decide (0 < (o (n + 14)).rc ∧
        ¬ ((o (n + 14)).data.length ≠ 3 ∨
            strncmp [1, 2, 3] (ed_deciphered o n) (o (n + 14)).data.length ≠ 0))) ]

/-! ## The steps of `main` -/

/-- A step of `main`: loading a provider, self-testing a provider, or calling
one of the program's functions. -/
inductive Step where
  | load (name : String)
  | self_test (prov : Handle)
  | call (f : Fn)
deriving DecidableEq, Repr

/-- The step an event completes, with `main`'s verdict on it: a provider is
loaded when the pointer is non-NULL, a self-test passes when the result is
non-zero, an `int` function succeeds when it returns 0 and a key loader when it
returns a non-NULL key. -/
def step_of : Event → Option (Step × Bool)
  | Event.lib (Call.OSSL_PROVIDER_load name) r => some (Step.load name, r.obj.isSome)
  | Event.lib (Call.OSSL_PROVIDER_self_test prov) r =>
      some (Step.self_test prov, decide (r.rc ≠ 0))
  | Event.ret_int f v => some (Step.call f, decide (v = 0))
  | Event.ret_ptr f p => some (Step.call f, p.isSome)
  | _ => none

/-- The step an event starts. -/
def started_of : Event → Option Step
  | Event.lib (Call.OSSL_PROVIDER_load name) _ => some (Step.load name)
  | Event.lib (Call.OSSL_PROVIDER_self_test prov) _ => some (Step.self_test prov)
  | Event.enter f => some (Step.call f)
  | _ => none

/-- Events that start or complete a step of `main`. -/
def is_step_event : Event → Bool
  | Event.lib (Call.OSSL_PROVIDER_load _) _ => true
  | Event.lib (Call.OSSL_PROVIDER_self_test _) _ => true
  | Event.enter _ => true
  | Event.ret_int _ _ => true
  | Event.ret_ptr _ _ => true
  | _ => false

/-- The completed steps of a trace, in order, each with its verdict. -/
def step_log (t : List Event) : List (Step × Bool) :=
  t.filterMap step_of

/-- The started steps of a trace, in order. -/
def started (t : List Event) : List Step :=
  t.filterMap started_of

/-- The order of the steps in the source of `main`, when its first library call
is call number `n` (the providers are then the objects `n` and `n + 2`). -/
def main_order (n : Nat) : List Step :=
  [ Step.load "tpm2", Step.self_test n, Step.load "default", Step.self_test (n + 2),
    Step.call Fn.gen_random, Step.call Fn.gen_rsaKey, Step.call Fn.gen_ecKey,
    Step.call Fn.load_rsa_key, Step.call Fn.load_ec_key,
    Step.call Fn.rsa_evp_pkey_sign_verify, Step.call Fn.ec_evp_pkey_sign_verify,
    Step.call Fn.rsa_evp_pkey_encrypt_decrypt ]

/-- The log of a run of `main` in which the first `k` steps succeed and the next
one, if there is one, fails. -/
def log_upto (n k : Nat) : List (Step × Bool) :=
  ((main_order n).take k).map (fun s => (s, true)) ++
    (((main_order n).drop k).take 1).map (fun s => (s, false))

/-- The four provider events that open a run of `main` which gets past them. -/
def provider_events (o : Oracle) (n : Nat) : List Event :=
  [ Event.lib (Call.OSSL_PROVIDER_load "tpm2") (mkOutcome (o n) n),
    Event.lib (Call.OSSL_PROVIDER_self_test n) (mkOutcome (o (n + 1)) (n + 1)),
    Event.lib (Call.OSSL_PROVIDER_load "default") (mkOutcome (o (n + 2)) (n + 2)),
    Event.lib (Call.OSSL_PROVIDER_self_test (n + 2)) (mkOutcome (o (n + 3)) (n + 3)) ]

/-- What the events `evs` of a run of `main` that returns `ret` look like. -/
def MainSpec (o : Oracle) (n : Nat) (evs : List Event) (ret : Int) : Prop :=
  ∃ k, k ≤ 12 ∧
    step_log evs = log_upto n k ∧
    started evs = (step_log evs).map Prod.fst ∧
    ret = (if k = 12 then 0 else 1) ∧
    ((∃ f, Event.enter f ∈ evs) →
      evs.take 4 = provider_events o n ∧ (o n).ptr = true ∧ (o (n + 1)).rc ≠ 0 ∧
        (o (n + 2)).ptr = true ∧ (o (n + 3)).rc ≠ 0)

/-- The events of a call from `main` to one of the program's functions: entry,
the events of the function, return. -/
def call_events (f : Fn) (evs : List Event) (ret : Event) : List Event :=
  Event.enter f :: evs ++ [ret]

/-- A run of one of the program's functions as `main` sees it: the trace grows by
events that neither start nor complete a step of `main`. -/
def SubRun (w w' : World) : Prop :=
  ∃ evs, w'.trace = w.trace ++ evs ∧ ∀ e ∈ evs, is_step_event e = false

/-- A successful `PEM_write_bio_PrivateKey` of the events `evs` wrote to a BIO
opened for writing on `path`, and the file system `fs` holds the text of that
write at `path`. -/
def Stored (path : String) (evs : List Event) (fs : String → Option (List Nat)) : Prop :=
  ∃ out ro pkey rw,
    Event.lib (Call.BIO_new_file path "w") ro ∈ evs ∧ ro.obj = some out ∧
    Event.lib (Call.PEM_write_bio_PrivateKey out pkey) rw ∈ evs ∧ rw.rc ≠ 0 ∧
    fs path = some rw.data

/-- The function `gen` has returned 0 in `evs` and the key file at `path` is
stored as in `Stored`. -/
def Written (path : String) (gen : Fn) (evs : List Event)
    (fs : String → Option (List Nat)) : Prop :=
  Event.ret_int gen 0 ∈ evs ∧ Stored path evs fs

/-- Every private-key read of the events `evs` happens inside the loading
function of one of the two keys, after the generating function of that key has
returned 0, from a BIO opened for reading on the path of that key, and reads
exactly the text that a successful `PEM_write_bio_PrivateKey` wrote earlier to
a BIO opened for writing on the same path. -/
def KeyReads (evs : List Event) : Prop :=
  ∀ pre post bio input r,
    evs = pre ++ Event.lib (Call.PEM_read_bio_PrivateKey bio input) r :: post →
    ∃ path gen load rb,
      ((path = RSA_KEY_PATH ∧ gen = Fn.gen_rsaKey ∧ load = Fn.load_rsa_key) ∨
        (path = EC_KEY_PATH ∧ gen = Fn.gen_ecKey ∧ load = Fn.load_ec_key)) ∧
      Event.enter load ∈ pre ∧
      Event.lib (Call.BIO_new_file path "r") rb ∈ pre ∧ rb.obj = some bio ∧
      Written path gen pre (fun _ => input)

/-! ## Concrete runs -/

/-- An environment in which every library call answers with return code 1, a
non-NULL pointer, the length 3 and the bytes 1, 2, 3. -/
def ok_oracle : Oracle :=
  fun _ => { rc := 1, ptr := true, len := 3, data := [1, 2, 3] }

/-- Like `ok_oracle`, but the calls whose number is in `zero` answer with return
code 0. -/
def zero_at (zero : List Nat) : Oracle :=
  fun n => if n ∈ zero then { rc := 0, ptr := true, len := 3, data := [1, 2, 3] } else ok_oracle n

/-- The world at program start: no call made yet, no file, no BIO. -/
def World.start : World :=
  { next := 0, trace := [], fs := fun _ => none, bios := fun _ => none }

/-- An environment in which every call answers with a non-NULL pointer, the
length 3 and the bytes 1, 2, 3, and with return code 0 for the calls whose
number is in `zero`, 1 for those in `one`, and `rc` for all others. -/
def answers (rc : Int) (one zero : List Nat) : Oracle :=
  fun n => { rc := if n ∈ zero then 0 else if n ∈ one then 1 else rc, ptr := true, len := 3,
             data := [1, 2, 3] }

/-- Like `ok_oracle`, but call number `k` writes the bytes `data`. -/
def writes_at (k : Nat) (data : List Nat) : Oracle :=
  fun n => if n = k then { rc := 1, ptr := true, len := 3, data := data } else ok_oracle n

/-! ## Lemmas on scripts -/

@[simp] theorem mkOutcome_rc (r : Resp) (n : Nat) : (mkOutcome r n).rc = r.rc := rfl

@[simp] theorem mkOutcome_obj (r : Resp) (n : Nat) :
    (mkOutcome r n).obj = if r.ptr then some n else none := rfl

@[simp] theorem mkOutcome_len (r : Resp) (n : Nat) : (mkOutcome r n).len = r.len := rfl

@[simp] theorem mkOutcome_data (r : Resp) (n : Nat) : (mkOutcome r n).data = r.data := rfl

theorem performed_le_length (l : List Bool) : performed l ≤ l.length := by
  induction l with
  | nil => simp [performed]
  | cons b l ih => cases b <;> simp [performed, ih]

theorem performed_le_passed_succ (l : List Bool) : performed l ≤ passed l + 1 := by
  induction l with
  | nil => simp [performed]
  | cons b l ih => cases b <;> simp [performed, passed, ih]

theorem passed_le_length (l : List Bool) : passed l ≤ l.length := by
  induction l with
  | nil => simp [passed]
  | cons b l ih => cases b <;> simp [passed, ih]

theorem passed_take_true (l : List Bool) (j : Nat) (hj : j ≤ passed l) :
    ∀ b ∈ l.take j, b = true := by
  induction l generalizing j with
  | nil => simp
  | cons c l ih =>
    cases c with
    | false =>
      have h0 : j = 0 := by simpa [passed] using hj
      subst h0
      simp
    | true =>
      cases j with
      | zero => simp
      | succ j =>
        have hj2 : j ≤ passed l := by simpa [passed] using hj
        intro b hb
        rw [List.take_succ_cons, List.mem_cons] at hb
        rcases hb with hb | hb
        · exact hb
        · exact ih j hj2 b hb

theorem passed_eq_length_iff (l : List Bool) : passed l = l.length ↔ ∀ b ∈ l, b = true := by
  induction l with
  | nil => simp [passed]
  | cons c l ih =>
    cases c with
    | false => simp [passed]
    | true => simp [passed, ih]

theorem performed_eq_length (l : List Bool) (h : passed l = l.length) :
    performed l = l.length := by
  induction l with
  | nil => simp [performed]
  | cons c l ih =>
    cases c with
    | false => simp [passed] at h
    | true =>
      have h2 : passed l = l.length := by simpa [passed] using h
      simp [performed, ih h2]

theorem RunsScript.mem_cases {steps : List (Event × Bool)} {evs : List Event}
    (h : RunsScript steps evs) {e : Event} (he : e ∈ evs) :
    e ∈ steps.map Prod.fst ∨ is_release e = true := by
  have hsplit : e ∈ evs.take (performed (steps.map Prod.snd)) ++
      evs.drop (performed (steps.map Prod.snd)) := by
    rw [List.take_append_drop]
    exact he
  rcases List.mem_append.mp hsplit with h1 | h2
  · left
    rw [h.1] at h1
    exact List.mem_of_mem_take h1
  · right
    exact h.2 e h2

/-- If an event of some kind occurs in a run, and the first `j` steps of the
table are not of that kind (nor is any release), then the run performed the
first `j + 1` steps of the table and the code accepted the first `j`. -/
theorem RunsScript.reached {steps : List (Event × Bool)} {evs : List Event}
    (h : RunsScript steps evs) (p : Event → Bool) (j : Nat)
    (hrel : ∀ e, is_release e = true → p e = false)
    (hpre : ∀ e ∈ (steps.map Prod.fst).take j, p e = false)
    (hex : ∃ e ∈ evs, p e = true) :
    evs.take (j + 1) = (steps.map Prod.fst).take (j + 1) ∧
      ∀ b ∈ (steps.map Prod.snd).take j, b = true := by
  obtain ⟨e, he, hp⟩ := hex
  have hk : j < performed (steps.map Prod.snd) := by
    by_contra hcon
    have hle : performed (steps.map Prod.snd) ≤ j := Nat.le_of_not_lt hcon
    have hsplit : e ∈ evs.take (performed (steps.map Prod.snd)) ++
        evs.drop (performed (steps.map Prod.snd)) := by
      rw [List.take_append_drop]
      exact he
    rcases List.mem_append.mp hsplit with h1 | h2
    · rw [h.1] at h1
      have h3 : e ∈ ((steps.map Prod.fst).take j).take (performed (steps.map Prod.snd)) := by
        rw [List.take_take, Nat.min_eq_left hle]
        exact h1
      have h4 := hpre e (List.mem_of_mem_take h3)
      rw [hp] at h4
      exact Bool.noConfusion h4
    · have h4 := hrel e (h.2 e h2)
      rw [hp] at h4
      exact Bool.noConfusion h4
  constructor
  · have e1 : evs.take (j + 1) = (evs.take (performed (steps.map Prod.snd))).take (j + 1) := by
      rw [List.take_take, Nat.min_eq_left (Nat.succ_le_of_lt hk)]
    have e2 : (steps.map Prod.fst).take (j + 1) =
        ((steps.map Prod.fst).take (performed (steps.map Prod.snd))).take (j + 1) := by
      rw [List.take_take, Nat.min_eq_left (Nat.succ_le_of_lt hk)]
    rw [e1, e2, h.1]
  · apply passed_take_true
    have := performed_le_passed_succ (steps.map Prod.snd)
    omega

/-- A run in which the code accepts every step performs exactly the table. -/
theorem RunsScript.complete {steps : List (Event × Bool)} {evs : List Event}
    (h : RunsScript steps evs) (hall : passed (steps.map Prod.snd) = steps.length) :
    evs.take steps.length = steps.map Prod.fst := by
  have hlen : passed (steps.map Prod.snd) = (steps.map Prod.snd).length := by
    simpa using hall
  have hp := performed_eq_length _ hlen
  have h1 := h.1
  rw [hp] at h1
  simp only [List.length_map] at h1
  rw [h1]
  apply List.take_of_length_le
  simp

/-! ## The functions run their scripts -/

theorem gen_random_run (o : Oracle) (w : World) :
    gen_random o w =
      (if (o w.next).rc = 1 then 0 else -1,
        { w with next := w.next + 1,
                 trace := w.trace ++
                   [Event.lib (Call.RAND_bytes 4) (mkOutcome (o w.next) w.next)] }) := by
  simp only [gen_random, libcall, mkOutcome_rc]
  by_cases h : (o w.next).rc = 1 <;> simp [h]

theorem gen_rsaKey_spec (o : Oracle) (w : World) :
    GenSpec "RSA" gen_rsaKey_params RSA_KEY_PATH o w (gen_rsaKey o w) := by
  simp only [gen_rsaKey, gen_rsaKey_body, gen_exit, BIO_new_file, PEM_write_bio_PrivateKey,
    libcall, mkOutcome_rc, mkOutcome_obj, mkOutcome_len, mkOutcome_data, Nat.add_assoc,
    Nat.reduceAdd, bio_append, bio_contents, List.append_assoc, List.singleton_append,
    List.cons_append, List.nil_append]
  by_cases h0 : (o w.next).ptr = true
  swap
  · simp [h0, GenSpec, RunsScript, new_events, gen_steps, passed, performed, is_release, is_ctx_free]
  simp only [h0, if_true]
  by_cases h1 : 0 < (o (w.next + 1)).rc
  swap
  · simp [h0, h1, not_lt.mp h1, GenSpec, RunsScript, new_events, gen_steps, passed, performed,
      is_release, is_ctx_free]
  simp only [not_le.mpr h1, if_false]
  by_cases h2 : 0 < (o (w.next + 2)).rc
  swap
  · simp [h0, h1, h2, not_lt.mp h2, GenSpec, RunsScript, new_events, gen_steps, passed,
      performed, is_release, is_ctx_free]
  simp only [not_le.mpr h2, if_false]
  by_cases h3 : 0 < (o (w.next + 3)).rc
  swap
  · by_cases hp : (o (w.next + 3)).ptr = true <;>
      simp [h0, h1, h2, h3, not_lt.mp h3, hp, GenSpec, RunsScript, new_events, gen_steps,
        passed, performed, is_release, is_ctx_free]
  simp only [not_le.mpr h3, if_false]
  by_cases h5 : (o (w.next + 5)).ptr = true
  swap
  · by_cases hp : (o (w.next + 3)).ptr = true <;>
      simp [h0, h1, h2, h3, h5, hp, GenSpec, RunsScript, new_events, gen_steps, passed,
        performed, is_release, is_ctx_free]
  simp only [h5, if_true]
  by_cases h6 : (o (w.next + 6)).rc = 0 <;> by_cases hp : (o (w.next + 3)).ptr = true <;>
    simp [h0, h1, h2, h3, h5, h6, hp, GenSpec, RunsScript, new_events, gen_steps, passed,
      performed, is_release, is_ctx_free]

theorem gen_ecKey_spec (sizeof_ptr : Nat) (o : Oracle) (w : World) :
    GenSpec "EC" (gen_ecKey_params sizeof_ptr) EC_KEY_PATH o w (gen_ecKey sizeof_ptr o w) := by
  simp only [gen_ecKey, gen_ecKey_body, gen_exit, BIO_new_file, PEM_write_bio_PrivateKey,
    libcall, mkOutcome_rc, mkOutcome_obj, mkOutcome_len, mkOutcome_data, Nat.add_assoc,
    Nat.reduceAdd, bio_append, bio_contents, List.append_assoc, List.singleton_append,
    List.cons_append, List.nil_append]
  by_cases h0 : (o w.next).ptr = true
  swap
  · simp [h0, GenSpec, RunsScript, new_events, gen_steps, passed, performed, is_release, is_ctx_free]
  simp only [h0, if_true]
  by_cases h1 : 0 < (o (w.next + 1)).rc
  swap
  · simp [h0, h1, not_lt.mp h1, GenSpec, RunsScript, new_events, gen_steps, passed, performed,
      is_release, is_ctx_free]
  simp only [not_le.mpr h1, if_false]
  by_cases h2 : 0 < (o (w.next + 2)).rc
  swap
  · simp [h0, h1, h2, not_lt.mp h2, GenSpec, RunsScript, new_events, gen_steps, passed,
      performed, is_release, is_ctx_free]
  simp only [not_le.mpr h2, if_false]
  by_cases h3 : 0 < (o (w.next + 3)).rc
  swap
  · by_cases hp : (o (w.next + 3)).ptr = true <;>
      simp [h0, h1, h2, h3, not_lt.mp h3, hp, GenSpec, RunsScript, new_events, gen_steps,
        passed, performed, is_release, is_ctx_free]
  simp only [not_le.mpr h3, if_false]
  by_cases h5 : (o (w.next + 5)).ptr = true
  swap
  · by_cases hp : (o (w.next + 3)).ptr = true <;>
      simp [h0, h1, h2, h3, h5, hp, GenSpec, RunsScript, new_events, gen_steps, passed,
        performed, is_release, is_ctx_free]
  simp only [h5, if_true]
  by_cases h6 : (o (w.next + 6)).rc = 0 <;> by_cases hp : (o (w.next + 3)).ptr = true <;>
    simp [h0, h1, h2, h3, h5, h6, hp, GenSpec, RunsScript, new_events, gen_steps, passed,
      performed, is_release, is_ctx_free]

theorem load_rsa_key_spec (o : Oracle) (w : World) :
    LoadSpec RSA_KEY_PATH o w (load_rsa_key o w) := by
  simp only [load_rsa_key, BIO_new_file, PEM_read_bio_PrivateKey, libcall, mkOutcome_rc,
    mkOutcome_obj, mkOutcome_len, mkOutcome_data, Nat.add_assoc, Nat.reduceAdd, bio_contents,
    List.append_assoc, List.singleton_append, List.cons_append, List.nil_append]
  by_cases h0 : (o w.next).ptr = true <;>
    simp [h0, LoadSpec, RunsScript, new_events, load_steps, passed, performed, is_release]

theorem load_ec_key_spec (o : Oracle) (w : World) :
    LoadSpec EC_KEY_PATH o w (load_ec_key o w) := by
  simp only [load_ec_key, BIO_new_file, PEM_read_bio_PrivateKey, libcall, mkOutcome_rc,
    mkOutcome_obj, mkOutcome_len, mkOutcome_data, Nat.add_assoc, Nat.reduceAdd, bio_contents,
    List.append_assoc, List.singleton_append, List.cons_append, List.nil_append]
  by_cases h0 : (o w.next).ptr = true <;>
    simp [h0, LoadSpec, RunsScript, new_events, load_steps, passed, performed, is_release]

theorem take_overwrite (buf data : List Nat) :
    (overwrite buf data).take data.length = data := by
  simp [overwrite]

set_option maxHeartbeats 4000000 in
theorem rsa_evp_pkey_sign_verify_spec (o : Oracle) (pKey : Option Handle) (w : World) :
    SvSpec (rsa_sv_steps o pKey w.next) w (rsa_evp_pkey_sign_verify o pKey w) := by
  simp only [rsa_evp_pkey_sign_verify, rsa_evp_pkey_sign_verify_body, sv_exit, BIO_new_mem, PEM_write_bio_PUBKEY, PEM_read_bio_PUBKEY,
    libcall, mkOutcome_rc, mkOutcome_obj, mkOutcome_len, mkOutcome_data, Nat.add_assoc,
    Nat.reduceAdd, bio_append, bio_contents, take_overwrite, List.append_assoc,
    List.singleton_append, List.cons_append, List.nil_append, Function.update_same]
  by_cases h0 : (o w.next).ptr = true
  swap
  · simp [h0, SvSpec, RunsScript, new_events, rsa_sv_steps, passed, performed, is_release]
  simp only [h0, if_true, Function.update_same, List.nil_append, List.append_assoc,
    List.cons_append, Nat.add_assoc, Nat.reduceAdd, take_overwrite]
  by_cases h1 : 0 < (o (w.next + 1)).rc
  swap
  · simp [h0, h1, not_lt.mp h1, SvSpec, RunsScript, new_events, rsa_sv_steps, passed,
      performed, is_release]
  simp only [not_le.mpr h1, if_false, Function.update_same, List.nil_append,
    List.append_assoc, List.cons_append, Nat.add_assoc, Nat.reduceAdd, take_overwrite]
  by_cases h2 : 0 < (o (w.next + 2)).rc
  swap
  · simp [h0, h1, h2, not_lt.mp h2, SvSpec, RunsScript, new_events, rsa_sv_steps, passed,
      performed, is_release]
  simp only [not_le.mpr h2, if_false, Function.update_same, List.nil_append,
    List.append_assoc, List.cons_append, Nat.add_assoc, Nat.reduceAdd, take_overwrite]
  by_cases h3 : 0 < (o (w.next + 3)).rc
  swap
  · simp [h0, h1, h2, h3, not_lt.mp h3, SvSpec, RunsScript, new_events, rsa_sv_steps,
      passed, performed, is_release]
  simp only [not_le.mpr h3, if_false, Function.update_same, List.nil_append,
    List.append_assoc, List.cons_append, Nat.add_assoc, Nat.reduceAdd, take_overwrite]
  by_cases h4 : 0 < (o (w.next + 4)).rc
  swap
  · simp [h0, h1, h2, h3, h4, not_lt.mp h4, SvSpec, RunsScript, new_events, rsa_sv_steps,
      passed, performed, is_release]
  simp only [not_le.mpr h4, if_false, Function.update_same, List.nil_append,
    List.append_assoc, List.cons_append, Nat.add_assoc, Nat.reduceAdd, take_overwrite]
  by_cases h5 : 0 < (o (w.next + 5)).rc
  swap
  · simp [h0, h1, h2, h3, h4, h5, not_lt.mp h5, SvSpec, RunsScript, new_events,
      rsa_sv_steps, passed, performed, is_release]
  simp only [not_le.mpr h5, if_false, Function.update_same, List.nil_append,
    List.append_assoc, List.cons_append, Nat.add_assoc, Nat.reduceAdd, take_overwrite]
  by_cases h6 : (o (w.next + 6)).ptr = true
  swap
  · simp [h0, h1, h2, h3, h4, h5, h6, SvSpec, RunsScript, new_events, rsa_sv_steps, passed,
      performed, is_release]
  simp only [h6, if_true, Function.update_same, List.nil_append, List.append_assoc,
    List.cons_append, Nat.add_assoc, Nat.reduceAdd, take_overwrite]
  by_cases h7 : 0 < (o (w.next + 7)).rc
  swap
  · simp [h0, h1, h2, h3, h4, h5, h6, h7, not_lt.mp h7, SvSpec, RunsScript, new_events,
      rsa_sv_steps, passed, performed, is_release]
  simp only [not_le.mpr h7, if_false, Function.update_same, List.nil_append,
    List.append_assoc, List.cons_append, Nat.add_assoc, Nat.reduceAdd, take_overwrite]
  by_cases h8 : (o (w.next + 8)).ptr = true
  swap
  · simp [h0, h1, h2, h3, h4, h5, h6, h7, h8, SvSpec, RunsScript, new_events, rsa_sv_steps,
      passed, performed, is_release]
  simp only [h8, if_true, Function.update_same, List.nil_append, List.append_assoc,
    List.cons_append, Nat.add_assoc, Nat.reduceAdd, take_overwrite]
  by_cases h9 : 0 < (o (w.next + 9)).rc
  swap
  · simp [h0, h1, h2, h3, h4, h5, h6, h7, h8, h9, not_lt.mp h9, SvSpec, RunsScript,
      new_events, rsa_sv_steps, passed, performed, is_release]
  simp only [not_le.mpr h9, if_false, Function.update_same, List.nil_append,
    List.append_assoc, List.cons_append, Nat.add_assoc, Nat.reduceAdd, take_overwrite]
  by_cases h10 : (o (w.next + 10)).ptr = true
  swap
  · simp [h0, h1, h2, h3, h4, h5, h6, h7, h8, h9, h10, SvSpec, RunsScript, new_events,
      rsa_sv_steps, passed, performed, is_release]
  simp only [h10, if_true, Function.update_same, List.nil_append, List.append_assoc,
    List.cons_append, Nat.add_assoc, Nat.reduceAdd, take_overwrite]
  by_cases h11 : (o (w.next + 11)).ptr = true
  swap
  · simp [h0, h1, h2, h3, h4, h5, h6, h7, h8, h9, h10, h11, SvSpec, RunsScript, new_events,
      rsa_sv_steps, passed, performed, is_release]
  simp only [h11, if_true, Function.update_same, List.nil_append, List.append_assoc,
    List.cons_append, Nat.add_assoc, Nat.reduceAdd, take_overwrite]
  by_cases h12 : 0 < (o (w.next + 12)).rc
  swap
  · simp [h0, h1, h2, h3, h4, h5, h6, h7, h8, h9, h10, h11, h12, not_lt.mp h12, SvSpec,
      RunsScript, new_events, rsa_sv_steps, passed, performed, is_release]
  simp only [not_le.mpr h12, if_false, Function.update_same, List.nil_append,
    List.append_assoc, List.cons_append, Nat.add_assoc, Nat.reduceAdd, take_overwrite]
  by_cases h13 : 0 < (o (w.next + 13)).rc
  swap
  · simp [h0, h1, h2, h3, h4, h5, h6, h7, h8, h9, h10, h11, h12, h13, not_lt.mp h13,
      SvSpec, RunsScript, new_events, rsa_sv_steps, passed, performed, is_release]
  simp only [not_le.mpr h13, if_false, Function.update_same, List.nil_append,
    List.append_assoc, List.cons_append, Nat.add_assoc, Nat.reduceAdd, take_overwrite]
  by_cases h14 : 0 < (o (w.next + 14)).rc
  swap
  · simp [h0, h1, h2, h3, h4, h5, h6, h7, h8, h9, h10, h11, h12, h13, h14, not_lt.mp h14,
      SvSpec, RunsScript, new_events, rsa_sv_steps, passed, performed, is_release]
  simp only [not_le.mpr h14, if_false, Function.update_same, List.nil_append,
    List.append_assoc, List.cons_append, Nat.add_assoc, Nat.reduceAdd, take_overwrite]
  by_cases h15 : 0 < (o (w.next + 15)).rc
  swap
  · simp [h0, h1, h2, h3, h4, h5, h6, h7, h8, h9, h10, h11, h12, h13, h14, h15,
      not_lt.mp h15, SvSpec, RunsScript, new_events, rsa_sv_steps, passed, performed,
      is_release]
  simp only [not_le.mpr h15, if_false, Function.update_same, List.nil_append,
    List.append_assoc, List.cons_append, Nat.add_assoc, Nat.reduceAdd, take_overwrite]
  by_cases h16 : (o (w.next + 16)).rc = 0
  all_goals
    simp [h0, h1, h2, h3, h4, h5, h6, h7, h8, h9, h10, h11, h12, h13, h14, h15, h16,
      SvSpec, RunsScript, new_events, rsa_sv_steps, passed, performed, is_release]

set_option maxHeartbeats 4000000 in
theorem ec_evp_pkey_sign_verify_spec (o : Oracle) (pKey : Option Handle) (w : World) :
    SvSpec (ec_sv_steps o pKey w.next) w (ec_evp_pkey_sign_verify o pKey w) := by
  simp only [ec_evp_pkey_sign_verify, ec_evp_pkey_sign_verify_body, sv_exit, BIO_new_mem, PEM_write_bio_PUBKEY, PEM_read_bio_PUBKEY,
    libcall, mkOutcome_rc, mkOutcome_obj, mkOutcome_len, mkOutcome_data, Nat.add_assoc,
    Nat.reduceAdd, bio_append, bio_contents, take_overwrite, List.append_assoc,
    List.singleton_append, List.cons_append, List.nil_append, Function.update_same]
  by_cases h0 : (o w.next).ptr = true
  swap
  · simp [h0, SvSpec, RunsScript, new_events, ec_sv_steps, passed, performed, is_release]
  simp only [h0, if_true, Function.update_same, List.nil_append, List.append_assoc,
    List.cons_append, Nat.add_assoc, Nat.reduceAdd, take_overwrite]
  by_cases h1 : 0 < (o (w.next + 1)).rc
  swap
  · simp [h0, h1, not_lt.mp h1, SvSpec, RunsScript, new_events, ec_sv_steps, passed,
      performed, is_release]
  simp only [not_le.mpr h1, if_false, Function.update_same, List.nil_append,
    List.append_assoc, List.cons_append, Nat.add_assoc, Nat.reduceAdd, take_overwrite]
  by_cases h2 : 0 < (o (w.next + 2)).rc
  swap
  · simp [h0, h1, h2, not_lt.mp h2, SvSpec, RunsScript, new_events, ec_sv_steps, passed,
      performed, is_release]
  simp only [not_le.mpr h2, if_false, Function.update_same, List.nil_append,
    List.append_assoc, List.cons_append, Nat.add_assoc, Nat.reduceAdd, take_overwrite]
  by_cases h3 : 0 < (o (w.next + 3)).rc
  swap
  · simp [h0, h1, h2, h3, not_lt.mp h3, SvSpec, RunsScript, new_events, ec_sv_steps,
      passed, performed, is_release]
  simp only [not_le.mpr h3, if_false, Function.update_same, List.nil_append,
    List.append_assoc, List.cons_append, Nat.add_assoc, Nat.reduceAdd, take_overwrite]
  by_cases h4 : (o (w.next + 4)).ptr = true
  swap
  · simp [h0, h1, h2, h3, h4, SvSpec, RunsScript, new_events, ec_sv_steps, passed,
      performed, is_release]
  simp only [h4, if_true, Function.update_same, List.nil_append, List.append_assoc,
    List.cons_append, Nat.add_assoc, Nat.reduceAdd, take_overwrite]
  by_cases h5 : 0 < (o (w.next + 5)).rc
  swap
  · simp [h0, h1, h2, h3, h4, h5, not_lt.mp h5, SvSpec, RunsScript, new_events,
      ec_sv_steps, passed, performed, is_release]
  simp only [not_le.mpr h5, if_false, Function.update_same, List.nil_append,
    List.append_assoc, List.cons_append, Nat.add_assoc, Nat.reduceAdd, take_overwrite]
  by_cases h6 : (o (w.next + 6)).ptr = true
  swap
  · simp [h0, h1, h2, h3, h4, h5, h6, SvSpec, RunsScript, new_events, ec_sv_steps, passed,
      performed, is_release]
  simp only [h6, if_true, Function.update_same, List.nil_append, List.append_assoc,
    List.cons_append, Nat.add_assoc, Nat.reduceAdd, take_overwrite]
  by_cases h7 : 0 < (o (w.next + 7)).rc
  swap
  · simp [h0, h1, h2, h3, h4, h5, h6, h7, not_lt.mp h7, SvSpec, RunsScript, new_events,
      ec_sv_steps, passed, performed, is_release]
  simp only [not_le.mpr h7, if_false, Function.update_same, List.nil_append,
    List.append_assoc, List.cons_append, Nat.add_assoc, Nat.reduceAdd, take_overwrite]
  by_cases h8 : (o (w.next + 8)).ptr = true
  swap
  · simp [h0, h1, h2, h3, h4, h5, h6, h7, h8, SvSpec, RunsScript, new_events, ec_sv_steps,
      passed, performed, is_release]
  simp only [h8, if_true, Function.update_same, List.nil_append, List.append_assoc,
    List.cons_append, Nat.add_assoc, Nat.reduceAdd, take_overwrite]
  by_cases h9 : (o (w.next + 9)).ptr = true
  swap
  · simp [h0, h1, h2, h3, h4, h5, h6, h7, h8, h9, SvSpec, RunsScript, new_events,
      ec_sv_steps, passed, performed, is_release]
  simp only [h9, if_true, Function.update_same, List.nil_append, List.append_assoc,
    List.cons_append, Nat.add_assoc, Nat.reduceAdd, take_overwrite]
  by_cases h10 : 0 < (o (w.next + 10)).rc
  swap
  · simp [h0, h1, h2, h3, h4, h5, h6, h7, h8, h9, h10, not_lt.mp h10, SvSpec, RunsScript,
      new_events, ec_sv_steps, passed, performed, is_release]
  simp only [not_le.mpr h10, if_false, Function.update_same, List.nil_append,
    List.append_assoc, List.cons_append, Nat.add_assoc, Nat.reduceAdd, take_overwrite]
  by_cases h11 : 0 < (o (w.next + 11)).rc
  swap
  · simp [h0, h1, h2, h3, h4, h5, h6, h7, h8, h9, h10, h11, not_lt.mp h11, SvSpec,
      RunsScript, new_events, ec_sv_steps, passed, performed, is_release]
  simp only [not_le.mpr h11, if_false, Function.update_same, List.nil_append,
    List.append_assoc, List.cons_append, Nat.add_assoc, Nat.reduceAdd, take_overwrite]
  by_cases h12 : 0 < (o (w.next + 12)).rc
  swap
  · simp [h0, h1, h2, h3, h4, h5, h6, h7, h8, h9, h10, h11, h12, not_lt.mp h12, SvSpec,
      RunsScript, new_events, ec_sv_steps, passed, performed, is_release]
  simp only [not_le.mpr h12, if_false, Function.update_same, List.nil_append,
    List.append_assoc, List.cons_append, Nat.add_assoc, Nat.reduceAdd, take_overwrite]
  by_cases h13 : (o (w.next + 13)).rc = 0
  all_goals
    simp [h0, h1, h2, h3, h4, h5, h6, h7, h8, h9, h10, h11, h12, h13, SvSpec, RunsScript,
      new_events, ec_sv_steps, passed, performed, is_release]

set_option maxHeartbeats 4000000 in
theorem rsa_evp_pkey_encrypt_decrypt_spec (o : Oracle) (pKey : Option Handle) (w : World) :
    SvSpec (ed_steps o pKey w.next) w (rsa_evp_pkey_encrypt_decrypt o pKey w) := by
  simp only [rsa_evp_pkey_encrypt_decrypt, rsa_evp_pkey_encrypt_decrypt_body, ed_exit, BIO_new_mem, PEM_write_bio_PUBKEY, PEM_read_bio_PUBKEY,
    libcall, mkOutcome_rc, mkOutcome_obj, mkOutcome_len, mkOutcome_data, Nat.add_assoc,
    Nat.reduceAdd, bio_append, bio_contents, take_overwrite, List.append_assoc,
    List.singleton_append, List.cons_append, List.nil_append, Function.update_same]
  by_cases h0 : (o w.next).ptr = true
  swap
  · simp [h0, SvSpec, RunsScript, new_events, ed_steps, ed_deciphered, passed, performed,
      is_release]
  simp only [h0, if_true, Function.update_same, List.nil_append, List.append_assoc,
    List.cons_append, Nat.add_assoc, Nat.reduceAdd, take_overwrite]
  by_cases h1 : 0 < (o (w.next + 1)).rc
  swap
  · simp [h0, h1, not_lt.mp h1, SvSpec, RunsScript, new_events, ed_steps, ed_deciphered,
      passed, performed, is_release]
  simp only [not_le.mpr h1, if_false, Function.update_same, List.nil_append,
    List.append_assoc, List.cons_append, Nat.add_assoc, Nat.reduceAdd, take_overwrite]
  by_cases h2 : (o (w.next + 2)).ptr = true
  swap
  · simp [h0, h1, h2, SvSpec, RunsScript, new_events, ed_steps, ed_deciphered, passed,
      performed, is_release]
  simp only [h2, if_true, Function.update_same, List.nil_append, List.append_assoc,
    List.cons_append, Nat.add_assoc, Nat.reduceAdd, take_overwrite]
  by_cases h3 : (o (w.next + 3)).ptr = true
  swap
  · simp [h0, h1, h2, h3, SvSpec, RunsScript, new_events, ed_steps, ed_deciphered, passed,
      performed, is_release]
  simp only [h3, if_true, Function.update_same, List.nil_append, List.append_assoc,
    List.cons_append, Nat.add_assoc, Nat.reduceAdd, take_overwrite]
  by_cases h4 : 0 < (o (w.next + 4)).rc
  swap
  · simp [h0, h1, h2, h3, h4, not_lt.mp h4, SvSpec, RunsScript, new_events, ed_steps,
      ed_deciphered, passed, performed, is_release]
  simp only [not_le.mpr h4, if_false, Function.update_same, List.nil_append,
    List.append_assoc, List.cons_append, Nat.add_assoc, Nat.reduceAdd, take_overwrite]
  by_cases h5 : 0 < (o (w.next + 5)).rc
  swap
  · simp [h0, h1, h2, h3, h4, h5, not_lt.mp h5, SvSpec, RunsScript, new_events, ed_steps,
      ed_deciphered, passed, performed, is_release]
  simp only [not_le.mpr h5, if_false, Function.update_same, List.nil_append,
    List.append_assoc, List.cons_append, Nat.add_assoc, Nat.reduceAdd, take_overwrite]
  by_cases h6 : 0 < (o (w.next + 6)).rc
  swap
  · simp [h0, h1, h2, h3, h4, h5, h6, not_lt.mp h6, SvSpec, RunsScript, new_events,
      ed_steps, ed_deciphered, passed, performed, is_release]
  simp only [not_le.mpr h6, if_false, Function.update_same, List.nil_append,
    List.append_assoc, List.cons_append, Nat.add_assoc, Nat.reduceAdd, take_overwrite]
  by_cases h7 : (o (w.next + 7)).ptr = true
  swap
  · simp [h0, h1, h2, h3, h4, h5, h6, h7, SvSpec, RunsScript, new_events, ed_steps,
      ed_deciphered, passed, performed, is_release]
  simp only [h7, if_true, Function.update_same, List.nil_append, List.append_assoc,
    List.cons_append, Nat.add_assoc, Nat.reduceAdd, take_overwrite]
  by_cases h8 : 0 < (o (w.next + 8)).rc
  swap
  · simp [h0, h1, h2, h3, h4, h5, h6, h7, h8, not_lt.mp h8, SvSpec, RunsScript, new_events,
      ed_steps, ed_deciphered, passed, performed, is_release]
  simp only [not_le.mpr h8, if_false, Function.update_same, List.nil_append,
    List.append_assoc, List.cons_append, Nat.add_assoc, Nat.reduceAdd, take_overwrite]
  by_cases h9 : (o (w.next + 9)).ptr = true
  swap
  · simp [h0, h1, h2, h3, h4, h5, h6, h7, h8, h9, SvSpec, RunsScript, new_events, ed_steps,
      ed_deciphered, passed, performed, is_release]
  simp only [h9, if_true, Function.update_same, List.nil_append, List.append_assoc,
    List.cons_append, Nat.add_assoc, Nat.reduceAdd, take_overwrite]
  by_cases h10 : 0 < (o (w.next + 10)).rc
  swap
  · simp [h0, h1, h2, h3, h4, h5, h6, h7, h8, h9, h10, not_lt.mp h10, SvSpec, RunsScript,
      new_events, ed_steps, ed_deciphered, passed, performed, is_release]
  simp only [not_le.mpr h10, if_false, Function.update_same, List.nil_append,
    List.append_assoc, List.cons_append, Nat.add_assoc, Nat.reduceAdd, take_overwrite]
  by_cases h11 : 0 < (o (w.next + 11)).rc
  swap
  · simp [h0, h1, h2, h3, h4, h5, h6, h7, h8, h9, h10, h11, not_lt.mp h11, SvSpec,
      RunsScript, new_events, ed_steps, ed_deciphered, passed, performed, is_release]
  simp only [not_le.mpr h11, if_false, Function.update_same, List.nil_append,
    List.append_assoc, List.cons_append, Nat.add_assoc, Nat.reduceAdd, take_overwrite]
  by_cases h12 : 0 < (o (w.next + 12)).rc
  swap
  · simp [h0, h1, h2, h3, h4, h5, h6, h7, h8, h9, h10, h11, h12, not_lt.mp h12, SvSpec,
      RunsScript, new_events, ed_steps, ed_deciphered, passed, performed, is_release]
  simp only [not_le.mpr h12, if_false, Function.update_same, List.nil_append,
    List.append_assoc, List.cons_append, Nat.add_assoc, Nat.reduceAdd, take_overwrite]
  by_cases h13 : (o (w.next + 13)).ptr = true
  swap
  · simp [h0, h1, h2, h3, h4, h5, h6, h7, h8, h9, h10, h11, h12, h13, SvSpec, RunsScript,
      new_events, ed_steps, ed_deciphered, passed, performed, is_release]
  simp only [h13, if_true, Function.update_same, List.nil_append, List.append_assoc,
    List.cons_append, Nat.add_assoc, Nat.reduceAdd, take_overwrite]
  by_cases h14 : 0 < (o (w.next + 14)).rc
  swap
  · simp [h0, h1, h2, h3, h4, h5, h6, h7, h8, h9, h10, h11, h12, h13, h14, not_lt.mp h14,
      SvSpec, RunsScript, new_events, ed_steps, ed_deciphered, passed, performed,
      is_release]
  simp only [not_le.mpr h14, if_false]
  by_cases hc : ((o (w.next + 14)).data.length ≠ 3 ∨
      strncmp [1, 2, 3]
        (overwrite
          (memset (malloc_bytes (o (w.next + 12)).len (o (w.next + 13)).data) 0
            (o (w.next + 12)).len)
          (o (w.next + 14)).data)
        (o (w.next + 14)).data.length ≠ 0)
  · simp only [hc, if_true, SvSpec, ed_steps, ed_deciphered]
    simp [h0, h1, h2, h3, h4, h5, h6, h7, h8, h9, h10, h11, h12, h13, h14, RunsScript,
      new_events, passed, performed, is_release]
  · simp only [hc, if_false, SvSpec, ed_steps, ed_deciphered]
    simp [h0, h1, h2, h3, h4, h5, h6, h7, h8, h9, h10, h11, h12, h13, h14, RunsScript,
      new_events, passed, performed, is_release]

theorem passed_le_performed (l : List Bool) : passed l ≤ performed l := by
  induction l with
  | nil => simp [passed]
  | cons b l ih => cases b <;> simp [performed, passed, ih]

theorem RunsScript.take_le {steps : List (Event × Bool)} {evs : List Event}
    (h : RunsScript steps evs) {j : Nat} (hj : j ≤ performed (steps.map Prod.snd)) :
    evs.take j = (steps.map Prod.fst).take j := by
  have e1 : evs.take j = (evs.take (performed (steps.map Prod.snd))).take j := by
    rw [List.take_take, Nat.min_eq_left hj]
  have e2 : (steps.map Prod.fst).take j =
      ((steps.map Prod.fst).take (performed (steps.map Prod.snd))).take j := by
    rw [List.take_take, Nat.min_eq_left hj]
  rw [e1, e2, h.1]

theorem RunsScript.take_passed {steps : List (Event × Bool)} {evs : List Event}
    (h : RunsScript steps evs) {j : Nat} (hj : j ≤ passed (steps.map Prod.snd)) :
    evs.take j = (steps.map Prod.fst).take j ∧ ∀ b ∈ (steps.map Prod.snd).take j, b = true :=
  ⟨h.take_le (le_trans hj (passed_le_performed _)), passed_take_true _ _ hj⟩

theorem mem_of_take_eq {evs l : List Event} {k : Nat} (h : evs.take k = l) {e : Event}
    (he : e ∈ l) : e ∈ evs :=
  List.mem_of_mem_take (h ▸ he)

/-- An event of kind `p` in a run is an event of the table, and the run got as far
as the first table entry of that kind. -/
theorem RunsScript.of_kind {steps : List (Event × Bool)} {evs : List Event}
    (h : RunsScript steps evs) (p : Event → Bool) (j : Nat)
    (hrel : ∀ e, is_release e = true → p e = false)
    (hpre : ∀ e ∈ (steps.map Prod.fst).take j, p e = false)
    {e : Event} (he : e ∈ evs) (hp : p e = true) :
    e ∈ steps.map Prod.fst ∧ evs.take (j + 1) = (steps.map Prod.fst).take (j + 1) ∧
      ∀ b ∈ (steps.map Prod.snd).take j, b = true := by
  obtain ⟨h1, h2⟩ := h.reached p j hrel hpre ⟨e, he, hp⟩
  refine ⟨?_, h1, h2⟩
  rcases h.mem_cases he with h3 | h3
  · exact h3
  · have h4 := hrel e h3
    rw [hp] at h4
    exact Bool.noConfusion h4

theorem release_not_generate (e : Event) (h : is_release e = true) : is_generate e = false := by
  rcases e with ⟨c, r⟩ | f | ⟨f, v⟩ | ⟨f, p⟩
  · cases c <;> simp_all [is_release, is_generate]
  all_goals simp [is_generate]

theorem release_not_file_event (e : Event) (h : is_release e = true) :
    is_file_event e = false := by
  rcases e with ⟨c, r⟩ | f | ⟨f, v⟩ | ⟨f, p⟩
  · cases c <;> simp_all [is_release, is_file_event]
  all_goals simp [is_file_event]

theorem release_not_sign (e : Event) (h : is_release e = true) : is_sign e = false := by
  rcases e with ⟨c, r⟩ | f | ⟨f, v⟩ | ⟨f, p⟩
  · cases c <;> simp_all [is_release, is_sign]
  all_goals simp [is_sign]

theorem release_not_verify (e : Event) (h : is_release e = true) : is_verify e = false := by
  rcases e with ⟨c, r⟩ | f | ⟨f, v⟩ | ⟨f, p⟩
  · cases c <;> simp_all [is_release, is_verify]
  all_goals simp [is_verify]

theorem release_not_encrypt (e : Event) (h : is_release e = true) : is_encrypt e = false := by
  rcases e with ⟨c, r⟩ | f | ⟨f, v⟩ | ⟨f, p⟩
  · cases c <;> simp_all [is_release, is_encrypt]
  all_goals simp [is_encrypt]

theorem release_not_decrypt (e : Event) (h : is_release e = true) : is_decrypt e = false := by
  rcases e with ⟨c, r⟩ | f | ⟨f, v⟩ | ⟨f, p⟩
  · cases c <;> simp_all [is_release, is_decrypt]
  all_goals simp [is_decrypt]

theorem performed_pos (b : Bool) (l : List Bool) : 1 ≤ performed (b :: l) := by
  cases b <;> simp [performed]

theorem GenSpec.props {alg : String} {params : List OSSL_PARAM} {path : String} {o : Oracle}
    {w : World} {res : Int × World} (h : GenSpec alg params path o w res) :
    ((new_events w res.2).take 1 =
        [Event.lib (Call.EVP_PKEY_CTX_new_from_name alg "provider=tpm2")
          (mkOutcome (o w.next) w.next)]) ∧
    (∀ name propq r,
        Event.lib (Call.EVP_PKEY_CTX_new_from_name name propq) r ∈ new_events w res.2 →
        name = alg ∧ propq = "provider=tpm2") ∧
    (∀ ctx ps r, Event.lib (Call.EVP_PKEY_CTX_set_params ctx ps) r ∈ new_events w res.2 →
        ps = params) ∧
    (∀ ctx r, Event.lib (Call.EVP_PKEY_generate ctx) r ∈ new_events w res.2 →
        ∃ r0 r2,
          Event.lib (Call.EVP_PKEY_CTX_new_from_name alg "provider=tpm2") r0 ∈
            new_events w res.2 ∧ r0.obj = some ctx ∧
          Event.lib (Call.EVP_PKEY_CTX_set_params ctx params) r2 ∈ new_events w res.2 ∧
          0 < r2.rc) ∧
    (res.1 = 0 ∨ res.1 = 1) ∧
    (res.1 = 0 ↔
      ((new_events w res.2).take 7 = (gen_steps alg params path o w.next).map Prod.fst ∧
        ∀ b ∈ (gen_steps alg params path o w.next).map Prod.snd, b = true)) ∧
    ((∀ ctx r, Event.lib (Call.EVP_PKEY_generate ctx) r ∈ new_events w res.2 → r.rc ≤ 0) →
      res.2.fs = w.fs ∧ ∀ e ∈ new_events w res.2, is_file_event e = false) := by
  obtain ⟨_, hrun, hret, hfs, _⟩ := h
  have hlen : (gen_steps alg params path o w.next).length = 7 := rfl
  have hgen : ∀ ctx r, Event.lib (Call.EVP_PKEY_generate ctx) r ∈ new_events w res.2 →
      ctx = w.next ∧
      (new_events w res.2).take 4 = ((gen_steps alg params path o w.next).map Prod.fst).take 4 ∧
      (o w.next).ptr = true ∧ 0 < (o (w.next + 2)).rc := by
    intro ctx r he
    obtain ⟨h2, ht, hf⟩ := hrun.of_kind is_generate 3 release_not_generate
      (by simp [gen_steps, is_generate]) he rfl
    simp [gen_steps] at h2 hf
    exact ⟨h2.1, ht, hf.1, hf.2.2⟩
  refine ⟨?_, ?_, ?_, ?_, ?_, ?_, ?_⟩
  · have := hrun.take_le (performed_pos _ _ : 1 ≤ performed
      ((gen_steps alg params path o w.next).map Prod.snd))
    simpa [gen_steps] using this
  · intro name propq r he
    rcases hrun.mem_cases he with h2 | h2
    · simp [gen_steps] at h2
      exact h2.1
    · simp [is_release] at h2
  · intro ctx ps r he
    rcases hrun.mem_cases he with h2 | h2
    · simp [gen_steps] at h2
      exact h2.1.2
    · simp [is_release] at h2
  · intro ctx r he
    obtain ⟨hc, ht, hp, h2⟩ := hgen ctx r he
    subst hc
    refine ⟨mkOutcome (o w.next) w.next, mkOutcome (o (w.next + 2)) (w.next + 2), ?_, ?_, ?_, ?_⟩
    · exact mem_of_take_eq ht (by simp [gen_steps])
    · simp [hp]
    · exact mem_of_take_eq ht (by simp [gen_steps])
    · simpa using h2
  · rw [hret]
    split <;> simp
  · rw [hret]
    constructor
    · intro h0
      have hp : passed ((gen_steps alg params path o w.next).map Prod.snd) = 7 := by
        by_contra hne
        simp [hne] at h0
      refine ⟨?_, ?_⟩
      · have := hrun.complete (by rw [hp, hlen])
        rw [hlen] at this
        exact this
      · apply (passed_eq_length_iff _).mp
        rw [hp]
        simp [hlen]
    · rintro ⟨_, hall⟩
      have hp := (passed_eq_length_iff _).mpr hall
      simp only [List.length_map, hlen] at hp
      simp [hp]
  · intro hno
    have hlt : passed ((gen_steps alg params path o w.next).map Prod.snd) < 4 := by
      by_contra hge
      have h4 := hrun.take_passed (Nat.le_of_not_lt hge)
      have hmem : Event.lib (Call.EVP_PKEY_generate w.next)
          (mkOutcome (o (w.next + 3)) (w.next + 3)) ∈ new_events w res.2 :=
        mem_of_take_eq h4.1 (by simp [gen_steps])
      have h6 := hno _ _ hmem
      have h5 := h4.2
      simp [gen_steps] at h5
      simp at h6
      omega
    constructor
    · rw [hfs, if_pos (by omega)]
    · intro e he
      by_contra hfe
      have hfe2 : is_file_event e = true := by simpa using hfe
      obtain ⟨_, ht, hf⟩ := hrun.of_kind is_file_event 5 release_not_file_event
        (by simp [gen_steps, is_file_event]) he hfe2
      simp [gen_steps] at hf
      have hmem : Event.lib (Call.EVP_PKEY_generate w.next)
          (mkOutcome (o (w.next + 3)) (w.next + 3)) ∈ new_events w res.2 :=
        mem_of_take_eq ht (by simp [gen_steps])
      have h6 := hno _ _ hmem
      simp at h6
      omega

theorem corrupt_ne : corrupt sha256_init ≠ sha256_init := by
  decide

theorem SvSpec.ret_cases {steps : List (Event × Bool)} {w : World} {res : Int × World}
    (h : SvSpec steps w res) : res.1 = 0 ∨ res.1 = -1 := by
  rw [h.2.2]
  split <;> simp

theorem SvSpec.ret_iff {steps : List (Event × Bool)} {w : World} {res : Int × World}
    (h : SvSpec steps w res) :
    res.1 = 0 ↔ ((new_events w res.2).take steps.length = steps.map Prod.fst ∧
      ∀ b ∈ steps.map Prod.snd, b = true) := by
  obtain ⟨_, hrun, hret⟩ := h
  rw [hret]
  constructor
  · intro h0
    have hp : passed (steps.map Prod.snd) = steps.length := by
      by_contra hne
      simp [hne] at h0
    refine ⟨hrun.complete hp, ?_⟩
    apply (passed_eq_length_iff _).mp
    simpa using hp
  · rintro ⟨_, hall⟩
    have hp := (passed_eq_length_iff _).mpr hall
    simp only [List.length_map] at hp
    simp [hp]

theorem rsa_evp_pkey_sign_verify_providers (o : Oracle) (pKey : Option Handle) (w : World) :
    (∀ ctx sig siglen tbs tbslen r,
        Event.lib (Call.EVP_PKEY_sign ctx sig siglen tbs tbslen) r ∈
          new_events w (rsa_evp_pkey_sign_verify o pKey w).2 →
        (∃ r0, Event.lib (Call.EVP_PKEY_CTX_new_from_pkey pKey "provider=tpm2") r0 ∈
            new_events w (rsa_evp_pkey_sign_verify o pKey w).2 ∧ r0.obj = some ctx) ∧
        (∀ k r1, Event.lib (Call.EVP_PKEY_CTX_new_from_pkey k "provider=default") r1 ∈
            new_events w (rsa_evp_pkey_sign_verify o pKey w).2 → r1.obj ≠ some ctx)) ∧
    (∀ ctx2 sig sigbytes siglen tbs tbslen r,
        Event.lib (Call.EVP_PKEY_verify ctx2 sig sigbytes siglen tbs tbslen) r ∈
          new_events w (rsa_evp_pkey_sign_verify o pKey w).2 →
        (∃ bio pub rw rr rc,
          Event.lib (Call.PEM_write_bio_PUBKEY bio pKey) rw ∈
            new_events w (rsa_evp_pkey_sign_verify o pKey w).2 ∧ 0 < rw.rc ∧
          Event.lib (Call.PEM_read_bio_PUBKEY bio (some rw.data)) rr ∈
            new_events w (rsa_evp_pkey_sign_verify o pKey w).2 ∧ rr.obj = some pub ∧
          Event.lib (Call.EVP_PKEY_CTX_new_from_pkey (some pub) "provider=default") rc ∈
            new_events w (rsa_evp_pkey_sign_verify o pKey w).2 ∧ rc.obj = some ctx2) ∧
        (∀ k r1, Event.lib (Call.EVP_PKEY_CTX_new_from_pkey k "provider=tpm2") r1 ∈
            new_events w (rsa_evp_pkey_sign_verify o pKey w).2 → r1.obj ≠ some ctx2)) := by
  have hrun := (rsa_evp_pkey_sign_verify_spec o pKey w).2.1
  constructor
  · intro ctx sig siglen tbs tbslen r he
    obtain ⟨hm, ht, hf⟩ := hrun.of_kind is_sign 5 release_not_sign
      (by simp [rsa_sv_steps, is_sign]) he rfl
    simp [rsa_sv_steps] at hm hf
    have hctx : ctx = w.next := by
      rcases hm with h | h <;> exact h.1.1
    subst hctx
    constructor
    · exact ⟨mkOutcome (o w.next) w.next, mem_of_take_eq ht (by simp [rsa_sv_steps]),
        by simp [hf.1]⟩
    · intro k r1 h1
      rcases hrun.mem_cases h1 with h2 | h2
      · simp [rsa_sv_steps] at h2
        rw [h2.2]
        simp
      · simp [is_release] at h2
  · intro ctx2 sig sigbytes siglen tbs tbslen r he
    obtain ⟨hm, ht, hf⟩ := hrun.of_kind is_verify 15 release_not_verify
      (by simp [rsa_sv_steps, is_verify]) he rfl
    simp [rsa_sv_steps] at hm hf
    have hctx : ctx2 = w.next + 11 := by
      rcases hm with h | h <;> exact h.1.1
    subst hctx
    constructor
    · refine ⟨w.next + 8, w.next + 10, mkOutcome (o (w.next + 9)) (w.next + 9),
        mkOutcome (o (w.next + 10)) (w.next + 10), mkOutcome (o (w.next + 11)) (w.next + 11),
        mem_of_take_eq ht (by simp [rsa_sv_steps]), ?_,
        mem_of_take_eq ht (by simp [rsa_sv_steps]), ?_,
        mem_of_take_eq ht (by simp [rsa_sv_steps]), ?_⟩
      · simp [hf]
      · simp [hf]
      · simp [hf]
    · intro k r1 h1
      rcases hrun.mem_cases h1 with h2 | h2
      · simp [rsa_sv_steps] at h2
        rw [h2.2]
        simp
      · simp [is_release] at h2

theorem rsa_evp_pkey_sign_verify_result (o : Oracle) (pKey : Option Handle) (w : World) :
    ((rsa_evp_pkey_sign_verify o pKey w).1 = 0 ∨ (rsa_evp_pkey_sign_verify o pKey w).1 = -1) ∧
    ((rsa_evp_pkey_sign_verify o pKey w).1 = 0 ↔
      ((new_events w (rsa_evp_pkey_sign_verify o pKey w).2).take 17 =
          (rsa_sv_steps o pKey w.next).map Prod.fst ∧
        ∀ b ∈ (rsa_sv_steps o pKey w.next).map Prod.snd, b = true)) ∧
    (∀ ctx2 sig sigbytes siglen tbslen r,
        Event.lib (Call.EVP_PKEY_verify ctx2 sig sigbytes siglen sha256_init tbslen) r ∈
          new_events w (rsa_evp_pkey_sign_verify o pKey w).2 →
        r.rc ≤ 0 → (rsa_evp_pkey_sign_verify o pKey w).1 = -1) ∧
    (∀ ctx2 sig sigbytes siglen tbslen r,
        Event.lib (Call.EVP_PKEY_verify ctx2 sig sigbytes siglen (corrupt sha256_init) tbslen) r ∈
          new_events w (rsa_evp_pkey_sign_verify o pKey w).2 →
        r.rc ≠ 0 → (rsa_evp_pkey_sign_verify o pKey w).1 = -1) ∧
    ((rsa_evp_pkey_sign_verify o pKey w).1 = 0 →
      ∃ ctx2 sig sigbytes siglen r1 r2,
        Event.lib (Call.EVP_PKEY_verify ctx2 sig sigbytes siglen sha256_init 32) r1 ∈
          new_events w (rsa_evp_pkey_sign_verify o pKey w).2 ∧ 0 < r1.rc ∧
        Event.lib (Call.EVP_PKEY_verify ctx2 sig sigbytes siglen (corrupt sha256_init) 32) r2 ∈
          new_events w (rsa_evp_pkey_sign_verify o pKey w).2 ∧ r2.rc = 0) := by
  have hspec := rsa_evp_pkey_sign_verify_spec o pKey w
  have hrun := hspec.2.1
  have hiff := hspec.ret_iff
  have hcases := hspec.ret_cases
  have hlen : (rsa_sv_steps o pKey w.next).length = 17 := rfl
  rw [hlen] at hiff
  refine ⟨hcases, hiff, ?_, ?_, ?_⟩
  · intro ctx2 sig sigbytes siglen tbslen r he hr
    rcases hcases with h0 | h1
    · exfalso
      have hall := (hiff.mp h0).2
      simp [rsa_sv_steps] at hall
      rcases hrun.mem_cases he with h2 | h2
      · simp [rsa_sv_steps, corrupt_ne.symm] at h2
        rw [h2.2] at hr
        simp at hr
        omega
      · simp [is_release] at h2
    · exact h1
  · intro ctx2 sig sigbytes siglen tbslen r he hr
    rcases hcases with h0 | h1
    · exfalso
      have hall := (hiff.mp h0).2
      simp [rsa_sv_steps] at hall
      rcases hrun.mem_cases he with h2 | h2
      · simp [rsa_sv_steps, corrupt_ne] at h2
        rw [h2.2] at hr
        simp at hr
        omega
      · simp [is_release] at h2
    · exact h1
  · intro h0
    obtain ⟨ht, hall⟩ := hiff.mp h0
    simp [rsa_sv_steps] at hall
    refine ⟨w.next + 11, w.next + 6, (o (w.next + 7)).data,
      (o (w.next + 7)).data.length,
      mkOutcome (o (w.next + 15)) (w.next + 15), mkOutcome (o (w.next + 16)) (w.next + 16),
      mem_of_take_eq ht (by simp [rsa_sv_steps]), ?_,
      mem_of_take_eq ht (by simp [rsa_sv_steps]), ?_⟩
    · simp [hall]
    · simp [hall]

theorem ec_evp_pkey_sign_verify_providers (o : Oracle) (pKey : Option Handle) (w : World) :
    (∀ ctx sig siglen tbs tbslen r,
        Event.lib (Call.EVP_PKEY_sign ctx sig siglen tbs tbslen) r ∈
          new_events w (ec_evp_pkey_sign_verify o pKey w).2 →
        (∃ r0, Event.lib (Call.EVP_PKEY_CTX_new_from_pkey pKey "provider=tpm2") r0 ∈
            new_events w (ec_evp_pkey_sign_verify o pKey w).2 ∧ r0.obj = some ctx) ∧
        (∀ k r1, Event.lib (Call.EVP_PKEY_CTX_new_from_pkey k "provider=default") r1 ∈
            new_events w (ec_evp_pkey_sign_verify o pKey w).2 → r1.obj ≠ some ctx)) ∧
    (∀ ctx2 sig sigbytes siglen tbs tbslen r,
        Event.lib (Call.EVP_PKEY_verify ctx2 sig sigbytes siglen tbs tbslen) r ∈
          new_events w (ec_evp_pkey_sign_verify o pKey w).2 →
        (∃ bio pub rw rr rc,
          Event.lib (Call.PEM_write_bio_PUBKEY bio pKey) rw ∈
            new_events w (ec_evp_pkey_sign_verify o pKey w).2 ∧ 0 < rw.rc ∧
          Event.lib (Call.PEM_read_bio_PUBKEY bio (some rw.data)) rr ∈
            new_events w (ec_evp_pkey_sign_verify o pKey w).2 ∧ rr.obj = some pub ∧
          Event.lib (Call.EVP_PKEY_CTX_new_from_pkey (some pub) "provider=default") rc ∈
            new_events w (ec_evp_pkey_sign_verify o pKey w).2 ∧ rc.obj = some ctx2) ∧
        (∀ k r1, Event.lib (Call.EVP_PKEY_CTX_new_from_pkey k "provider=tpm2") r1 ∈
            new_events w (ec_evp_pkey_sign_verify o pKey w).2 → r1.obj ≠ some ctx2)) := by
  have hrun := (ec_evp_pkey_sign_verify_spec o pKey w).2.1
  constructor
  · intro ctx sig siglen tbs tbslen r he
    obtain ⟨hm, ht, hf⟩ := hrun.of_kind is_sign 3 release_not_sign
      (by simp [ec_sv_steps, is_sign]) he rfl
    simp [ec_sv_steps] at hm hf
    have hctx : ctx = w.next := by
      rcases hm with h | h <;> exact h.1.1
    subst hctx
    constructor
    · exact ⟨mkOutcome (o w.next) w.next, mem_of_take_eq ht (by simp [ec_sv_steps]),
        by simp [hf.1]⟩
    · intro k r1 h1
      rcases hrun.mem_cases h1 with h2 | h2
      · simp [ec_sv_steps] at h2
        rw [h2.2]
        simp
      · simp [is_release] at h2
  · intro ctx2 sig sigbytes siglen tbs tbslen r he
    obtain ⟨hm, ht, hf⟩ := hrun.of_kind is_verify 12 release_not_verify
      (by simp [ec_sv_steps, is_verify]) he rfl
    simp [ec_sv_steps] at hm hf
    have hctx : ctx2 = w.next + 9 := by
      rcases hm with h | h <;> exact h.1.1
    subst hctx
    constructor
    · refine ⟨w.next + 6, w.next + 8, mkOutcome (o (w.next + 7)) (w.next + 7),
        mkOutcome (o (w.next + 8)) (w.next + 8), mkOutcome (o (w.next + 9)) (w.next + 9),
        mem_of_take_eq ht (by simp [ec_sv_steps]), ?_,
        mem_of_take_eq ht (by simp [ec_sv_steps]), ?_,
        mem_of_take_eq ht (by simp [ec_sv_steps]), ?_⟩
      · simp [hf]
      · simp [hf]
      · simp [hf]
    · intro k r1 h1
      rcases hrun.mem_cases h1 with h2 | h2
      · simp [ec_sv_steps] at h2
        rw [h2.2]
        simp
      · simp [is_release] at h2

theorem ec_evp_pkey_sign_verify_result (o : Oracle) (pKey : Option Handle) (w : World) :
    ((ec_evp_pkey_sign_verify o pKey w).1 = 0 ∨ (ec_evp_pkey_sign_verify o pKey w).1 = -1) ∧
    ((ec_evp_pkey_sign_verify o pKey w).1 = 0 ↔
      ((new_events w (ec_evp_pkey_sign_verify o pKey w).2).take 14 =
          (ec_sv_steps o pKey w.next).map Prod.fst ∧
        ∀ b ∈ (ec_sv_steps o pKey w.next).map Prod.snd, b = true)) ∧
    (∀ ctx2 sig sigbytes siglen tbslen r,
        Event.lib (Call.EVP_PKEY_verify ctx2 sig sigbytes siglen sha256_init tbslen) r ∈
          new_events w (ec_evp_pkey_sign_verify o pKey w).2 →
        r.rc ≤ 0 → (ec_evp_pkey_sign_verify o pKey w).1 = -1) ∧
    (∀ ctx2 sig sigbytes siglen tbslen r,
        Event.lib (Call.EVP_PKEY_verify ctx2 sig sigbytes siglen (corrupt sha256_init) tbslen) r ∈
          new_events w (ec_evp_pkey_sign_verify o pKey w).2 →
        r.rc ≠ 0 → (ec_evp_pkey_sign_verify o pKey w).1 = -1) ∧
    ((ec_evp_pkey_sign_verify o pKey w).1 = 0 →
      ∃ ctx2 sig sigbytes siglen r1 r2,
        Event.lib (Call.EVP_PKEY_verify ctx2 sig sigbytes siglen sha256_init 32) r1 ∈
          new_events w (ec_evp_pkey_sign_verify o pKey w).2 ∧ 0 < r1.rc ∧
        Event.lib (Call.EVP_PKEY_verify ctx2 sig sigbytes siglen (corrupt sha256_init) 32) r2 ∈
          new_events w (ec_evp_pkey_sign_verify o pKey w).2 ∧ r2.rc = 0) := by
  have hspec := ec_evp_pkey_sign_verify_spec o pKey w
  have hrun := hspec.2.1
  have hiff := hspec.ret_iff
  have hcases := hspec.ret_cases
  have hlen : (ec_sv_steps o pKey w.next).length = 14 := rfl
  rw [hlen] at hiff
  refine ⟨hcases, hiff, ?_, ?_, ?_⟩
  · intro ctx2 sig sigbytes siglen tbslen r he hr
    rcases hcases with h0 | h1
    · exfalso
      have hall := (hiff.mp h0).2
      simp [ec_sv_steps] at hall
      rcases hrun.mem_cases he with h2 | h2
      · simp [ec_sv_steps, corrupt_ne.symm] at h2
        rw [h2.2] at hr
        simp at hr
        omega
      · simp [is_release] at h2
    · exact h1
  · intro ctx2 sig sigbytes siglen tbslen r he hr
    rcases hcases with h0 | h1
    · exfalso
      have hall := (hiff.mp h0).2
      simp [ec_sv_steps] at hall
      rcases hrun.mem_cases he with h2 | h2
      · simp [ec_sv_steps, corrupt_ne] at h2
        rw [h2.2] at hr
        simp at hr
        omega
      · simp [is_release] at h2
    · exact h1
  · intro h0
    obtain ⟨ht, hall⟩ := hiff.mp h0
    simp [ec_sv_steps] at hall
    refine ⟨w.next + 9, w.next + 4, (o (w.next + 5)).data,
      (o (w.next + 5)).data.length,
      mkOutcome (o (w.next + 12)) (w.next + 12), mkOutcome (o (w.next + 13)) (w.next + 13),
      mem_of_take_eq ht (by simp [ec_sv_steps]), ?_,
      mem_of_take_eq ht (by simp [ec_sv_steps]), ?_⟩
    · simp [hall]
    · simp [hall]

theorem strncmp_clear (a b c : Nat) (rest : List Nat) :
    strncmp [1, 2, 3] (a :: b :: c :: rest) 3 = 0 ↔ a = 1 ∧ b = 2 ∧ c = 3 := by
  simp only [strncmp, List.headD_cons, List.tail_cons]
  by_cases ha : a = 1
  · subst ha
    by_cases hb : b = 2
    · subst hb
      by_cases hc : c = 3
      · subst hc
        simp
      · have hc2 : ¬ (3 : Nat) = c := fun h => hc h.symm
        simp [hc, hc2]
        omega
    · have hb2 : ¬ (2 : Nat) = b := fun h => hb h.symm
      simp [hb, hb2]
      omega
  · have ha2 : ¬ (1 : Nat) = a := fun h => ha h.symm
    simp [ha, ha2]
    omega

theorem strncmp_rejects (d : List Nat) (hlen : d.length = 3) (hne : d ≠ [1, 2, 3]) :
    strncmp [1, 2, 3] d 3 ≠ 0 := by
  match d, hlen with
  | [a, b, c], _ =>
    intro h
    have h2 := (strncmp_clear a b c []).mp h
    apply hne
    simp [h2]

theorem compare_accepts_iff (buf d : List Nat) :
    ¬ (d.length ≠ 3 ∨ strncmp [1, 2, 3] (overwrite buf d) d.length ≠ 0) ↔ d = [1, 2, 3] := by
  constructor
  · intro h
    have hlen : d.length = 3 := by
      by_contra hne
      exact h (Or.inl hne)
    match d, hlen with
    | [a, b, c], _ =>
      have h2 : strncmp [1, 2, 3] (overwrite buf [a, b, c]) 3 = 0 := by
        by_contra hne
        exact h (Or.inr hne)
      have h3 := (strncmp_clear a b c (buf.drop 3)).mp (by simpa [overwrite] using h2)
      simp [h3]
  · intro h
    subst h
    simp [overwrite, strncmp]

theorem rsa_evp_pkey_encrypt_decrypt_providers (o : Oracle) (pKey : Option Handle) (w : World) :
    (∀ ctx2 out outlen inbuf inbytes inlen r,
        Event.lib (Call.EVP_PKEY_decrypt ctx2 out outlen inbuf inbytes inlen) r ∈
          new_events w (rsa_evp_pkey_encrypt_decrypt o pKey w).2 →
        (∃ r0, Event.lib (Call.EVP_PKEY_CTX_new_from_pkey pKey "provider=tpm2") r0 ∈
            new_events w (rsa_evp_pkey_encrypt_decrypt o pKey w).2 ∧ r0.obj = some ctx2) ∧
        (∀ k r1, Event.lib (Call.EVP_PKEY_CTX_new_from_pkey k "provider=default") r1 ∈
            new_events w (rsa_evp_pkey_encrypt_decrypt o pKey w).2 → r1.obj ≠ some ctx2)) ∧
    (∀ ctx out outlen inbytes inlen r,
        Event.lib (Call.EVP_PKEY_encrypt ctx out outlen inbytes inlen) r ∈
          new_events w (rsa_evp_pkey_encrypt_decrypt o pKey w).2 →
        (∃ bio pub rw rr rc,
          Event.lib (Call.PEM_write_bio_PUBKEY bio pKey) rw ∈
            new_events w (rsa_evp_pkey_encrypt_decrypt o pKey w).2 ∧ 0 < rw.rc ∧
          Event.lib (Call.PEM_read_bio_PUBKEY bio (some rw.data)) rr ∈
            new_events w (rsa_evp_pkey_encrypt_decrypt o pKey w).2 ∧ rr.obj = some pub ∧
          Event.lib (Call.EVP_PKEY_CTX_new_from_pkey (some pub) "provider=default") rc ∈
            new_events w (rsa_evp_pkey_encrypt_decrypt o pKey w).2 ∧ rc.obj = some ctx) ∧
        (∀ k r1, Event.lib (Call.EVP_PKEY_CTX_new_from_pkey k "provider=tpm2") r1 ∈
            new_events w (rsa_evp_pkey_encrypt_decrypt o pKey w).2 → r1.obj ≠ some ctx)) := by
  have hrun := (rsa_evp_pkey_encrypt_decrypt_spec o pKey w).2.1
  constructor
  · intro ctx2 out outlen inbuf inbytes inlen r he
    obtain ⟨hm, ht, hf⟩ := hrun.of_kind is_decrypt 12 release_not_decrypt
      (by simp [ed_steps, is_decrypt]) he rfl
    simp [ed_steps] at hm hf
    have hctx : ctx2 = w.next + 9 := by
      rcases hm with h | h <;> exact h.1.1
    subst hctx
    constructor
    · exact ⟨mkOutcome (o (w.next + 9)) (w.next + 9), mem_of_take_eq ht (by simp [ed_steps]),
        by simp [hf]⟩
    · intro k r1 h1
      rcases hrun.mem_cases h1 with h2 | h2
      · simp [ed_steps] at h2
        rw [h2.2]
        simp
      · simp [is_release] at h2
  · intro ctx out outlen inbytes inlen r he
    obtain ⟨hm, ht, hf⟩ := hrun.of_kind is_encrypt 6 release_not_encrypt
      (by simp [ed_steps, is_encrypt]) he rfl
    simp [ed_steps] at hm hf
    have hctx : ctx = w.next + 3 := by
      rcases hm with h | h <;> exact h.1.1
    subst hctx
    constructor
    · refine ⟨w.next, w.next + 2, mkOutcome (o (w.next + 1)) (w.next + 1),
        mkOutcome (o (w.next + 2)) (w.next + 2), mkOutcome (o (w.next + 3)) (w.next + 3),
        mem_of_take_eq ht (by simp [ed_steps]), ?_,
        mem_of_take_eq ht (by simp [ed_steps]), ?_,
        mem_of_take_eq ht (by simp [ed_steps]), ?_⟩
      · simp [hf]
      · simp [hf]
      · simp [hf]
    · intro k r1 h1
      rcases hrun.mem_cases h1 with h2 | h2
      · simp [ed_steps] at h2
        rw [h2.2]
        simp
      · simp [is_release] at h2

theorem rsa_evp_pkey_encrypt_decrypt_result (o : Oracle) (pKey : Option Handle) (w : World) :
    ((rsa_evp_pkey_encrypt_decrypt o pKey w).1 = 0 ∨
      (rsa_evp_pkey_encrypt_decrypt o pKey w).1 = -1) ∧
    ((rsa_evp_pkey_encrypt_decrypt o pKey w).1 = 0 ↔
      ((new_events w (rsa_evp_pkey_encrypt_decrypt o pKey w).2).take 15 =
          (ed_steps o pKey w.next).map Prod.fst ∧
        (∀ b ∈ ((ed_steps o pKey w.next).map Prod.snd).take 14, b = true) ∧
        0 < (o (w.next + 14)).rc ∧ (o (w.next + 14)).data = [1, 2, 3])) := by
  have hspec := rsa_evp_pkey_encrypt_decrypt_spec o pKey w
  have hiff := hspec.ret_iff
  have hlen : (ed_steps o pKey w.next).length = 15 := rfl
  rw [hlen] at hiff
  refine ⟨hspec.ret_cases, ?_⟩
  rw [hiff]
  have hlast := compare_accepts_iff
    (memset (malloc_bytes (o (w.next + 12)).len (o (w.next + 13)).data) 0 (o (w.next + 12)).len)
    (o (w.next + 14)).data
  constructor
  · rintro ⟨ht, hall⟩
    refine ⟨ht, ?_, ?_⟩
    · intro b hb
      exact hall b (List.mem_of_mem_take hb)
    · simp only [ed_steps, ed_deciphered, List.map, List.mem_cons, forall_eq_or_imp] at hall
      have h14 := hall.2.2.2.2.2.2.2.2.2.2.2.2.2.2.1
      simp only [decide_eq_true_eq] at h14
      exact ⟨h14.1, hlast.mp h14.2⟩
  · rintro ⟨ht, hall, hrc, hdata⟩
    refine ⟨ht, ?_⟩
    simp only [ed_steps, ed_deciphered, List.map, List.take, List.mem_cons,
      forall_eq_or_imp] at hall ⊢
    have hcmp := hlast.mpr hdata
    simp only [decide_eq_true_eq]
    simp only [decide_eq_true_eq] at hall
    refine ⟨hall.1, hall.2.1, hall.2.2.1, hall.2.2.2.1, hall.2.2.2.2.1, hall.2.2.2.2.2.1,
      hall.2.2.2.2.2.2.1, hall.2.2.2.2.2.2.2.1, hall.2.2.2.2.2.2.2.2.1,
      hall.2.2.2.2.2.2.2.2.2.1, hall.2.2.2.2.2.2.2.2.2.2.1, hall.2.2.2.2.2.2.2.2.2.2.2.1,
      hall.2.2.2.2.2.2.2.2.2.2.2.2.1, hall.2.2.2.2.2.2.2.2.2.2.2.2.2.1, ⟨hrc, hcmp⟩, ?_⟩
    simp

theorem release_not_step (e : Event) (h : is_release e = true) : is_step_event e = false := by
  rcases e with ⟨c, r⟩ | f | ⟨f, v⟩ | ⟨f, p⟩
  · cases c <;> simp_all [is_release, is_step_event]
  all_goals simp [is_release] at h

theorem step_of_quiet (e : Event) (h : is_step_event e = false) : step_of e = none := by
  rcases e with ⟨c, r⟩ | f | ⟨f, v⟩ | ⟨f, p⟩
  · cases c <;> simp_all [step_of, is_step_event]
  · simp [step_of]
  · simp [is_step_event] at h
  · simp [is_step_event] at h

theorem started_of_quiet (e : Event) (h : is_step_event e = false) : started_of e = none := by
  rcases e with ⟨c, r⟩ | f | ⟨f, v⟩ | ⟨f, p⟩
  · cases c <;> simp_all [started_of, is_step_event]
  · simp [is_step_event] at h
  · simp [started_of]
  · simp [started_of]

theorem step_log_quiet (evs : List Event) (h : ∀ e ∈ evs, is_step_event e = false) :
    step_log evs = [] := by
  simp only [step_log, List.filterMap_eq_nil_iff]
  intro e he
  exact step_of_quiet e (h e he)

theorem started_quiet (evs : List Event) (h : ∀ e ∈ evs, is_step_event e = false) :
    started evs = [] := by
  simp only [started, List.filterMap_eq_nil_iff]
  intro e he
  exact started_of_quiet e (h e he)

theorem step_log_append (a b : List Event) : step_log (a ++ b) = step_log a ++ step_log b := by
  simp [step_log]

theorem started_append (a b : List Event) : started (a ++ b) = started a ++ started b := by
  simp [started]

theorem enter_not_mem_quiet (evs : List Event) (h : ∀ e ∈ evs, is_step_event e = false)
    (f : Fn) : Event.enter f ∉ evs := by
  intro hm
  have := h _ hm
  simp [is_step_event] at this

theorem RunsScript.quiet {steps : List (Event × Bool)} {evs : List Event}
    (h : RunsScript steps evs) (ht : ∀ e ∈ steps.map Prod.fst, is_step_event e = false) :
    ∀ e ∈ evs, is_step_event e = false := by
  intro e he
  rcases h.mem_cases he with h1 | h1
  · exact ht e h1
  · exact release_not_step e h1

theorem gen_random_sub (o : Oracle) (w : World) : SubRun w (gen_random o w).2 := by
  rw [gen_random_run]
  exact ⟨_, rfl, by simp [is_step_event]⟩

theorem gen_rsaKey_sub (o : Oracle) (w : World) : SubRun w (gen_rsaKey o w).2 := by
  obtain ⟨ht, hrun, _⟩ := gen_rsaKey_spec o w
  exact ⟨_, ht, hrun.quiet (by simp [gen_steps, is_step_event])⟩

theorem gen_ecKey_sub (sizeof_ptr : Nat) (o : Oracle) (w : World) :
    SubRun w (gen_ecKey sizeof_ptr o w).2 := by
  obtain ⟨ht, hrun, _⟩ := gen_ecKey_spec sizeof_ptr o w
  exact ⟨_, ht, hrun.quiet (by simp [gen_steps, is_step_event])⟩

theorem load_rsa_key_sub (o : Oracle) (w : World) : SubRun w (load_rsa_key o w).2 := by
  obtain ⟨ht, hrun, _⟩ := load_rsa_key_spec o w
  exact ⟨_, ht, hrun.quiet (by simp [load_steps, is_step_event])⟩

theorem load_ec_key_sub (o : Oracle) (w : World) : SubRun w (load_ec_key o w).2 := by
  obtain ⟨ht, hrun, _⟩ := load_ec_key_spec o w
  exact ⟨_, ht, hrun.quiet (by simp [load_steps, is_step_event])⟩

theorem rsa_evp_pkey_sign_verify_sub (o : Oracle) (pKey : Option Handle) (w : World) :
    SubRun w (rsa_evp_pkey_sign_verify o pKey w).2 := by
  obtain ⟨ht, hrun, _⟩ := rsa_evp_pkey_sign_verify_spec o pKey w
  exact ⟨_, ht, hrun.quiet (by simp [rsa_sv_steps, is_step_event])⟩

theorem ec_evp_pkey_sign_verify_sub (o : Oracle) (pKey : Option Handle) (w : World) :
    SubRun w (ec_evp_pkey_sign_verify o pKey w).2 := by
  obtain ⟨ht, hrun, _⟩ := ec_evp_pkey_sign_verify_spec o pKey w
  exact ⟨_, ht, hrun.quiet (by simp [ec_sv_steps, is_step_event])⟩

theorem rsa_evp_pkey_encrypt_decrypt_sub (o : Oracle) (pKey : Option Handle) (w : World) :
    SubRun w (rsa_evp_pkey_encrypt_decrypt o pKey w).2 := by
  obtain ⟨ht, hrun, _⟩ := rsa_evp_pkey_encrypt_decrypt_spec o pKey w
  exact ⟨_, ht, hrun.quiet (by simp [ed_steps, is_step_event])⟩

theorem invoke_inv {f : Fn} {body : World → Int × World} {w w' : World} {v : Int}
    (hb : ∀ w0, SubRun w0 (body w0).2) (h : invoke f body w = (v, w')) :
    ∃ evs, w'.trace = w.trace ++ call_events f evs (Event.ret_int f v) ∧
      ∀ e ∈ evs, is_step_event e = false := by
  obtain ⟨evs, ht, hq⟩ := hb (w.emit (Event.enter f))
  simp only [invoke, Prod.mk.injEq] at h
  obtain ⟨hv, hw⟩ := h
  refine ⟨evs, ?_, hq⟩
  rw [← hw, ← hv]
  show (body (w.emit (Event.enter f))).2.trace ++ [_] = _
  rw [ht]
  simp [World.emit, call_events]

theorem invoke_ptr_inv {f : Fn} {body : World → Option Handle × World} {w w' : World}
    {p : Option Handle}
    (hb : ∀ w0, SubRun w0 (body w0).2) (h : invoke_ptr f body w = (p, w')) :
    ∃ evs, w'.trace = w.trace ++ call_events f evs (Event.ret_ptr f p) ∧
      ∀ e ∈ evs, is_step_event e = false := by
  obtain ⟨evs, ht, hq⟩ := hb (w.emit (Event.enter f))
  simp only [invoke_ptr, Prod.mk.injEq] at h
  obtain ⟨hv, hw⟩ := h
  refine ⟨evs, ?_, hq⟩
  rw [← hw, ← hv]
  show (body (w.emit (Event.enter f))).2.trace ++ [_] = _
  rw [ht]
  simp [World.emit, call_events]

theorem libcall_inv {o : Oracle} {c : Call} {w w' : World} {r : Outcome}
    (h : libcall o c w = (r, w')) :
    r = mkOutcome (o w.next) w.next ∧ w'.next = w.next + 1 ∧
      w'.trace = w.trace ++ [Event.lib c r] := by
  simp only [libcall, Prod.mk.injEq] at h
  obtain ⟨hr, hw⟩ := h
  subst hw
  subst hr
  exact ⟨rfl, rfl, rfl⟩

theorem main_exit_inv (o : Oracle) (l : MainLocals) (w : World) :
    (main_exit o l w).1 = l.ret ∧
      ∃ rel, (main_exit o l w).2.trace = w.trace ++ rel ∧
        ∀ e ∈ rel, is_release e = true := by
  refine ⟨rfl, ?_⟩
  rcases l with ⟨ret, pd, pt, pr, pe⟩
  cases pd <;> cases pt <;> cases pr <;> cases pe <;>
    simp [main_exit, libcall, is_release]

theorem step_log_provider (o : Oracle) (n : Nat) :
    step_log (provider_events o n) =
      [ (Step.load "tpm2", (o n).ptr), (Step.self_test n, decide ((o (n + 1)).rc ≠ 0)),
        (Step.load "default", (o (n + 2)).ptr),
        (Step.self_test (n + 2), decide ((o (n + 3)).rc ≠ 0)) ] := by
  simp only [step_log, provider_events, List.filterMap, step_of, mkOutcome_obj, mkOutcome_rc]
  cases (o n).ptr <;> cases (o (n + 2)).ptr <;> simp

theorem started_provider (o : Oracle) (n : Nat) :
    started (provider_events o n) =
      [Step.load "tpm2", Step.self_test n, Step.load "default", Step.self_test (n + 2)] := by
  simp [started, provider_events, started_of]

theorem step_log_call_int (f : Fn) (v : Int) (evs : List Event)
    (h : ∀ e ∈ evs, is_step_event e = false) :
    step_log (call_events f evs (Event.ret_int f v)) = [(Step.call f, decide (v = 0))] := by
  have h1 := step_log_quiet evs h
  simp only [step_log] at h1
  simp [call_events, step_log, step_of, List.filterMap_append, h1]

theorem step_log_call_ptr (f : Fn) (p : Option Handle) (evs : List Event)
    (h : ∀ e ∈ evs, is_step_event e = false) :
    step_log (call_events f evs (Event.ret_ptr f p)) = [(Step.call f, p.isSome)] := by
  have h1 := step_log_quiet evs h
  simp only [step_log] at h1
  simp [call_events, step_log, step_of, List.filterMap_append, h1]

theorem started_call_int (f : Fn) (v : Int) (evs : List Event)
    (h : ∀ e ∈ evs, is_step_event e = false) :
    started (call_events f evs (Event.ret_int f v)) = [Step.call f] := by
  have h1 := started_quiet evs h
  simp only [started] at h1
  simp [call_events, started, started_of, List.filterMap_append, h1]

theorem started_call_ptr (f : Fn) (p : Option Handle) (evs : List Event)
    (h : ∀ e ∈ evs, is_step_event e = false) :
    started (call_events f evs (Event.ret_ptr f p)) = [Step.call f] := by
  have h1 := started_quiet evs h
  simp only [started] at h1
  simp [call_events, started, started_of, List.filterMap_append, h1]

theorem take_provider_events (o : Oracle) (n : Nat) (rest : List Event) :
    (provider_events o n ++ rest).take 4 = provider_events o n := by
  simp [provider_events]

set_option maxHeartbeats 4000000 in
theorem main_body_spec (sizeof_ptr : Nat) (o : Oracle) (w : World) :
    (main_body sizeof_ptr o w).2.trace =
        w.trace ++ new_events w (main_body sizeof_ptr o w).2 ∧
      MainSpec o w.next (new_events w (main_body sizeof_ptr o w).2)
        (main_body sizeof_ptr o w).1.ret := by
  unfold main_body
  split
  rename_i r0 w1 h0
  obtain ⟨hr0, hn1, ht1⟩ := libcall_inv h0
  split
  · rename_i hp0
    rw [hr0] at hp0
    simp at hp0
    simp only [new_events, ht1, List.drop_left, true_and]
    refine ⟨0, by omega, ?_, ?_, ?_, ?_⟩
    · simp [step_log, step_of, log_upto, main_order, hr0, hp0]
    · simp [started, started_of, step_log, step_of]
    · simp
    · simp
  rename_i prov_tpm2 hp0
  rw [hr0] at hp0
  simp at hp0
  obtain ⟨hq0, hprov0⟩ := hp0
  subst hprov0
  split
  rename_i r1 w2 h1
  obtain ⟨hr1, hn2, ht2⟩ := libcall_inv h1
  rw [hn1] at hr1 hn2
  rw [ht1] at ht2
  split
  · rename_i hp1
    rw [hr1] at hp1
    simp at hp1
    simp only [new_events, ht2, List.append_assoc, List.drop_left, true_and]
    refine ⟨1, by omega, ?_, ?_, ?_, ?_⟩
    · simp [step_log, step_of, log_upto, main_order, hr0, hr1, hq0, hp1]
    · simp [started, started_of, step_log, step_of]
    · simp
    · simp
  rename_i hp1
  rw [hr1] at hp1
  simp at hp1
  split
  rename_i r2 w3 h2
  obtain ⟨hr2, hn3, ht3⟩ := libcall_inv h2
  rw [hn2] at hr2 hn3
  rw [ht2] at ht3
  split
  · rename_i hp2
    rw [hr2] at hp2
    simp at hp2
    simp only [new_events, ht3, List.append_assoc, List.drop_left, true_and]
    refine ⟨2, by omega, ?_, ?_, ?_, ?_⟩
    · simp [step_log, step_of, log_upto, main_order, hr0, hr1, hr2, hq0, hp1, hp2]
    · simp [started, started_of, step_log, step_of]
    · simp
    · simp
  rename_i prov_default hp2
  rw [hr2] at hp2
  simp at hp2
  obtain ⟨hq2, hprov2⟩ := hp2
  simp only [Nat.add_assoc, Nat.reduceAdd] at hprov2 hr2 hn3 hq2
  subst hprov2
  split
  rename_i r3 w4 h3
  obtain ⟨hr3, hn4, ht4⟩ := libcall_inv h3
  rw [hn3] at hr3 hn4
  rw [ht3] at ht4
  simp only [Nat.add_assoc, Nat.reduceAdd] at hr3 hn4
  split
  · rename_i hp3
    rw [hr3] at hp3
    simp at hp3
    simp only [new_events, ht4, List.append_assoc, List.drop_left, true_and]
    refine ⟨3, by omega, ?_, ?_, ?_, ?_⟩
    · simp [step_log, step_of, log_upto, main_order, hr0, hr1, hr2, hr3, hq0, hp1, hq2, hp3]
    · simp [started, started_of, step_log, step_of]
    · simp
    · simp
  rename_i hp3
  rw [hr3] at hp3
  simp at hp3
  have hE4 : w4.trace = w.trace ++ provider_events o w.next := by
    rw [ht4, hr0, hr1, hr2, hr3]
    simp [provider_events]
  split
  rename_i v4 w5 h4
  obtain ⟨evs4, ht5, hquiet4⟩ := invoke_inv (fun w0 => gen_random_sub o w0) h4
  have hE5 : w5.trace = w.trace ++ (provider_events o w.next ++ (call_events Fn.gen_random evs4 (Event.ret_int Fn.gen_random v4))) := by
    rw [ht5, hE4]
    simp only [List.append_assoc]
  split
  · rename_i hfail4
    simp only [new_events, hE5, List.drop_left, true_and]
    refine ⟨4, by omega, ?_, ?_, ?_, ?_⟩
    · simp [step_log_append, started_append, step_log_provider, started_provider,
        step_log_call_int _ _ _ hquiet4, started_call_int _ _ _ hquiet4, hq0, hp1, hq2, hp3,
        hfail4, log_upto, main_order]
    · simp [step_log_append, started_append, step_log_provider, started_provider,
        step_log_call_int _ _ _ hquiet4, started_call_int _ _ _ hquiet4, hq0, hp1, hq2, hp3,
        hfail4, log_upto, main_order]
    · simp
    · intro _
      exact ⟨take_provider_events _ _ _, hq0, hp1, hq2, hp3⟩
  rename_i hok4
  have hv4 : v4 = 0 := by simpa using hok4
  split
  rename_i v5 w6 h5
  obtain ⟨evs5, ht6, hquiet5⟩ := invoke_inv (fun w0 => gen_rsaKey_sub o w0) h5
  have hE6 : w6.trace = w.trace ++ (provider_events o w.next ++ (call_events Fn.gen_random evs4 (Event.ret_int Fn.gen_random v4) ++ (call_events Fn.gen_rsaKey evs5 (Event.ret_int Fn.gen_rsaKey v5)))) := by
    rw [ht6, hE5]
    simp only [List.append_assoc]
  split
  · rename_i hfail5
    simp only [new_events, hE6, List.drop_left, true_and]
    refine ⟨5, by omega, ?_, ?_, ?_, ?_⟩
    · simp [step_log_append, started_append, step_log_provider, started_provider,
        step_log_call_int _ _ _ hquiet4, started_call_int _ _ _ hquiet4,
        step_log_call_int _ _ _ hquiet5, started_call_int _ _ _ hquiet5, hq0, hp1, hq2, hp3, hv4,
        hfail5, log_upto, main_order]
    · simp [step_log_append, started_append, step_log_provider, started_provider,
        step_log_call_int _ _ _ hquiet4, started_call_int _ _ _ hquiet4,
        step_log_call_int _ _ _ hquiet5, started_call_int _ _ _ hquiet5, hq0, hp1, hq2, hp3, hv4,
        hfail5, log_upto, main_order]
    · simp
    · intro _
      exact ⟨take_provider_events _ _ _, hq0, hp1, hq2, hp3⟩
  rename_i hok5
  have hv5 : v5 = 0 := by simpa using hok5
  split
  rename_i v6 w7 h6
  obtain ⟨evs6, ht7, hquiet6⟩ := invoke_inv (fun w0 => gen_ecKey_sub sizeof_ptr o w0) h6
  have hE7 : w7.trace = w.trace ++ (provider_events o w.next ++ (call_events Fn.gen_random evs4 (Event.ret_int Fn.gen_random v4) ++ (call_events Fn.gen_rsaKey evs5 (Event.ret_int Fn.gen_rsaKey v5) ++ (call_events Fn.gen_ecKey evs6 (Event.ret_int Fn.gen_ecKey v6))))) := by
    rw [ht7, hE6]
    simp only [List.append_assoc]
  split
  · rename_i hfail6
    simp only [new_events, hE7, List.drop_left, true_and]
    refine ⟨6, by omega, ?_, ?_, ?_, ?_⟩
    · simp [step_log_append, started_append, step_log_provider, started_provider,
        step_log_call_int _ _ _ hquiet4, started_call_int _ _ _ hquiet4,
        step_log_call_int _ _ _ hquiet5, started_call_int _ _ _ hquiet5,
        step_log_call_int _ _ _ hquiet6, started_call_int _ _ _ hquiet6, hq0, hp1, hq2, hp3, hv4,
        hv5, hfail6, log_upto, main_order]
    · simp [step_log_append, started_append, step_log_provider, started_provider,
        step_log_call_int _ _ _ hquiet4, started_call_int _ _ _ hquiet4,
        step_log_call_int _ _ _ hquiet5, started_call_int _ _ _ hquiet5,
        step_log_call_int _ _ _ hquiet6, started_call_int _ _ _ hquiet6, hq0, hp1, hq2, hp3, hv4,
        hv5, hfail6, log_upto, main_order]
    · simp
    · intro _
      exact ⟨take_provider_events _ _ _, hq0, hp1, hq2, hp3⟩
  rename_i hok6
  have hv6 : v6 = 0 := by simpa using hok6
  split
  rename_i p7 w8 h7
  obtain ⟨evs7, ht8, hquiet7⟩ := invoke_ptr_inv (fun w0 => load_rsa_key_sub o w0) h7
  have hE8 : w8.trace = w.trace ++ (provider_events o w.next ++ (call_events Fn.gen_random evs4 (Event.ret_int Fn.gen_random v4) ++ (call_events Fn.gen_rsaKey evs5 (Event.ret_int Fn.gen_rsaKey v5) ++ (call_events Fn.gen_ecKey evs6 (Event.ret_int Fn.gen_ecKey v6) ++ (call_events Fn.load_rsa_key evs7 (Event.ret_ptr Fn.load_rsa_key p7)))))) := by
    rw [ht8, hE7]
    simp only [List.append_assoc]
  split
  · simp only [new_events, hE8, List.drop_left, true_and]
    refine ⟨7, by omega, ?_, ?_, ?_, ?_⟩
    · simp [step_log_append, started_append, step_log_provider, started_provider,
        step_log_call_int _ _ _ hquiet4, started_call_int _ _ _ hquiet4,
        step_log_call_int _ _ _ hquiet5, started_call_int _ _ _ hquiet5,
        step_log_call_int _ _ _ hquiet6, started_call_int _ _ _ hquiet6,
        step_log_call_ptr _ _ _ hquiet7, started_call_ptr _ _ _ hquiet7, hq0, hp1, hq2, hp3, hv4,
        hv5, hv6, log_upto, main_order]
    · simp [step_log_append, started_append, step_log_provider, started_provider,
        step_log_call_int _ _ _ hquiet4, started_call_int _ _ _ hquiet4,
        step_log_call_int _ _ _ hquiet5, started_call_int _ _ _ hquiet5,
        step_log_call_int _ _ _ hquiet6, started_call_int _ _ _ hquiet6,
        step_log_call_ptr _ _ _ hquiet7, started_call_ptr _ _ _ hquiet7, hq0, hp1, hq2, hp3, hv4,
        hv5, hv6, log_upto, main_order]
    · simp
    · intro _
      exact ⟨take_provider_events _ _ _, hq0, hp1, hq2, hp3⟩
  rename_i key7
  split
  rename_i p8 w9 h8
  obtain ⟨evs8, ht9, hquiet8⟩ := invoke_ptr_inv (fun w0 => load_ec_key_sub o w0) h8
  have hE9 : w9.trace = w.trace ++ (provider_events o w.next ++ (call_events Fn.gen_random evs4 (Event.ret_int Fn.gen_random v4) ++ (call_events Fn.gen_rsaKey evs5 (Event.ret_int Fn.gen_rsaKey v5) ++ (call_events Fn.gen_ecKey evs6 (Event.ret_int Fn.gen_ecKey v6) ++ (call_events Fn.load_rsa_key evs7 (Event.ret_ptr Fn.load_rsa_key (some key7)) ++ (call_events Fn.load_ec_key evs8 (Event.ret_ptr Fn.load_ec_key p8))))))) := by
    rw [ht9, hE8]
    simp only [List.append_assoc]
  split
  · simp only [new_events, hE9, List.drop_left, true_and]
    refine ⟨8, by omega, ?_, ?_, ?_, ?_⟩
    · simp [step_log_append, started_append, step_log_provider, started_provider,
        step_log_call_int _ _ _ hquiet4, started_call_int _ _ _ hquiet4,
        step_log_call_int _ _ _ hquiet5, started_call_int _ _ _ hquiet5,
        step_log_call_int _ _ _ hquiet6, started_call_int _ _ _ hquiet6,
        step_log_call_ptr _ _ _ hquiet7, started_call_ptr _ _ _ hquiet7,
        step_log_call_ptr _ _ _ hquiet8, started_call_ptr _ _ _ hquiet8, hq0, hp1, hq2, hp3, hv4,
        hv5, hv6, log_upto, main_order]
    · simp [step_log_append, started_append, step_log_provider, started_provider,
        step_log_call_int _ _ _ hquiet4, started_call_int _ _ _ hquiet4,
        step_log_call_int _ _ _ hquiet5, started_call_int _ _ _ hquiet5,
        step_log_call_int _ _ _ hquiet6, started_call_int _ _ _ hquiet6,
        step_log_call_ptr _ _ _ hquiet7, started_call_ptr _ _ _ hquiet7,
        step_log_call_ptr _ _ _ hquiet8, started_call_ptr _ _ _ hquiet8, hq0, hp1, hq2, hp3, hv4,
        hv5, hv6, log_upto, main_order]
    · simp
    · intro _
      exact ⟨take_provider_events _ _ _, hq0, hp1, hq2, hp3⟩
  rename_i key8
  conv => zeta
  split
  rename_i v9 w10 h9
  obtain ⟨evs9, ht10, hquiet9⟩ := invoke_inv (fun w0 => rsa_evp_pkey_sign_verify_sub o _ w0) h9
  have hE10 : w10.trace = w.trace ++ (provider_events o w.next ++ (call_events Fn.gen_random evs4 (Event.ret_int Fn.gen_random v4) ++ (call_events Fn.gen_rsaKey evs5 (Event.ret_int Fn.gen_rsaKey v5) ++ (call_events Fn.gen_ecKey evs6 (Event.ret_int Fn.gen_ecKey v6) ++ (call_events Fn.load_rsa_key evs7 (Event.ret_ptr Fn.load_rsa_key (some key7)) ++ (call_events Fn.load_ec_key evs8 (Event.ret_ptr Fn.load_ec_key (some key8)) ++ (call_events Fn.rsa_evp_pkey_sign_verify evs9 (Event.ret_int Fn.rsa_evp_pkey_sign_verify v9)))))))) := by
    rw [ht10, hE9]
    simp only [List.append_assoc]
  split
  · rename_i hfail9
    simp only [new_events, hE10, List.drop_left, true_and]
    refine ⟨9, by omega, ?_, ?_, ?_, ?_⟩
    · simp [step_log_append, started_append, step_log_provider, started_provider,
        step_log_call_int _ _ _ hquiet4, started_call_int _ _ _ hquiet4,
        step_log_call_int _ _ _ hquiet5, started_call_int _ _ _ hquiet5,
        step_log_call_int _ _ _ hquiet6, started_call_int _ _ _ hquiet6,
        step_log_call_ptr _ _ _ hquiet7, started_call_ptr _ _ _ hquiet7,
        step_log_call_ptr _ _ _ hquiet8, started_call_ptr _ _ _ hquiet8,
        step_log_call_int _ _ _ hquiet9, started_call_int _ _ _ hquiet9, hq0, hp1, hq2, hp3, hv4,
        hv5, hv6, hfail9, log_upto, main_order]
    · simp [step_log_append, started_append, step_log_provider, started_provider,
        step_log_call_int _ _ _ hquiet4, started_call_int _ _ _ hquiet4,
        step_log_call_int _ _ _ hquiet5, started_call_int _ _ _ hquiet5,
        step_log_call_int _ _ _ hquiet6, started_call_int _ _ _ hquiet6,
        step_log_call_ptr _ _ _ hquiet7, started_call_ptr _ _ _ hquiet7,
        step_log_call_ptr _ _ _ hquiet8, started_call_ptr _ _ _ hquiet8,
        step_log_call_int _ _ _ hquiet9, started_call_int _ _ _ hquiet9, hq0, hp1, hq2, hp3, hv4,
        hv5, hv6, hfail9, log_upto, main_order]
    · simp
    · intro _
      exact ⟨take_provider_events _ _ _, hq0, hp1, hq2, hp3⟩
  rename_i hok9
  have hv9 : v9 = 0 := by simpa using hok9
  split
  rename_i v10 w11 h10
  obtain ⟨evs10, ht11, hquiet10⟩ := invoke_inv (fun w0 => ec_evp_pkey_sign_verify_sub o _ w0) h10
  have hE11 : w11.trace = w.trace ++ (provider_events o w.next ++ (call_events Fn.gen_random evs4 (Event.ret_int Fn.gen_random v4) ++ (call_events Fn.gen_rsaKey evs5 (Event.ret_int Fn.gen_rsaKey v5) ++ (call_events Fn.gen_ecKey evs6 (Event.ret_int Fn.gen_ecKey v6) ++ (call_events Fn.load_rsa_key evs7 (Event.ret_ptr Fn.load_rsa_key (some key7)) ++ (call_events Fn.load_ec_key evs8 (Event.ret_ptr Fn.load_ec_key (some key8)) ++ (call_events Fn.rsa_evp_pkey_sign_verify evs9 (Event.ret_int Fn.rsa_evp_pkey_sign_verify v9) ++ (call_events Fn.ec_evp_pkey_sign_verify evs10 (Event.ret_int Fn.ec_evp_pkey_sign_verify v10))))))))) := by
    rw [ht11, hE10]
    simp only [List.append_assoc]
  split
  · rename_i hfail10
    simp only [new_events, hE11, List.drop_left, true_and]
    refine ⟨10, by omega, ?_, ?_, ?_, ?_⟩
    · simp [step_log_append, started_append, step_log_provider, started_provider,
        step_log_call_int _ _ _ hquiet4, started_call_int _ _ _ hquiet4,
        step_log_call_int _ _ _ hquiet5, started_call_int _ _ _ hquiet5,
        step_log_call_int _ _ _ hquiet6, started_call_int _ _ _ hquiet6,
        step_log_call_ptr _ _ _ hquiet7, started_call_ptr _ _ _ hquiet7,
        step_log_call_ptr _ _ _ hquiet8, started_call_ptr _ _ _ hquiet8,
        step_log_call_int _ _ _ hquiet9, started_call_int _ _ _ hquiet9,
        step_log_call_int _ _ _ hquiet10, started_call_int _ _ _ hquiet10, hq0, hp1, hq2, hp3,
        hv4, hv5, hv6, hv9, hfail10, log_upto, main_order]
    · simp [step_log_append, started_append, step_log_provider, started_provider,
        step_log_call_int _ _ _ hquiet4, started_call_int _ _ _ hquiet4,
        step_log_call_int _ _ _ hquiet5, started_call_int _ _ _ hquiet5,
        step_log_call_int _ _ _ hquiet6, started_call_int _ _ _ hquiet6,
        step_log_call_ptr _ _ _ hquiet7, started_call_ptr _ _ _ hquiet7,
        step_log_call_ptr _ _ _ hquiet8, started_call_ptr _ _ _ hquiet8,
        step_log_call_int _ _ _ hquiet9, started_call_int _ _ _ hquiet9,
        step_log_call_int _ _ _ hquiet10, started_call_int _ _ _ hquiet10, hq0, hp1, hq2, hp3,
        hv4, hv5, hv6, hv9, hfail10, log_upto, main_order]
    · simp
    · intro _
      exact ⟨take_provider_events _ _ _, hq0, hp1, hq2, hp3⟩
  rename_i hok10
  have hv10 : v10 = 0 := by simpa using hok10
  split
  rename_i v11 w12 h11
  obtain ⟨evs11, ht12, hquiet11⟩ := invoke_inv (fun w0 => rsa_evp_pkey_encrypt_decrypt_sub o _ w0) h11
  have hE12 : w12.trace = w.trace ++ (provider_events o w.next ++ (call_events Fn.gen_random evs4 (Event.ret_int Fn.gen_random v4) ++ (call_events Fn.gen_rsaKey evs5 (Event.ret_int Fn.gen_rsaKey v5) ++ (call_events Fn.gen_ecKey evs6 (Event.ret_int Fn.gen_ecKey v6) ++ (call_events Fn.load_rsa_key evs7 (Event.ret_ptr Fn.load_rsa_key (some key7)) ++ (call_events Fn.load_ec_key evs8 (Event.ret_ptr Fn.load_ec_key (some key8)) ++ (call_events Fn.rsa_evp_pkey_sign_verify evs9 (Event.ret_int Fn.rsa_evp_pkey_sign_verify v9) ++ (call_events Fn.ec_evp_pkey_sign_verify evs10 (Event.ret_int Fn.ec_evp_pkey_sign_verify v10) ++ (call_events Fn.rsa_evp_pkey_encrypt_decrypt evs11 (Event.ret_int Fn.rsa_evp_pkey_encrypt_decrypt v11)))))))))) := by
    rw [ht12, hE11]
    simp only [List.append_assoc]
  split
  · rename_i hfail11
    simp only [new_events, hE12, List.drop_left, true_and]
    refine ⟨11, by omega, ?_, ?_, ?_, ?_⟩
    · simp [step_log_append, started_append, step_log_provider, started_provider,
        step_log_call_int _ _ _ hquiet4, started_call_int _ _ _ hquiet4,
        step_log_call_int _ _ _ hquiet5, started_call_int _ _ _ hquiet5,
        step_log_call_int _ _ _ hquiet6, started_call_int _ _ _ hquiet6,
        step_log_call_ptr _ _ _ hquiet7, started_call_ptr _ _ _ hquiet7,
        step_log_call_ptr _ _ _ hquiet8, started_call_ptr _ _ _ hquiet8,
        step_log_call_int _ _ _ hquiet9, started_call_int _ _ _ hquiet9,
        step_log_call_int _ _ _ hquiet10, started_call_int _ _ _ hquiet10,
        step_log_call_int _ _ _ hquiet11, started_call_int _ _ _ hquiet11, hq0, hp1, hq2, hp3,
        hv4, hv5, hv6, hv9, hv10, hfail11, log_upto, main_order]
    · simp [step_log_append, started_append, step_log_provider, started_provider,
        step_log_call_int _ _ _ hquiet4, started_call_int _ _ _ hquiet4,
        step_log_call_int _ _ _ hquiet5, started_call_int _ _ _ hquiet5,
        step_log_call_int _ _ _ hquiet6, started_call_int _ _ _ hquiet6,
        step_log_call_ptr _ _ _ hquiet7, started_call_ptr _ _ _ hquiet7,
        step_log_call_ptr _ _ _ hquiet8, started_call_ptr _ _ _ hquiet8,
        step_log_call_int _ _ _ hquiet9, started_call_int _ _ _ hquiet9,
        step_log_call_int _ _ _ hquiet10, started_call_int _ _ _ hquiet10,
        step_log_call_int _ _ _ hquiet11, started_call_int _ _ _ hquiet11, hq0, hp1, hq2, hp3,
        hv4, hv5, hv6, hv9, hv10, hfail11, log_upto, main_order]
    · simp
    · intro _
      exact ⟨take_provider_events _ _ _, hq0, hp1, hq2, hp3⟩
  rename_i hok11
  have hv11 : v11 = 0 := by simpa using hok11
  simp only [new_events, hE12, List.drop_left, true_and]
  refine ⟨12, by omega, ?_, ?_, ?_, ?_⟩
  · simp [step_log_append, started_append, step_log_provider, started_provider,
      step_log_call_int _ _ _ hquiet4, started_call_int _ _ _ hquiet4,
      step_log_call_int _ _ _ hquiet5, started_call_int _ _ _ hquiet5,
      step_log_call_int _ _ _ hquiet6, started_call_int _ _ _ hquiet6,
      step_log_call_ptr _ _ _ hquiet7, started_call_ptr _ _ _ hquiet7,
      step_log_call_ptr _ _ _ hquiet8, started_call_ptr _ _ _ hquiet8,
      step_log_call_int _ _ _ hquiet9, started_call_int _ _ _ hquiet9,
      step_log_call_int _ _ _ hquiet10, started_call_int _ _ _ hquiet10,
      step_log_call_int _ _ _ hquiet11, started_call_int _ _ _ hquiet11, hq0, hp1, hq2, hp3, hv4,
      hv5, hv6, hv9, hv10, hv11, log_upto, main_order]
  · simp [step_log_append, started_append, step_log_provider, started_provider,
      step_log_call_int _ _ _ hquiet4, started_call_int _ _ _ hquiet4,
      step_log_call_int _ _ _ hquiet5, started_call_int _ _ _ hquiet5,
      step_log_call_int _ _ _ hquiet6, started_call_int _ _ _ hquiet6,
      step_log_call_ptr _ _ _ hquiet7, started_call_ptr _ _ _ hquiet7,
      step_log_call_ptr _ _ _ hquiet8, started_call_ptr _ _ _ hquiet8,
      step_log_call_int _ _ _ hquiet9, started_call_int _ _ _ hquiet9,
      step_log_call_int _ _ _ hquiet10, started_call_int _ _ _ hquiet10,
      step_log_call_int _ _ _ hquiet11, started_call_int _ _ _ hquiet11, hq0, hp1, hq2, hp3, hv4,
      hv5, hv6, hv9, hv10, hv11, log_upto, main_order]
  · simp
  · intro _
    exact ⟨take_provider_events _ _ _, hq0, hp1, hq2, hp3⟩

theorem MainSpec.append_release {o : Oracle} {n : Nat} {evs rel : List Event} {ret : Int}
    (h : MainSpec o n evs ret) (hrel : ∀ e ∈ rel, is_release e = true) :
    MainSpec o n (evs ++ rel) ret := by
  obtain ⟨k, hk, hlog, hst, hret, hpre⟩ := h
  have hq : ∀ e ∈ rel, is_step_event e = false := fun e he => release_not_step e (hrel e he)
  refine ⟨k, hk, ?_, ?_, hret, ?_⟩
  · rw [step_log_append, step_log_quiet rel hq, List.append_nil, hlog]
  · rw [started_append, started_quiet rel hq, step_log_append, step_log_quiet rel hq,
      List.append_nil, List.append_nil, hst]
  · rintro ⟨f, hf⟩
    have hf2 : Event.enter f ∈ evs := by
      rcases List.mem_append.mp hf with h1 | h1
      · exact h1
      · exact absurd h1 (enter_not_mem_quiet rel hq f)
    obtain ⟨ht, hrest⟩ := hpre ⟨f, hf2⟩
    refine ⟨?_, hrest⟩
    have hlen : 4 ≤ evs.length := by
      have h4 : (evs.take 4).length = 4 := by rw [ht]; rfl
      rw [List.length_take] at h4
      omega
    rw [List.take_append_of_le_length hlen, ht]

theorem main_spec (sizeof_ptr : Nat) (o : Oracle) (w : World) :
    (main sizeof_ptr o w).2.trace = w.trace ++ new_events w (main sizeof_ptr o w).2 ∧
      MainSpec o w.next (new_events w (main sizeof_ptr o w).2) (main sizeof_ptr o w).1 := by
  obtain ⟨hbt, hbs⟩ := main_body_spec sizeof_ptr o w
  obtain ⟨hret, rel, hrt, hrel⟩ :=
    main_exit_inv o (main_body sizeof_ptr o w).1 (main_body sizeof_ptr o w).2
  have hmain : main sizeof_ptr o w =
      main_exit o (main_body sizeof_ptr o w).1 (main_body sizeof_ptr o w).2 := rfl
  have htr : (main sizeof_ptr o w).2.trace =
      w.trace ++ (new_events w (main_body sizeof_ptr o w).2 ++ rel) := by
    rw [hmain, hrt, hbt]
    simp [new_events]
  have hnew : new_events w (main sizeof_ptr o w).2 =
      new_events w (main_body sizeof_ptr o w).2 ++ rel := by
    simp only [new_events] at htr ⊢
    rw [htr, List.drop_left]
  refine ⟨?_, ?_⟩
  · rw [hnew]
    exact htr
  · rw [hnew, hmain, hret]
    exact hbs.append_release hrel

theorem log_upto_false (n k : Nat) (i : Nat) (s : Step)
    (h : (log_upto n k)[i]? = some (s, false)) : (log_upto n k).length = i + 1 := by
  unfold log_upto at h ⊢
  by_cases hi : i < (((main_order n).take k).map (fun s => (s, true))).length
  · rw [List.getElem?_append_left hi] at h
    have hm := List.getElem?_mem h
    rw [List.mem_map] at hm
    obtain ⟨x, _, hx⟩ := hm
    simp at hx
  · have hi2 := Nat.le_of_not_lt hi
    rw [List.getElem?_append_right hi2] at h
    have hlt : i - (((main_order n).take k).map (fun s => (s, true))).length <
        ((((main_order n).drop k).take 1).map (fun s => (s, false))).length := by
      by_contra hge
      rw [List.getElem?_eq_none (Nat.le_of_not_lt hge)] at h
      exact Option.noConfusion h
    have hle : ((((main_order n).drop k).take 1).map (fun s => (s, false))).length ≤ 1 := by
      simp [List.length_take]
    rw [List.length_append]
    omega

theorem log_upto_has_false (n k : Nat) (hk : k < 12) : ∃ s, (s, false) ∈ log_upto n k := by
  interval_cases k <;> simp [log_upto, main_order]

/-- C1: with every library call answered by an oracle, `main` returns 0 exactly
when every step of its list succeeds (the tpm2 provider loads and passes its
self-test, the default provider loads and passes its self-test, and each of the
eight functions reports success), and 1 in every other case.  The log of
completed steps of a run is the first `k` steps of the list, all successful,
followed when `k < 12` by the next step, failed, and `main` returns 0 when
`k = 12` and 1 otherwise; so `main` returns 0 exactly when the log is the whole
list with every step successful, it returns 1 exactly when the log holds a
failed step, and every step that was started is in the log. -/
theorem main_returns_zero_iff_all_steps_succeed (sizeof_ptr : Nat) (o : Oracle) (w : World) :
    (∃ k, k ≤ 12 ∧
      step_log (new_events w (main sizeof_ptr o w).2) = log_upto w.next k ∧
      (main sizeof_ptr o w).1 = (if k = 12 then 0 else 1)) ∧
    ((main sizeof_ptr o w).1 = 0 ∨ (main sizeof_ptr o w).1 = 1) ∧
    ((main sizeof_ptr o w).1 = 0 ↔
      step_log (new_events w (main sizeof_ptr o w).2) =
        (main_order w.next).map (fun s => (s, true))) ∧
    ((main sizeof_ptr o w).1 = 1 ↔
      ∃ s, (s, false) ∈ step_log (new_events w (main sizeof_ptr o w).2)) ∧
    started (new_events w (main sizeof_ptr o w).2) =
      (step_log (new_events w (main sizeof_ptr o w).2)).map Prod.fst := by
  obtain ⟨_, k, hk, hlog, hst, hret, _⟩ := main_spec sizeof_ptr o w
  refine ⟨⟨k, hk, hlog, hret⟩, ?_, ?_, ?_, hst⟩
  · rw [hret]
    split <;> simp
  · rw [hret, hlog]
    constructor
    · intro h0
      have hk12 : k = 12 := by
        by_contra hne
        simp [hne] at h0
      subst hk12
      simp [log_upto, main_order]
    · intro hl
      have hk12 : k = 12 := by
        by_contra hne
        have hlt : k < 12 := by omega
        have hlen := congrArg List.length hl
        have hmem : ∀ x ∈ log_upto w.next k, x.2 = true := by
          rw [hl]
          simp
        interval_cases k <;> simp [log_upto, main_order] at hmem
      simp [hk12]
  · rw [hret, hlog]
    by_cases hk12 : k = 12
    · subst hk12
      simp [log_upto, main_order]
    · have hlt : k < 12 := by omega
      simp only [hk12, if_false, true_iff]
      exact log_upto_has_false w.next k hlt

/-- C6: `main` performs its steps in the fixed order of its source and stops at
the first failure: the log of completed steps is the first `k` steps of the
order succeeding followed, when `k < 12`, by the next step failing; every step
that was started is in the log; a failed step is the last one logged; and when
any function of the program is entered, the run began with the four provider
steps, all successful. -/
theorem main_steps_in_order_stop_at_first_failure (sizeof_ptr : Nat) (o : Oracle) (w : World) :
    (∃ k, k ≤ 12 ∧ step_log (new_events w (main sizeof_ptr o w).2) = log_upto w.next k) ∧
    started (new_events w (main sizeof_ptr o w).2) =
      (step_log (new_events w (main sizeof_ptr o w).2)).map Prod.fst ∧
    (∀ i s, (step_log (new_events w (main sizeof_ptr o w).2))[i]? = some (s, false) →
      (step_log (new_events w (main sizeof_ptr o w).2)).length = i + 1) ∧
    (∀ f, Event.enter f ∈ new_events w (main sizeof_ptr o w).2 →
      (new_events w (main sizeof_ptr o w).2).take 4 = provider_events o w.next ∧
        (o w.next).ptr = true ∧ (o (w.next + 1)).rc ≠ 0 ∧
        (o (w.next + 2)).ptr = true ∧ (o (w.next + 3)).rc ≠ 0) := by
  obtain ⟨_, k, hk, hlog, hst, _, hpre⟩ := main_spec sizeof_ptr o w
  refine ⟨⟨k, hk, hlog⟩, hst, ?_, ?_⟩
  · intro i s h
    rw [hlog] at h ⊢
    exact log_upto_false _ _ _ _ h
  · intro f hf
    exact hpre ⟨f, hf⟩


/-! ## Key files -/

theorem KeyReads.nil : KeyReads [] := by
  intro pre post bio input r h
  simp at h

theorem SvSpec.ret_zero_iff {steps : List (Event × Bool)} {w : World} {res : Int × World}
    (h : SvSpec steps w res) : res.1 = 0 ↔ ∀ b ∈ steps.map Prod.snd, b = true := by
  rw [h.2.2]
  constructor
  · intro h0
    have hp : passed (steps.map Prod.snd) = steps.length := by
      by_contra hne
      simp [hne] at h0
    apply (passed_eq_length_iff _).mp
    simpa using hp
  · intro hall
    have hp := (passed_eq_length_iff _).mpr hall
    simp only [List.length_map] at hp
    simp [hp]

theorem GenSpec.gen_ret_zero_iff {alg : String} {params : List OSSL_PARAM} {path : String}
    {o : Oracle} {w : World} {res : Int × World} (h : GenSpec alg params path o w res) :
    res.1 = 0 ↔
      ((o w.next).ptr = true ∧ 0 < (o (w.next + 1)).rc ∧ 0 < (o (w.next + 2)).rc ∧
        0 < (o (w.next + 3)).rc ∧ (o (w.next + 5)).ptr = true ∧ (o (w.next + 6)).rc ≠ 0) := by
  rw [h.2.2.1]
  have hlen : (gen_steps alg params path o w.next).length = 7 := rfl
  have hiff := passed_eq_length_iff ((gen_steps alg params path o w.next).map Prod.snd)
  simp only [List.length_map, hlen] at hiff
  constructor
  · intro h0
    have hp : passed ((gen_steps alg params path o w.next).map Prod.snd) = 7 := by
      by_contra hne
      simp [hne] at h0
    have hall := hiff.mp hp
    simpa [gen_steps] using hall
  · intro hall
    have hp := hiff.mpr (by simpa [gen_steps] using hall)
    simp [hp]

theorem GenSpec.fs_kept {alg : String} {params : List OSSL_PARAM} {path : String}
    {o : Oracle} {w : World} {res : Int × World} (h : GenSpec alg params path o w res)
    (hfail : ¬ ((o w.next).ptr = true ∧ 0 < (o (w.next + 1)).rc ∧ 0 < (o (w.next + 2)).rc ∧
        0 < (o (w.next + 3)).rc)) :
    res.2.fs = w.fs ∧ ∀ e ∈ new_events w res.2, is_file_event e = false := by
  apply h.props.2.2.2.2.2.2
  intro ctx r he
  by_contra hpos
  have hrun := h.2.1
  obtain ⟨h2, ht, hf⟩ := hrun.of_kind is_generate 3 release_not_generate
    (by simp [gen_steps, is_generate]) he rfl
  simp [gen_steps] at h2 hf
  apply hfail
  refine ⟨hf.1, hf.2.1, hf.2.2, ?_⟩
  have hr : r.rc = (o (w.next + 3)).rc := by
    rw [h2.2]
    rfl
  rw [← hr]
  exact not_le.mp hpos

theorem rsa_evp_pkey_sign_verify_accepts (o : Oracle) (pKey : Option Handle) (w : World) :
    (rsa_evp_pkey_sign_verify o pKey w).1 = 0 ↔
      ((o w.next).ptr = true ∧ 0 < (o (w.next + 1)).rc ∧ 0 < (o (w.next + 2)).rc ∧
        0 < (o (w.next + 3)).rc ∧ 0 < (o (w.next + 4)).rc ∧ 0 < (o (w.next + 5)).rc ∧
        (o (w.next + 6)).ptr = true ∧ 0 < (o (w.next + 7)).rc ∧
        (o (w.next + 8)).ptr = true ∧ 0 < (o (w.next + 9)).rc ∧
        (o (w.next + 10)).ptr = true ∧ (o (w.next + 11)).ptr = true ∧
        0 < (o (w.next + 12)).rc ∧ 0 < (o (w.next + 13)).rc ∧ 0 < (o (w.next + 14)).rc ∧
        0 < (o (w.next + 15)).rc ∧ (o (w.next + 16)).rc = 0) := by
  rw [(rsa_evp_pkey_sign_verify_spec o pKey w).ret_zero_iff]
  simp [rsa_sv_steps]

theorem ec_evp_pkey_sign_verify_accepts (o : Oracle) (pKey : Option Handle) (w : World) :
    (ec_evp_pkey_sign_verify o pKey w).1 = 0 ↔
      ((o w.next).ptr = true ∧ 0 < (o (w.next + 1)).rc ∧ 0 < (o (w.next + 2)).rc ∧
        0 < (o (w.next + 3)).rc ∧ (o (w.next + 4)).ptr = true ∧ 0 < (o (w.next + 5)).rc ∧
        (o (w.next + 6)).ptr = true ∧ 0 < (o (w.next + 7)).rc ∧
        (o (w.next + 8)).ptr = true ∧ (o (w.next + 9)).ptr = true ∧
        0 < (o (w.next + 10)).rc ∧ 0 < (o (w.next + 11)).rc ∧ 0 < (o (w.next + 12)).rc ∧
        (o (w.next + 13)).rc = 0) := by
  rw [(ec_evp_pkey_sign_verify_spec o pKey w).ret_zero_iff]
  simp [ec_sv_steps]

theorem rsa_evp_pkey_encrypt_decrypt_accepts (o : Oracle) (pKey : Option Handle) (w : World) :
    (rsa_evp_pkey_encrypt_decrypt o pKey w).1 = 0 ↔
      ((o w.next).ptr = true ∧ 0 < (o (w.next + 1)).rc ∧ (o (w.next + 2)).ptr = true ∧
        (o (w.next + 3)).ptr = true ∧ 0 < (o (w.next + 4)).rc ∧ 0 < (o (w.next + 5)).rc ∧
        0 < (o (w.next + 6)).rc ∧ (o (w.next + 7)).ptr = true ∧ 0 < (o (w.next + 8)).rc ∧
        (o (w.next + 9)).ptr = true ∧ 0 < (o (w.next + 10)).rc ∧ 0 < (o (w.next + 11)).rc ∧
        0 < (o (w.next + 12)).rc ∧ (o (w.next + 13)).ptr = true ∧
        0 < (o (w.next + 14)).rc ∧ (o (w.next + 14)).data = [1, 2, 3]) := by
  rw [(rsa_evp_pkey_encrypt_decrypt_spec o pKey w).ret_zero_iff]
  have hlast := compare_accepts_iff
    (memset (malloc_bytes (o (w.next + 12)).len (o (w.next + 13)).data) 0 (o (w.next + 12)).len)
    (o (w.next + 14)).data
  simp only [ed_steps, ed_deciphered, List.map, List.mem_cons, forall_eq_or_imp,
    decide_eq_true_eq, List.not_mem_nil, false_implies, implies_true, and_true, hlast]


/-- C7: both keys are generated inside the hardware provider.  `gen_rsaKey`
creates its key-generation context for "RSA" and `gen_ecKey` for "EC", each with
the property query "provider=tpm2"; `gen_rsaKey` passes `bits = 3072`; every
`EVP_PKEY_generate` runs on that context after the parameters were set.  Each
function returns 0 exactly when context creation, keygen init, parameter
setting, key generation, opening the output file and writing the PEM private
key all succeed, as answered by the oracle, and 1 otherwise; its run is its
table of calls up to the first rejected call, followed by releases only; and
when generation does not succeed the key file is neither opened nor written. -/
theorem gen_keys_inside_tpm2 (sizeof_ptr : Nat) (o : Oracle) (w : World) :
    gen_rsaKey_params = [OSSL_PARAM.uint "bits" 3072, OSSL_PARAM.terminator] ∧
    (RunsScript (gen_steps "RSA" gen_rsaKey_params RSA_KEY_PATH o w.next)
        (new_events w (gen_rsaKey o w).2) ∧
      ((gen_rsaKey o w).1 = 0 ↔
      ((o w.next).ptr = true ∧ 0 < (o (w.next + 1)).rc ∧ 0 < (o (w.next + 2)).rc ∧
        0 < (o (w.next + 3)).rc ∧ (o (w.next + 5)).ptr = true ∧ (o (w.next + 6)).rc ≠ 0)) ∧
      (¬ ((o w.next).ptr = true ∧ 0 < (o (w.next + 1)).rc ∧ 0 < (o (w.next + 2)).rc ∧
        0 < (o (w.next + 3)).rc) →
        (gen_rsaKey o w).2.fs = w.fs ∧
          ∀ e ∈ new_events w (gen_rsaKey o w).2, is_file_event e = false)) ∧
    (RunsScript (gen_steps "EC" (gen_ecKey_params sizeof_ptr) EC_KEY_PATH o w.next)
        (new_events w (gen_ecKey sizeof_ptr o w).2) ∧
      ((gen_ecKey sizeof_ptr o w).1 = 0 ↔
      ((o w.next).ptr = true ∧ 0 < (o (w.next + 1)).rc ∧ 0 < (o (w.next + 2)).rc ∧
        0 < (o (w.next + 3)).rc ∧ (o (w.next + 5)).ptr = true ∧ (o (w.next + 6)).rc ≠ 0)) ∧
      (¬ ((o w.next).ptr = true ∧ 0 < (o (w.next + 1)).rc ∧ 0 < (o (w.next + 2)).rc ∧
        0 < (o (w.next + 3)).rc) →
        (gen_ecKey sizeof_ptr o w).2.fs = w.fs ∧
          ∀ e ∈ new_events w (gen_ecKey sizeof_ptr o w).2, is_file_event e = false)) ∧
    (((new_events w (gen_rsaKey o w).2).take 1 =
        [Event.lib (Call.EVP_PKEY_CTX_new_from_name "RSA" "provider=tpm2")
          (mkOutcome (o w.next) w.next)]) ∧
    (∀ name propq r,
        Event.lib (Call.EVP_PKEY_CTX_new_from_name name propq) r ∈ new_events w (gen_rsaKey o w).2 →
        name = "RSA" ∧ propq = "provider=tpm2") ∧
    (∀ ctx ps r, Event.lib (Call.EVP_PKEY_CTX_set_params ctx ps) r ∈ new_events w (gen_rsaKey o w).2 →
        ps = gen_rsaKey_params) ∧
    (∀ ctx r, Event.lib (Call.EVP_PKEY_generate ctx) r ∈ new_events w (gen_rsaKey o w).2 →
        ∃ r0 r2,
          Event.lib (Call.EVP_PKEY_CTX_new_from_name "RSA" "provider=tpm2") r0 ∈
            new_events w (gen_rsaKey o w).2 ∧ r0.obj = some ctx ∧
          Event.lib (Call.EVP_PKEY_CTX_set_params ctx gen_rsaKey_params) r2 ∈ new_events w (gen_rsaKey o w).2 ∧
          0 < r2.rc) ∧
    ((gen_rsaKey o w).1 = 0 ∨ (gen_rsaKey o w).1 = 1) ∧
    ((gen_rsaKey o w).1 = 0 ↔
      ((new_events w (gen_rsaKey o w).2).take 7 = (gen_steps "RSA" gen_rsaKey_params RSA_KEY_PATH o w.next).map Prod.fst ∧
        ∀ b ∈ (gen_steps "RSA" gen_rsaKey_params RSA_KEY_PATH o w.next).map Prod.snd, b = true)) ∧
    ((∀ ctx r, Event.lib (Call.EVP_PKEY_generate ctx) r ∈ new_events w (gen_rsaKey o w).2 → r.rc ≤ 0) →
      (gen_rsaKey o w).2.fs = w.fs ∧ ∀ e ∈ new_events w (gen_rsaKey o w).2, is_file_event e = false)) ∧
    (((new_events w (gen_ecKey sizeof_ptr o w).2).take 1 =
        [Event.lib (Call.EVP_PKEY_CTX_new_from_name "EC" "provider=tpm2")
          (mkOutcome (o w.next) w.next)]) ∧
    (∀ name propq r,
        Event.lib (Call.EVP_PKEY_CTX_new_from_name name propq) r ∈ new_events w (gen_ecKey sizeof_ptr o w).2 →
        name = "EC" ∧ propq = "provider=tpm2") ∧
    (∀ ctx ps r, Event.lib (Call.EVP_PKEY_CTX_set_params ctx ps) r ∈ new_events w (gen_ecKey sizeof_ptr o w).2 →
        ps = (gen_ecKey_params sizeof_ptr)) ∧
    (∀ ctx r, Event.lib (Call.EVP_PKEY_generate ctx) r ∈ new_events w (gen_ecKey sizeof_ptr o w).2 →
        ∃ r0 r2,
          Event.lib (Call.EVP_PKEY_CTX_new_from_name "EC" "provider=tpm2") r0 ∈
            new_events w (gen_ecKey sizeof_ptr o w).2 ∧ r0.obj = some ctx ∧
          Event.lib (Call.EVP_PKEY_CTX_set_params ctx (gen_ecKey_params sizeof_ptr)) r2 ∈ new_events w (gen_ecKey sizeof_ptr o w).2 ∧
          0 < r2.rc) ∧
    ((gen_ecKey sizeof_ptr o w).1 = 0 ∨ (gen_ecKey sizeof_ptr o w).1 = 1) ∧
    ((gen_ecKey sizeof_ptr o w).1 = 0 ↔
      ((new_events w (gen_ecKey sizeof_ptr o w).2).take 7 = (gen_steps "EC" (gen_ecKey_params sizeof_ptr) EC_KEY_PATH o w.next).map Prod.fst ∧
        ∀ b ∈ (gen_steps "EC" (gen_ecKey_params sizeof_ptr) EC_KEY_PATH o w.next).map Prod.snd, b = true)) ∧
    ((∀ ctx r, Event.lib (Call.EVP_PKEY_generate ctx) r ∈ new_events w (gen_ecKey sizeof_ptr o w).2 → r.rc ≤ 0) →
      (gen_ecKey sizeof_ptr o w).2.fs = w.fs ∧ ∀ e ∈ new_events w (gen_ecKey sizeof_ptr o w).2, is_file_event e = false)) :=
  ⟨rfl,
    ⟨(gen_rsaKey_spec o w).2.1, (gen_rsaKey_spec o w).gen_ret_zero_iff,
      (gen_rsaKey_spec o w).fs_kept⟩,
    ⟨(gen_ecKey_spec sizeof_ptr o w).2.1, (gen_ecKey_spec sizeof_ptr o w).gen_ret_zero_iff,
      (gen_ecKey_spec sizeof_ptr o w).fs_kept⟩,
    (gen_rsaKey_spec o w).props, (gen_ecKey_spec sizeof_ptr o w).props⟩

/-- C2: private-key operations run on the tpm2 provider, public-key operations
on the default provider.  In every run of `rsa_evp_pkey_sign_verify` and of
`ec_evp_pkey_sign_verify`, every `EVP_PKEY_sign` is performed on a context that
`EVP_PKEY_CTX_new_from_pkey` created from the loaded key `pKey` with
"provider=tpm2" and that no "provider=default" creation returned, and every
`EVP_PKEY_verify` is performed on a context created with "provider=default"
from the public key that `PEM_read_bio_PUBKEY` parsed from the text
`PEM_write_bio_PUBKEY` exported from `pKey`, a context that no "provider=tpm2"
creation returned.  The same holds in `rsa_evp_pkey_encrypt_decrypt` for
`EVP_PKEY_decrypt` (tpm2, from `pKey`) and `EVP_PKEY_encrypt` (default, from the
re-read public key). -/
theorem private_ops_on_tpm2_public_ops_on_default (o : Oracle) (pKey : Option Handle)
    (w : World) :
    ((∀ ctx sig siglen tbs tbslen r,
        Event.lib (Call.EVP_PKEY_sign ctx sig siglen tbs tbslen) r ∈
          new_events w (rsa_evp_pkey_sign_verify o pKey w).2 →
        (∃ r0, Event.lib (Call.EVP_PKEY_CTX_new_from_pkey pKey "provider=tpm2") r0 ∈
            new_events w (rsa_evp_pkey_sign_verify o pKey w).2 ∧ r0.obj = some ctx) ∧
        (∀ k r1, Event.lib (Call.EVP_PKEY_CTX_new_from_pkey k "provider=default") r1 ∈
            new_events w (rsa_evp_pkey_sign_verify o pKey w).2 → r1.obj ≠ some ctx)) ∧
    (∀ ctx2 sig sigbytes siglen tbs tbslen r,
        Event.lib (Call.EVP_PKEY_verify ctx2 sig sigbytes siglen tbs tbslen) r ∈
          new_events w (rsa_evp_pkey_sign_verify o pKey w).2 →
        (∃ bio pub rw rr rc,
          Event.lib (Call.PEM_write_bio_PUBKEY bio pKey) rw ∈
            new_events w (rsa_evp_pkey_sign_verify o pKey w).2 ∧ 0 < rw.rc ∧
          Event.lib (Call.PEM_read_bio_PUBKEY bio (some rw.data)) rr ∈
            new_events w (rsa_evp_pkey_sign_verify o pKey w).2 ∧ rr.obj = some pub ∧
          Event.lib (Call.EVP_PKEY_CTX_new_from_pkey (some pub) "provider=default") rc ∈
            new_events w (rsa_evp_pkey_sign_verify o pKey w).2 ∧ rc.obj = some ctx2) ∧
        (∀ k r1, Event.lib (Call.EVP_PKEY_CTX_new_from_pkey k "provider=tpm2") r1 ∈
            new_events w (rsa_evp_pkey_sign_verify o pKey w).2 → r1.obj ≠ some ctx2))) ∧
    ((∀ ctx sig siglen tbs tbslen r,
        Event.lib (Call.EVP_PKEY_sign ctx sig siglen tbs tbslen) r ∈
          new_events w (ec_evp_pkey_sign_verify o pKey w).2 →
        (∃ r0, Event.lib (Call.EVP_PKEY_CTX_new_from_pkey pKey "provider=tpm2") r0 ∈
            new_events w (ec_evp_pkey_sign_verify o pKey w).2 ∧ r0.obj = some ctx) ∧
        (∀ k r1, Event.lib (Call.EVP_PKEY_CTX_new_from_pkey k "provider=default") r1 ∈
            new_events w (ec_evp_pkey_sign_verify o pKey w).2 → r1.obj ≠ some ctx)) ∧
    (∀ ctx2 sig sigbytes siglen tbs tbslen r,
        Event.lib (Call.EVP_PKEY_verify ctx2 sig sigbytes siglen tbs tbslen) r ∈
          new_events w (ec_evp_pkey_sign_verify o pKey w).2 →
        (∃ bio pub rw rr rc,
          Event.lib (Call.PEM_write_bio_PUBKEY bio pKey) rw ∈
            new_events w (ec_evp_pkey_sign_verify o pKey w).2 ∧ 0 < rw.rc ∧
          Event.lib (Call.PEM_read_bio_PUBKEY bio (some rw.data)) rr ∈
            new_events w (ec_evp_pkey_sign_verify o pKey w).2 ∧ rr.obj = some pub ∧
          Event.lib (Call.EVP_PKEY_CTX_new_from_pkey (some pub) "provider=default") rc ∈
            new_events w (ec_evp_pkey_sign_verify o pKey w).2 ∧ rc.obj = some ctx2) ∧
        (∀ k r1, Event.lib (Call.EVP_PKEY_CTX_new_from_pkey k "provider=tpm2") r1 ∈
            new_events w (ec_evp_pkey_sign_verify o pKey w).2 → r1.obj ≠ some ctx2))) ∧
    ((∀ ctx2 out outlen inbuf inbytes inlen r,
        Event.lib (Call.EVP_PKEY_decrypt ctx2 out outlen inbuf inbytes inlen) r ∈
          new_events w (rsa_evp_pkey_encrypt_decrypt o pKey w).2 →
        (∃ r0, Event.lib (Call.EVP_PKEY_CTX_new_from_pkey pKey "provider=tpm2") r0 ∈
            new_events w (rsa_evp_pkey_encrypt_decrypt o pKey w).2 ∧ r0.obj = some ctx2) ∧
        (∀ k r1, Event.lib (Call.EVP_PKEY_CTX_new_from_pkey k "provider=default") r1 ∈
            new_events w (rsa_evp_pkey_encrypt_decrypt o pKey w).2 → r1.obj ≠ some ctx2)) ∧
    (∀ ctx out outlen inbytes inlen r,
        Event.lib (Call.EVP_PKEY_encrypt ctx out outlen inbytes inlen) r ∈
          new_events w (rsa_evp_pkey_encrypt_decrypt o pKey w).2 →
        (∃ bio pub rw rr rc,
          Event.lib (Call.PEM_write_bio_PUBKEY bio pKey) rw ∈
            new_events w (rsa_evp_pkey_encrypt_decrypt o pKey w).2 ∧ 0 < rw.rc ∧
          Event.lib (Call.PEM_read_bio_PUBKEY bio (some rw.data)) rr ∈
            new_events w (rsa_evp_pkey_encrypt_decrypt o pKey w).2 ∧ rr.obj = some pub ∧
          Event.lib (Call.EVP_PKEY_CTX_new_from_pkey (some pub) "provider=default") rc ∈
            new_events w (rsa_evp_pkey_encrypt_decrypt o pKey w).2 ∧ rc.obj = some ctx) ∧
        (∀ k r1, Event.lib (Call.EVP_PKEY_CTX_new_from_pkey k "provider=tpm2") r1 ∈
            new_events w (rsa_evp_pkey_encrypt_decrypt o pKey w).2 → r1.obj ≠ some ctx))) :=
  ⟨rsa_evp_pkey_sign_verify_providers o pKey w, ec_evp_pkey_sign_verify_providers o pKey w,
    rsa_evp_pkey_encrypt_decrypt_providers o pKey w⟩

/-- C3: for every outcome of the library calls `rsa_evp_pkey_encrypt_decrypt`
returns 0 exactly when every library call of its table succeeds (the fifteen
calls, in order, answered by the oracle) and the bytes the final
`EVP_PKEY_decrypt` wrote are exactly the cleartext `[1, 2, 3]` (so the
deciphered length is 3), and returns -1 otherwise.  The run is the table of the
function up to the first rejected call, followed by releases only; when the
function returns 0 the run performed all fifteen calls.  The `strncmp`
comparison accepts no 3-byte buffer that differs from `[1, 2, 3]`, one with a
zero byte included, and on the deciphered buffer the test of the code passes
only for `[1, 2, 3]`. -/
theorem encrypt_decrypt_returns_zero_iff_round_trip (o : Oracle) (pKey : Option Handle)
    (w : World) :
    RunsScript (ed_steps o pKey w.next)
      (new_events w (rsa_evp_pkey_encrypt_decrypt o pKey w).2) ∧
    ((rsa_evp_pkey_encrypt_decrypt o pKey w).1 = 0 ↔
      ((o w.next).ptr = true ∧ 0 < (o (w.next + 1)).rc ∧ (o (w.next + 2)).ptr = true ∧
        (o (w.next + 3)).ptr = true ∧ 0 < (o (w.next + 4)).rc ∧ 0 < (o (w.next + 5)).rc ∧
        0 < (o (w.next + 6)).rc ∧ (o (w.next + 7)).ptr = true ∧ 0 < (o (w.next + 8)).rc ∧
        (o (w.next + 9)).ptr = true ∧ 0 < (o (w.next + 10)).rc ∧ 0 < (o (w.next + 11)).rc ∧
        0 < (o (w.next + 12)).rc ∧ (o (w.next + 13)).ptr = true ∧
        0 < (o (w.next + 14)).rc ∧ (o (w.next + 14)).data = [1, 2, 3])) ∧
    (((rsa_evp_pkey_encrypt_decrypt o pKey w).1 = 0 ∨
      (rsa_evp_pkey_encrypt_decrypt o pKey w).1 = -1) ∧
    ((rsa_evp_pkey_encrypt_decrypt o pKey w).1 = 0 ↔
      ((new_events w (rsa_evp_pkey_encrypt_decrypt o pKey w).2).take 15 =
          (ed_steps o pKey w.next).map Prod.fst ∧
        (∀ b ∈ ((ed_steps o pKey w.next).map Prod.snd).take 14, b = true) ∧
        0 < (o (w.next + 14)).rc ∧ (o (w.next + 14)).data = [1, 2, 3]))) ∧
    (∀ d : List Nat, d.length = 3 → d ≠ [1, 2, 3] → strncmp [1, 2, 3] d 3 ≠ 0) ∧
    strncmp [1, 2, 3] [1, 0, 3] 3 ≠ 0 ∧ strncmp [1, 2, 3] [1, 2, 0] 3 ≠ 0 ∧
    strncmp [1, 2, 3] [0, 2, 3] 3 ≠ 0 ∧
    (∀ buf d : List Nat,
      ¬ (d.length ≠ 3 ∨ strncmp [1, 2, 3] (overwrite buf d) d.length ≠ 0) ↔ d = [1, 2, 3]) :=
  ⟨(rsa_evp_pkey_encrypt_decrypt_spec o pKey w).2.1,
    rsa_evp_pkey_encrypt_decrypt_accepts o pKey w,
    rsa_evp_pkey_encrypt_decrypt_result o pKey w, strncmp_rejects, by decide, by decide,
    by decide, compare_accepts_iff⟩

/-- C4: for every outcome of the library calls `rsa_evp_pkey_sign_verify` and
`ec_evp_pkey_sign_verify` each return 0 exactly when every library call of the
table of the function is accepted: context creation, signing, export and import
of the public key and the set-up of the verifier succeed, `EVP_PKEY_verify`
over the original hash (32 zero bytes) returns a positive value and
`EVP_PKEY_verify` over the corrupted hash returns exactly 0; in every other
case they return -1.  The run is the table of the function up to the first
rejected call, followed by releases only.  A non-positive result for the
original hash, or a non-zero result (a negative one included) for the corrupted
hash, makes the function return -1. -/
theorem sign_verify_returns_zero_iff_round_trip (o : Oracle) (pKey : Option Handle)
    (w : World) :
    RunsScript (rsa_sv_steps o pKey w.next)
      (new_events w (rsa_evp_pkey_sign_verify o pKey w).2) ∧
    ((rsa_evp_pkey_sign_verify o pKey w).1 = 0 ↔
      ((o w.next).ptr = true ∧ 0 < (o (w.next + 1)).rc ∧ 0 < (o (w.next + 2)).rc ∧
        0 < (o (w.next + 3)).rc ∧ 0 < (o (w.next + 4)).rc ∧ 0 < (o (w.next + 5)).rc ∧
        (o (w.next + 6)).ptr = true ∧ 0 < (o (w.next + 7)).rc ∧
        (o (w.next + 8)).ptr = true ∧ 0 < (o (w.next + 9)).rc ∧
        (o (w.next + 10)).ptr = true ∧ (o (w.next + 11)).ptr = true ∧
        0 < (o (w.next + 12)).rc ∧ 0 < (o (w.next + 13)).rc ∧ 0 < (o (w.next + 14)).rc ∧
        0 < (o (w.next + 15)).rc ∧ (o (w.next + 16)).rc = 0)) ∧
    RunsScript (ec_sv_steps o pKey w.next)
      (new_events w (ec_evp_pkey_sign_verify o pKey w).2) ∧
    ((ec_evp_pkey_sign_verify o pKey w).1 = 0 ↔
      ((o w.next).ptr = true ∧ 0 < (o (w.next + 1)).rc ∧ 0 < (o (w.next + 2)).rc ∧
        0 < (o (w.next + 3)).rc ∧ (o (w.next + 4)).ptr = true ∧ 0 < (o (w.next + 5)).rc ∧
        (o (w.next + 6)).ptr = true ∧ 0 < (o (w.next + 7)).rc ∧
        (o (w.next + 8)).ptr = true ∧ (o (w.next + 9)).ptr = true ∧
        0 < (o (w.next + 10)).rc ∧ 0 < (o (w.next + 11)).rc ∧ 0 < (o (w.next + 12)).rc ∧
        (o (w.next + 13)).rc = 0)) ∧
    (((rsa_evp_pkey_sign_verify o pKey w).1 = 0 ∨ (rsa_evp_pkey_sign_verify o pKey w).1 = -1) ∧
    ((rsa_evp_pkey_sign_verify o pKey w).1 = 0 ↔
      ((new_events w (rsa_evp_pkey_sign_verify o pKey w).2).take 17 =
          (rsa_sv_steps o pKey w.next).map Prod.fst ∧
        ∀ b ∈ (rsa_sv_steps o pKey w.next).map Prod.snd, b = true)) ∧
    (∀ ctx2 sig sigbytes siglen tbslen r,
        Event.lib (Call.EVP_PKEY_verify ctx2 sig sigbytes siglen sha256_init tbslen) r ∈
          new_events w (rsa_evp_pkey_sign_verify o pKey w).2 →
        r.rc ≤ 0 → (rsa_evp_pkey_sign_verify o pKey w).1 = -1) ∧
    (∀ ctx2 sig sigbytes siglen tbslen r,
        Event.lib (Call.EVP_PKEY_verify ctx2 sig sigbytes siglen (corrupt sha256_init) tbslen) r ∈
          new_events w (rsa_evp_pkey_sign_verify o pKey w).2 →
        r.rc ≠ 0 → (rsa_evp_pkey_sign_verify o pKey w).1 = -1) ∧
    ((rsa_evp_pkey_sign_verify o pKey w).1 = 0 →
      ∃ ctx2 sig sigbytes siglen r1 r2,
        Event.lib (Call.EVP_PKEY_verify ctx2 sig sigbytes siglen sha256_init 32) r1 ∈
          new_events w (rsa_evp_pkey_sign_verify o pKey w).2 ∧ 0 < r1.rc ∧
        Event.lib (Call.EVP_PKEY_verify ctx2 sig sigbytes siglen (corrupt sha256_init) 32) r2 ∈
          new_events w (rsa_evp_pkey_sign_verify o pKey w).2 ∧ r2.rc = 0)) ∧
    (((ec_evp_pkey_sign_verify o pKey w).1 = 0 ∨ (ec_evp_pkey_sign_verify o pKey w).1 = -1) ∧
    ((ec_evp_pkey_sign_verify o pKey w).1 = 0 ↔
      ((new_events w (ec_evp_pkey_sign_verify o pKey w).2).take 14 =
          (ec_sv_steps o pKey w.next).map Prod.fst ∧
        ∀ b ∈ (ec_sv_steps o pKey w.next).map Prod.snd, b = true)) ∧
    (∀ ctx2 sig sigbytes siglen tbslen r,
        Event.lib (Call.EVP_PKEY_verify ctx2 sig sigbytes siglen sha256_init tbslen) r ∈
          new_events w (ec_evp_pkey_sign_verify o pKey w).2 →
        r.rc ≤ 0 → (ec_evp_pkey_sign_verify o pKey w).1 = -1) ∧
    (∀ ctx2 sig sigbytes siglen tbslen r,
        Event.lib (Call.EVP_PKEY_verify ctx2 sig sigbytes siglen (corrupt sha256_init) tbslen) r ∈
          new_events w (ec_evp_pkey_sign_verify o pKey w).2 →
        r.rc ≠ 0 → (ec_evp_pkey_sign_verify o pKey w).1 = -1) ∧
    ((ec_evp_pkey_sign_verify o pKey w).1 = 0 →
      ∃ ctx2 sig sigbytes siglen r1 r2,
        Event.lib (Call.EVP_PKEY_verify ctx2 sig sigbytes siglen sha256_init 32) r1 ∈
          new_events w (ec_evp_pkey_sign_verify o pKey w).2 ∧ 0 < r1.rc ∧
        Event.lib (Call.EVP_PKEY_verify ctx2 sig sigbytes siglen (corrupt sha256_init) 32) r2 ∈
          new_events w (ec_evp_pkey_sign_verify o pKey w).2 ∧ r2.rc = 0)) :=
  ⟨(rsa_evp_pkey_sign_verify_spec o pKey w).2.1, rsa_evp_pkey_sign_verify_accepts o pKey w,
    (ec_evp_pkey_sign_verify_spec o pKey w).2.1, ec_evp_pkey_sign_verify_accepts o pKey w,
    rsa_evp_pkey_sign_verify_result o pKey w, ec_evp_pkey_sign_verify_result o pKey w⟩

theorem GenSpec.set_params_event {alg : String} {params : List OSSL_PARAM} {path : String}
    {o : Oracle} {w : World} {res : Int × World} (h : GenSpec alg params path o w res)
    (hctx : (o w.next).ptr = true) (hinit : 0 < (o (w.next + 1)).rc) :
    Event.lib (Call.EVP_PKEY_CTX_set_params w.next params)
      (mkOutcome (o (w.next + 2)) (w.next + 2)) ∈ new_events w res.2 := by
  have hp : 3 ≤ performed ((gen_steps alg params path o w.next).map Prod.snd) := by
    simp only [gen_steps, List.map, hctx, hinit, decide_True, performed]
    have := performed_pos (decide (0 < (o (w.next + 2)).rc))
      [decide (0 < (o (w.next + 3)).rc), true, (o (w.next + 5)).ptr,
        decide ((o (w.next + 6)).rc ≠ 0)]
    omega
  exact mem_of_take_eq (h.2.1.take_le hp) (by simp [gen_steps])

theorem GenSpec.ctx_event {alg : String} {params : List OSSL_PARAM} {path : String}
    {o : Oracle} {w : World} {res : Int × World} (h : GenSpec alg params path o w res) :
    Event.lib (Call.EVP_PKEY_CTX_new_from_name alg "provider=tpm2")
      (mkOutcome (o w.next) w.next) ∈ new_events w res.2 :=
  mem_of_take_eq h.props.1 (by simp)

/-- C8: in `gen_ecKey` the size given to `OSSL_PARAM_construct_utf8_string` for
the "group" parameter is `sizeof(group)` with `char *group`, the size of a
pointer, whatever the curve name.  Once the context is created and
`EVP_PKEY_keygen_init` succeeds, `EVP_PKEY_CTX_set_params` receives the
parameter `"group" = "P-256"` with that declared size, and never another
parameter list.  The name has 5 characters and its literal occupies 6 bytes:
with 8-byte pointers the declared size is neither the length of the name nor
within the literal, with 4-byte pointers it is not the length of the name. -/
theorem gen_ecKey_group_size_is_pointer_size (sizeof_ptr : Nat) (o : Oracle) (w : World)
    (hctx : (o w.next).ptr = true) (hinit : 0 < (o (w.next + 1)).rc) :
    Event.lib (Call.EVP_PKEY_CTX_set_params w.next
        [OSSL_PARAM.utf8_string "group" "P-256" sizeof_ptr, OSSL_PARAM.terminator])
      (mkOutcome (o (w.next + 2)) (w.next + 2)) ∈ new_events w (gen_ecKey sizeof_ptr o w).2 ∧
    (∀ ctx ps r, Event.lib (Call.EVP_PKEY_CTX_set_params ctx ps) r ∈
        new_events w (gen_ecKey sizeof_ptr o w).2 →
      ps = [OSSL_PARAM.utf8_string "group" "P-256" sizeof_ptr, OSSL_PARAM.terminator]) ∧
    "P-256".length = 5 ∧ literal_bytes "P-256" = 6 ∧
    (sizeof_ptr = 8 → sizeof_ptr ≠ "P-256".length ∧ literal_bytes "P-256" < sizeof_ptr) ∧
    (sizeof_ptr = 4 → sizeof_ptr ≠ "P-256".length) := by
  have h := gen_ecKey_spec sizeof_ptr o w
  refine ⟨h.set_params_event hctx hinit, h.props.2.2.1, by decide, by decide, ?_, ?_⟩
  · intro h8
    subst h8
    decide
  · intro h4
    subst h4
    decide

theorem gen_ecKey_group_size_is_pointer_size_witness :
    (ok_oracle World.start.next).ptr = true ∧ 0 < (ok_oracle (World.start.next + 1)).rc ∧
    Event.lib (Call.EVP_PKEY_CTX_set_params 0
        [OSSL_PARAM.utf8_string "group" "P-256" 8, OSSL_PARAM.terminator])
      (mkOutcome (ok_oracle 2) 2) ∈ new_events World.start (gen_ecKey 8 ok_oracle World.start).2 ∧
    (8 ≠ "P-256".length ∧ literal_bytes "P-256" < 8) :=
  ⟨rfl, by decide,
    (gen_ecKey_group_size_is_pointer_size 8 ok_oracle World.start rfl (by decide)).1,
    (gen_ecKey_group_size_is_pointer_size 8 ok_oracle World.start rfl (by decide)).2.2.2.2.1 rfl⟩

/-- C9: `gen_rsaKey` and `gen_ecKey` do not release the key-generation context.
Whenever `EVP_PKEY_CTX_new_from_name` returns a context, the run of the function
contains the call that created the context and no `EVP_PKEY_CTX_free` call at
all, so the context is still allocated when the function returns. -/
theorem gen_key_context_never_freed (sizeof_ptr : Nat) (o : Oracle) (w : World)
    (hctx : (o w.next).ptr = true) :
    (Event.lib (Call.EVP_PKEY_CTX_new_from_name "RSA" "provider=tpm2")
        (mkOutcome (o w.next) w.next) ∈ new_events w (gen_rsaKey o w).2 ∧
      (mkOutcome (o w.next) w.next).obj = some w.next ∧
      ∀ ctx r, Event.lib (Call.EVP_PKEY_CTX_free ctx) r ∉ new_events w (gen_rsaKey o w).2) ∧
    (Event.lib (Call.EVP_PKEY_CTX_new_from_name "EC" "provider=tpm2")
        (mkOutcome (o w.next) w.next) ∈ new_events w (gen_ecKey sizeof_ptr o w).2 ∧
      (mkOutcome (o w.next) w.next).obj = some w.next ∧
      ∀ ctx r, Event.lib (Call.EVP_PKEY_CTX_free ctx) r ∉
        new_events w (gen_ecKey sizeof_ptr o w).2) := by
  have hr := gen_rsaKey_spec o w
  have he := gen_ecKey_spec sizeof_ptr o w
  refine ⟨⟨hr.ctx_event, by simp [hctx], ?_⟩, ⟨he.ctx_event, by simp [hctx], ?_⟩⟩
  · intro ctx r hmem
    have := hr.2.2.2.2 _ hmem
    simp [is_ctx_free] at this
  · intro ctx r hmem
    have := he.2.2.2.2 _ hmem
    simp [is_ctx_free] at this

theorem gen_key_context_never_freed_witness :
    (ok_oracle World.start.next).ptr = true ∧
    Event.lib (Call.EVP_PKEY_CTX_new_from_name "RSA" "provider=tpm2")
        (mkOutcome (ok_oracle 0) 0) ∈ new_events World.start (gen_rsaKey ok_oracle World.start).2 ∧
    (mkOutcome (ok_oracle 0) 0).obj = some 0 ∧
    ∀ ctx r, Event.lib (Call.EVP_PKEY_CTX_free ctx) r ∉
      new_events World.start (gen_rsaKey ok_oracle World.start).2 :=
  ⟨rfl, (gen_key_context_never_freed 8 ok_oracle World.start rfl).1⟩

/-! ## The claims on concrete runs -/

theorem main_returns_zero_iff_all_steps_succeed_witness :
    (main 8 (zero_at [45, 64]) World.start).1 = 0 ∧
    step_log (new_events World.start (main 8 (zero_at [45, 64]) World.start).2) =
      (main_order 0).map (fun s => (s, true)) ∧
    (main 8 ok_oracle World.start).1 = 1 ∧
    (main 8 (answers 2 [4] [45, 64]) World.start).1 = 0 ∧
    (∃ s, (s, false) ∈ step_log (new_events World.start (main 8 ok_oracle World.start).2)) :=
  ⟨by decide,
    (main_returns_zero_iff_all_steps_succeed 8 (zero_at [45, 64]) World.start).2.2.1.mp
      (by decide),
    by decide, by decide,
    (main_returns_zero_iff_all_steps_succeed 8 ok_oracle World.start).2.2.2.1.mp (by decide)⟩

theorem main_steps_in_order_stop_at_first_failure_witness :
    (step_log (new_events World.start (main 8 ok_oracle World.start).2))[9]? =
        some (Step.call Fn.rsa_evp_pkey_sign_verify, false) ∧
      (step_log (new_events World.start (main 8 ok_oracle World.start).2)).length = 10 :=
  ⟨by decide,
    (main_steps_in_order_stop_at_first_failure 8 ok_oracle World.start).2.2.1 9
      (Step.call Fn.rsa_evp_pkey_sign_verify) (by decide)⟩

theorem encrypt_decrypt_returns_zero_iff_round_trip_witness :
    (rsa_evp_pkey_encrypt_decrypt ok_oracle (some 0) World.start).1 = 0 ∧
    (new_events World.start (rsa_evp_pkey_encrypt_decrypt ok_oracle (some 0) World.start).2).take 15
      = (ed_steps ok_oracle (some 0) 0).map Prod.fst ∧
    (rsa_evp_pkey_encrypt_decrypt (zero_at [14]) (some 0) World.start).1 = -1 ∧
    (rsa_evp_pkey_encrypt_decrypt (answers 2 [] []) (some 0) World.start).1 = 0 ∧
    (rsa_evp_pkey_encrypt_decrypt (writes_at 14 [1, 0, 3]) (some 0) World.start).1 = -1 :=
  ⟨by decide,
    ((encrypt_decrypt_returns_zero_iff_round_trip ok_oracle (some 0) World.start).2.2.1.2.mp
      (by decide)).1,
    by decide,
    (encrypt_decrypt_returns_zero_iff_round_trip (answers 2 [] []) (some 0) World.start).2.1.mpr
      (by decide),
    by decide⟩

theorem sign_verify_returns_zero_iff_round_trip_witness :
    (rsa_evp_pkey_sign_verify (zero_at [16]) (some 0) World.start).1 = 0 ∧
    (new_events World.start (rsa_evp_pkey_sign_verify (zero_at [16]) (some 0) World.start).2).take 17
      = (rsa_sv_steps (zero_at [16]) (some 0) 0).map Prod.fst ∧
    (rsa_evp_pkey_sign_verify ok_oracle (some 0) World.start).1 = -1 ∧
    (ec_evp_pkey_sign_verify (zero_at [13]) (some 0) World.start).1 = 0 ∧
    (ec_evp_pkey_sign_verify ok_oracle (some 0) World.start).1 = -1 ∧
    (rsa_evp_pkey_sign_verify (answers 2 [] [16]) (some 0) World.start).1 = 0 ∧
    (ec_evp_pkey_sign_verify (answers 2 [] [13]) (some 0) World.start).1 = 0 ∧
    (ec_evp_pkey_sign_verify (answers (-1) [] []) (some 0) World.start).1 = -1 :=
  ⟨by decide,
    ((sign_verify_returns_zero_iff_round_trip (zero_at [16]) (some 0)
      World.start).2.2.2.2.1.2.1.mp (by decide)).1,
    by decide, by decide, by decide,
    (sign_verify_returns_zero_iff_round_trip (answers 2 [] [16]) (some 0) World.start).2.1.mpr
      (by decide),
    (sign_verify_returns_zero_iff_round_trip (answers 2 [] [13]) (some 0)
      World.start).2.2.2.1.mpr (by decide),
    by decide⟩

theorem gen_keys_inside_tpm2_witness :
    (gen_ecKey 8 ok_oracle World.start).1 = 0 ∧
    (new_events World.start (gen_ecKey 8 ok_oracle World.start).2).take 7 =
      (gen_steps "EC" (gen_ecKey_params 8) EC_KEY_PATH ok_oracle 0).map Prod.fst ∧
    (gen_ecKey 8 (zero_at [3]) World.start).1 = 1 ∧
    (gen_rsaKey (answers 2 [] []) World.start).1 = 0 ∧
    (gen_ecKey 8 (answers 2 [] []) World.start).1 = 0 :=
  ⟨by decide,
    ((gen_keys_inside_tpm2 8 ok_oracle World.start).2.2.2.2.2.2.2.2.2.1.mp (by decide)).1,
    by decide,
    (gen_keys_inside_tpm2 8 (answers 2 [] []) World.start).2.1.2.1.mpr (by decide),
    (gen_keys_inside_tpm2 8 (answers 2 [] []) World.start).2.2.1.2.1.mpr (by decide)⟩

theorem private_ops_on_tpm2_public_ops_on_default_witness :
    ∃ r0, Event.lib (Call.EVP_PKEY_CTX_new_from_pkey (some 0) "provider=tpm2") r0 ∈
        new_events World.start (rsa_evp_pkey_sign_verify ok_oracle (some 0) World.start).2 ∧
      r0.obj = some 0 :=
  ((private_ops_on_tpm2_public_ops_on_default ok_oracle (some 0) World.start).1.1 0 none 0
    sha256_init 32 (mkOutcome (ok_oracle 5) 5) (by decide)).1

end Examples
